import Mathlib

/-!
Verification development for the ShadowDiff schema-driven JSON comparison
engine (`src/shadowdiff/`).  The Python source is shallowly embedded:
JSON documents become the inductive type `Value`, Python dicts become
association lists in insertion order, in-place loops become folds or
fueled recursion, and every code path that can raise a Python exception
returns `Except PyErr`.  The engine's `compare` catches all exceptions,
so the embedding of `compare` is a total function into
`DiffReport ⊕ ErrorResponse`.

Modelling notes (Python runtime / third-party behaviour that is not part
of the repository's own sources):
- CPython iterates a `set` of strings in a hash-dependent but
  per-process-deterministic order; the embedding fixes the order of
  `set(a) | set(b)` as "keys of `a` in insertion order, then keys of `b`
  not in `a`".  No settled claim depends on the particular order.
- `re` regular-expression matching (used by `compare_strings`) is
  modelled as anchored literal-prefix matching; no settled claim depends
  on regex semantics.
- `jsonpath_ng` (used only for non-recursive global-ignore patterns) is
  modelled for plain dotted/indexed paths; the settled claims only
  exercise the `$..field` recursive patterns, which the source handles
  itself.
- Python `float` is modelled as `ℚ`; no settled claim depends on IEEE
  rounding.
-/

attribute [local semireducible] Rat.add Rat.mul Rat.sub Rat.inv Rat.ofScientific

namespace ShadowDiff

/-- JSON document values, mirroring the untagged dynamic values the Python
source manipulates: `None`, `bool`, `int`, `float`, `str`, `list`, `dict`
(insertion-ordered association list). -/
inductive Value where
  | null : Value
  | bool (b : Bool) : Value
  | int (n : Int) : Value
  | float (q : ℚ) : Value
  | str (s : String) : Value
  | arr (items : List Value) : Value
  | obj (entries : List (String × Value)) : Value
  deriving Repr

namespace Value

/-- Python truthiness of a value (`bool(x)`). -/
def truthy : Value → Bool
  | .null => false
  | .bool b => b
  | .int n => n != 0
  | .float q => q != 0
  | .str s => s != ""
  | .arr l => !l.isEmpty
  | .obj l => !l.isEmpty

/-- Numeric view used by Python `==`: `bool` is an `int` subclass, and
`int`/`float` compare by value. -/
def asNum : Value → Option ℚ
  | .bool b => some (if b then 1 else 0)
  | .int n => some (n : ℚ)
  | .float q => some q
  | _ => none

/-- Python dict lookup `d.get(k)` / `d[k]` on a string-keyed object:
first entry with the key. -/
def objGet (entries : List (String × Value)) (k : String) : Option Value :=
  (entries.find? (fun e => e.1 = k)).map (·.2)

/-- Python `k in d`. -/
def objHas (entries : List (String × Value)) (k : String) : Bool :=
  (objGet entries k).isSome

/-- Python `d[k] = v`: update in place if the key exists, else append. -/
def objSet (entries : List (String × Value)) (k : String) (v : Value) :
    List (String × Value) :=
  if objHas entries k then
    entries.map (fun e => if e.1 = k then (k, v) else e)
  else
    entries ++ [(k, v)]

/-- Python `del d[k]` (removes every binding of `k`; real dicts hold at
most one). -/
def objDel (entries : List (String × Value)) (k : String) :
    List (String × Value) :=
  entries.filter (fun e => e.1 ≠ k)

/-- Keys of a dict in insertion order, first occurrence only. -/
def objKeys (entries : List (String × Value)) : List String :=
  (entries.map (·.1)).dedup

mutual

/-- Python `==` on document values: numeric cross-type equality (with
`bool` counting as a number), strings, element-wise lists, and
order-insensitive dicts. -/
def pyEq : Value → Value → Bool
  | .null, .null => true
  | .str a, .str b => a = b
  | .arr a, .arr b => pyEqList a b
  | .obj a, .obj b =>
    (objKeys a).length = (objKeys b).length && pyEqObjFwd a b
  | a, b =>
    match a.asNum, b.asNum with
    | some x, some y => x = y
    | _, _ => false

/-- Element-wise Python `==` on two lists. -/
def pyEqList : List Value → List Value → Bool
  | [], [] => true
  | x :: xs, y :: ys => pyEq x y && pyEqList xs ys
  | _, _ => false

/-- Every binding of the first dict is matched by an equal binding in the
second (Python dict `==` is order-insensitive). -/
def pyEqObjFwd : List (String × Value) → List (String × Value) → Bool
  | [], _ => true
  | (k, v) :: rest, b =>
    (match objGet b k with
     | some w => pyEq v w
     | none => false) && pyEqObjFwd rest b

end

end Value

/-- Python exceptions that can escape the pipeline stages; the engine's
`compare` catches them all and turns them into an `ErrorResponse`.
`valueError`, `typeError` and `attributeError` model the corresponding
built-in exception classes; `recursionError` models `RecursionError`
(the embedding raises it when fuel runs out). -/
inductive PyErr where
  | validation (msg : String) (details : Value)
  | schemaParse (msg : String) (reason : Option String)
  | payloadSize (sizeMB limitMB : ℚ)
  | externalRef (ref : String)
  | circularRef (ref : String)
  | valueError (msg : String)
  | typeError (msg : String)
  | attributeError (msg : String)
  | keyError (key : String)
  | recursionError
  deriving Repr

/-- Kernel-reducible `startsWith` (the library version does not reduce
in the kernel). -/
def strStartsWith (s p : String) : Bool :=
  p.toList.isPrefixOf s.toList

/-- Kernel-reducible `endsWith`. -/
def strEndsWith (s p : String) : Bool :=
  p.toList.reverse.isPrefixOf s.toList.reverse

/-- Kernel-reducible `String.drop`. -/
def strDrop (s : String) (n : Nat) : String :=
  String.mk (s.toList.drop n)

/-- Kernel-reducible `String.dropRight`. -/
def strDropRight (s : String) (n : Nat) : String :=
  String.mk (s.toList.take (s.toList.length - n))

/-- Kernel-reducible `String.toLower`. -/
def strLower (s : String) : String :=
  String.mk (s.toList.map Char.toLower)

/-- Kernel-reducible `String.toUpper`. -/
def strUpper (s : String) : String :=
  String.mk (s.toList.map Char.toUpper)

/-- Split a character list on a non-empty separator (semantics of
`String.splitOn`). -/
def splitOnChars (sep : List Char) : Nat → List Char → List Char →
    List (List Char)
  | 0, cs, current => [current.reverse ++ cs]
  | Nat.succ fuel, cs, current =>
    if sep.isPrefixOf cs then
      current.reverse :: splitOnChars sep fuel (cs.drop sep.length) []
    else
      match cs with
      | [] => [current.reverse]
      | c :: rest => splitOnChars sep fuel rest (c :: current)

/-- Kernel-reducible `String.splitOn` (empty separator yields the whole
string, as in the library). -/
def strSplitOn (s sep : String) : List String :=
  if sep == "" then [s]
  else (splitOnChars sep.toList (s.toList.length + 1) s.toList []).map String.mk

/-- Replace every occurrence of a non-empty pattern (semantics of
`String.replace`). -/
def replaceChars (pat repl : List Char) : Nat → List Char → List Char
  | 0, cs => cs
  | Nat.succ fuel, cs =>
    if pat.isPrefixOf cs then repl ++ replaceChars pat repl fuel (cs.drop pat.length)
    else
      match cs with
      | [] => []
      | c :: rest => c :: replaceChars pat repl fuel rest

/-- Kernel-reducible `String.replace`. -/
def strReplace (s pat repl : String) : String :=
  if pat == "" then s
  else String.mk (replaceChars pat.toList repl.toList (s.toList.length + 1) s.toList)

/-- Kernel-reducible `String.intercalate`. -/
def strJoin (sep : String) : List String → String
  | [] => ""
  | [x] => x
  | x :: rest => x ++ sep ++ strJoin sep rest

/-- Characters Python `str.strip()` and `\s` treat as whitespace
(ASCII subset). -/
def isPyWs (c : Char) : Bool :=
  c == ' ' || c == '\t' || c == '\n' || c == '\r' ||
    c == Char.ofNat 11 || c == Char.ofNat 12

/-- Python `str.strip()`. -/
def pyStrip (s : String) : String :=
  String.mk (((s.toList.dropWhile isPyWs).reverse.dropWhile isPyWs).reverse)

/-- Python `str.lower()` (ASCII model). -/
def pyLower (s : String) : String := strLower s

/-- Smallest exponent `k ≤ 40` with `d ∣ 10^k`, used to render a rational
as a finite decimal the way `repr(float)` would. -/
def decExp (d : Nat) : Option Nat :=
  (List.range 41).find? (fun k => 10 ^ k % d == 0)

/-- Model of Python `str(float)` / `repr(float)`: shortest decimal form.
Rationals with no finite decimal form (unreachable from parsed floats)
fall back to a fraction rendering. -/
def floatStr (q : ℚ) : String :=
  match decExp q.den with
  | some 0 => toString q.num ++ ".0"
  | some (Nat.succ k) =>
    let k := Nat.succ k
    let scaled : Nat := q.num.natAbs * (10 ^ k / q.den)
    let ip : Nat := scaled / 10 ^ k
    let fp : Nat := scaled % 10 ^ k
    let fpStr := toString fp
    let fpPad := String.mk (List.replicate (k - fpStr.length) '0') ++ fpStr
    (if q.num < 0 then "-" else "") ++ toString ip ++ "." ++ fpPad
  | none => toString q.num ++ "/" ++ toString q.den

mutual

/-- Python `repr` of a JSON value (string escaping not modelled; no
settled claim depends on it). -/
def pyRepr : Value → String
  | .null => "None"
  | .bool true => "True"
  | .bool false => "False"
  | .int n => toString n
  | .float q => floatStr q
  | .str s => "'" ++ s ++ "'"
  | .arr l => "[" ++ strJoin ", " (pyReprList l) ++ "]"
  | .obj l => "\x7b" ++ strJoin ", " (pyReprObj l) ++ "\x7d"

/-- Helper of `pyRepr` for list items. -/
def pyReprList : List Value → List String
  | [] => []
  | v :: rest => pyRepr v :: pyReprList rest

/-- Helper of `pyRepr` for dict entries. -/
def pyReprObj : List (String × Value) → List String
  | [] => []
  | (k, v) :: rest => ("'" ++ k ++ "': " ++ pyRepr v) :: pyReprObj rest

end

/-- Python `str(x)`. -/
def pyStr : Value → String
  | .null => "None"
  | .bool true => "True"
  | .bool false => "False"
  | .int n => toString n
  | .float q => floatStr q
  | .str s => s
  | .arr l => pyRepr (.arr l)
  | .obj l => pyRepr (.obj l)

/-- Digits-to-nat on a list of decimal digit characters. -/
def digitsToNat (ds : List Char) : Nat :=
  ds.foldl (fun acc c => acc * 10 + (c.toNat - '0'.toNat)) 0

/-- Parse a decimal literal `digits[.digits][e[+|-]digits]` as an exact
rational; model of Python `float(str)` after stripping. -/
def parseFloatStr (s : String) : Option ℚ :=
  let cs := (pyStrip s).toList
  let (sign, cs) :=
    match cs with
    | '-' :: rest => ((-1 : ℚ), rest)
    | '+' :: rest => ((1 : ℚ), rest)
    | _ => ((1 : ℚ), cs)
  let ip := cs.takeWhile Char.isDigit
  let cs := cs.dropWhile Char.isDigit
  let (fp, cs) :=
    match cs with
    | '.' :: rest => (rest.takeWhile Char.isDigit, rest.dropWhile Char.isDigit)
    | _ => ([], cs)
  if ip.isEmpty && fp.isEmpty then none
  else
    let mant : ℚ := (digitsToNat ip : ℚ) +
      (digitsToNat fp : ℚ) / (10 ^ fp.length : ℚ)
    match cs with
    | [] => some (sign * mant)
    | e :: rest =>
      if e == 'e' || e == 'E' then
        let (esign, rest) :=
          match rest with
          | '-' :: r => ((-1 : Int), r)
          | '+' :: r => ((1 : Int), r)
          | _ => ((1 : Int), rest)
        let ed := rest.takeWhile Char.isDigit
        if ed.isEmpty || !(rest.dropWhile Char.isDigit).isEmpty then none
        else
          let ex : Int := esign * (digitsToNat ed : Int)
          some (sign * mant * (10 : ℚ) ^ ex)
      else none

/-- Python `float(x)`: numbers pass through, strings are parsed,
everything else is a `TypeError`/`ValueError` (modelled as `none`). -/
def pyFloat : Value → Option ℚ
  | .bool b => some (if b then 1 else 0)
  | .int n => some (n : ℚ)
  | .float q => some q
  | .str s => parseFloatStr s
  | _ => none

/-- Python `int(q)` truncation toward zero. -/
def pyTrunc (q : ℚ) : Int :=
  if 0 ≤ q then Int.floor q else -Int.floor (-q)

mutual

/-- Model of `len(json.dumps(x))` with the default separators. -/
def jsonLen : Value → Nat
  | .null => 4
  | .bool true => 4
  | .bool false => 5
  | .int n => (toString n).length
  | .float q => (floatStr q).length
  | .str s => s.length + 2
  | .arr l =>
    2 + jsonLenList l + 2 * (l.length - 1)
  | .obj l =>
    2 + jsonLenObj l + 2 * (l.length - 1)

/-- Sum of rendered lengths of list items. -/
def jsonLenList : List Value → Nat
  | [] => 0
  | v :: rest => jsonLen v + jsonLenList rest

/-- Sum of rendered lengths of dict entries (`"key": value`). -/
def jsonLenObj : List (String × Value) → Nat
  | [] => 0
  | (k, v) :: rest => k.length + 4 + jsonLen v + jsonLenObj rest

end

/-- Source `utils.get_json_size_mb`: serialized byte length in MB. -/
def get_json_size_mb (v : Value) : ℚ :=
  (jsonLen v : ℚ) / (1024 * 1024)

/-- Source `utils.parse_duration`: parse `'5s' | '1m' | '2h' | '1d'` into
seconds.  Falsy input yields 0; a non-matching string is a `ValueError`;
a truthy non-string is an `AttributeError` (`.strip()` on a non-str). -/
def parse_duration (v : Value) : Except PyErr ℚ :=
  if !v.truthy then .ok 0
  else
    match v with
    | .str s =>
      let t := (pyLower (pyStrip s)).toList
      let ds := t.takeWhile Char.isDigit
      let t1 := t.dropWhile Char.isDigit
      let (fs, t2) :=
        match t1 with
        | '.' :: rest => (rest.takeWhile Char.isDigit, rest.dropWhile Char.isDigit)
        | _ => ([], t1)
      let t3 := t2.dropWhile isPyWs
      let fail : Except PyErr ℚ :=
        .error (.valueError ("Invalid duration format: " ++ s))
      let fracOk :=
        match t1 with
        | '.' :: _ => !fs.isEmpty
        | _ => true
      if ds.isEmpty || !fracOk then fail
      else
        match t3 with
        | [u] =>
          let value : ℚ := (digitsToNat ds : ℚ) +
            (digitsToNat fs : ℚ) / (10 ^ fs.length : ℚ)
          if u == 's' then .ok value
          else if u == 'm' then .ok (value * 60)
          else if u == 'h' then .ok (value * 3600)
          else if u == 'd' then .ok (value * 86400)
          else fail
        | _ => fail
    | _ => .error (.attributeError "strip")

/-- Source `utils.safe_cast`: cast with fallback to the original value. -/
def safe_cast (v : Value) (castType : String) : Value :=
  match v with
  | .null => .null
  | _ =>
    if castType = "int" then
      match pyFloat v with
      | some q => .int (pyTrunc q)
      | none => v
    else if castType = "float" then
      match pyFloat v with
      | some q => .float q
      | none => v
    else if castType = "string" then .str (pyStr v)
    else if castType = "boolean" then
      match v with
      | .bool b => .bool b
      | .str s => .bool (pyLower s ∈ ["true", "1", "yes", "on"])
      | _ => .bool v.truthy
    else v

/-- Source `utils.get_type_name`. -/
def get_type_name : Value → String
  | .null => "null"
  | .bool _ => "boolean"
  | .int _ => "integer"
  | .float _ => "number"
  | .str _ => "string"
  | .arr _ => "array"
  | .obj _ => "object"

/-- Python identifier check used by `utils.build_path`
(`^[a-zA-Z_][a-zA-Z0-9_]*$`). -/
def isIdentifier (s : String) : Bool :=
  match s.toList with
  | [] => false
  | c :: rest =>
    (c.isAlpha || c == '_') && rest.all (fun d => d.isAlphanum || d == '_')

/-- Source `utils.build_path` for string keys. -/
def build_path (parent : String) (key : String) : String :=
  if isIdentifier key then parent ++ "." ++ key
  else parent ++ "['" ++ key ++ "']"

/-- Source `utils.extract_key_value`: tuple of key-field values, `none`
when the item is not a dict or lacks a key field.  Iterating a
non-iterable key spec or probing with an unhashable key raises. -/
def extract_key_value (item : Value) (keySpec : Value) :
    Except PyErr (Option (List Value)) :=
  match item with
  | .obj entries =>
    let keysE : Except PyErr (List Value) :=
      match keySpec with
      | .str s => .ok [.str s]
      | .arr l => .ok l
      | .obj l => .ok (l.map (fun e => .str e.1))
      | _ => .error (.typeError "argument is not iterable")
    match keysE with
    | .error e => .error e
    | .ok keys =>
      let step (acc : Except PyErr (Option (List Value))) (key : Value) :
          Except PyErr (Option (List Value)) :=
        match acc with
        | .error e => .error e
        | .ok none => .ok none
        | .ok (some vs) =>
          match key with
          | .str s =>
            match Value.objGet entries s with
            | some v => .ok (some (vs ++ [v]))
            | none => .ok none
          | .arr _ => .error (.typeError "unhashable type: list")
          | .obj _ => .error (.typeError "unhashable type: dict")
          | _ => .ok none
      keys.foldl step (.ok (some []))
  | _ => .ok none

/-- Source `utils.format_key_value`: display form of a key tuple. -/
def format_key_value (t : List Value) : String :=
  if t.length = 1 then pyRepr (t.headD .null)
  else "(" ++ strJoin ", " (t.map pyRepr) ++ ")"

/-- Fueled body of `merge_dicts`; the fuel strictly exceeds the overlay
size at every call, so the fuel-out branch is unreachable. -/
def mergeDictsF (fuel : Nat) (base overlay : List (String × Value)) :
    List (String × Value) :=
  match fuel with
  | 0 => base
  | Nat.succ fuel =>
    match overlay with
    | [] => base
    | (k, v) :: rest =>
      let base' :=
        match Value.objGet base k, v with
        | some (.obj be), .obj ve =>
          Value.objSet base k (.obj (mergeDictsF fuel be ve))
        | _, _ => Value.objSet base k v
      mergeDictsF fuel base' rest
termination_by structural fuel

/-- Source `utils.merge_dicts`: deep right-biased merge. -/
def merge_dicts (base overlay : List (String × Value)) :
    List (String × Value) :=
  mergeDictsF (jsonLenObj overlay + 1) base overlay

/-- Python `datetime` instances as produced by `strptime` /
`fromisoformat`: calendar fields plus microseconds and an optional UTC
offset in seconds (aware vs naive). -/
structure PyDateTime where
  year : Nat
  month : Nat
  day : Nat
  hour : Nat
  minute : Nat
  second : Nat
  micro : Nat
  tz : Option Int
  deriving DecidableEq, Repr

/-- Gregorian leap year. -/
def isLeapYear (y : Nat) : Bool :=
  y % 4 == 0 && (y % 100 != 0 || y % 400 == 0)

/-- Days in a month of a given year. -/
def daysInMonth (y m : Nat) : Nat :=
  if m == 2 then (if isLeapYear y then 29 else 28)
  else if m ∈ [4, 6, 9, 11] then 30
  else 31

/-- Days from 1970-01-01 to `y-m-d` (proleptic Gregorian; the standard
era-based formula, valid for the 4-digit years `%Y` admits). -/
def daysFromCivil (y m d : Int) : Int :=
  let y := y - (if m ≤ 2 then 1 else 0)
  let era := (if 0 ≤ y then y else y - 399) / 400
  let yoe := y - era * 400
  let doy := (153 * (m + (if m > 2 then -3 else 9)) + 2) / 5 + d - 1
  let doe := yoe * 365 + yoe / 4 - yoe / 100 + doy
  era * 146097 + doe - 719468

/-- Seconds since the epoch of the naive reading of a datetime. -/
def PyDateTime.naiveSeconds (dt : PyDateTime) : ℚ :=
  (daysFromCivil dt.year dt.month dt.day : ℚ) * 86400 +
    dt.hour * 3600 + dt.minute * 60 + dt.second +
    (dt.micro : ℚ) / 1000000

/-- Python datetime subtraction in seconds; subtracting a naive from an
aware datetime raises `TypeError`. -/
def dtSub (a b : PyDateTime) : Except PyErr ℚ :=
  match a.tz, b.tz with
  | none, none => .ok (a.naiveSeconds - b.naiveSeconds)
  | some ta, some tb =>
    .ok ((a.naiveSeconds - ta) - (b.naiveSeconds - tb))
  | _, _ =>
    .error (.typeError "cannot subtract offset-naive and offset-aware datetimes")

/-- Python datetime `==`: naive vs aware compare unequal, otherwise the
instants (or naive field tuples) are compared. -/
def dtEq (a b : PyDateTime) : Bool :=
  match a.tz, b.tz with
  | none, none => a.naiveSeconds == b.naiveSeconds
  | some ta, some tb => (a.naiveSeconds - ta) == (b.naiveSeconds - tb)
  | _, _ => false

/-- Intermediate `strptime` parse state (CPython defaults: 1900-01-01,
midnight, naive). -/
structure DtBuilder where
  year : Nat := 1900
  month : Nat := 1
  day : Nat := 1
  hour : Nat := 0
  minute : Nat := 0
  second : Nat := 0
  micro : Nat := 0
  tz : Option Int := none

/-- Take up to `n` leading digits. -/
def takeDigits (n : Nat) (cs : List Char) : List Char × List Char :=
  let ds := (cs.take n).takeWhile Char.isDigit
  (ds, cs.drop ds.length)

/-- CPython `_strptime` two-or-one-digit field: the regex alternatives
admit a zero-padded or bare value within `lo..hi` (two-digit forms are
preferred, mirroring the generated regex). -/
def takeNumField (lo hi : Nat) (cs : List Char) : Option (Nat × List Char) :=
  match cs with
  | a :: b :: rest =>
    if a.isDigit && b.isDigit then
      let v := (a.toNat - '0'.toNat) * 10 + (b.toNat - '0'.toNat)
      if lo ≤ v && v ≤ hi then some (v, rest)
      else
        let v1 := a.toNat - '0'.toNat
        if lo ≤ v1 && v1 ≤ hi then some (v1, b :: rest) else none
    else if a.isDigit then
      let v1 := a.toNat - '0'.toNat
      if lo ≤ v1 && v1 ≤ hi then some (v1, b :: rest) else none
    else none
  | [a] =>
    if a.isDigit then
      let v1 := a.toNat - '0'.toNat
      if lo ≤ v1 && v1 ≤ hi then some (v1, []) else none
    else none
  | [] => none

/-- Parse a `%z` offset: `Z`, or `±HH[:]MM` optionally followed by
`[:]SS` (fractional offset seconds not modelled). -/
def takeTzOffset (cs : List Char) : Option (Int × List Char) :=
  match cs with
  | 'Z' :: rest => some (0, rest)
  | c :: rest =>
    if c == '+' || c == '-' then
      let sign : Int := if c == '-' then -1 else 1
      let (hd, r1) := takeDigits 2 rest
      if hd.length == 2 then
        let r1' := match r1 with
          | ':' :: t => t
          | _ => r1
        let (md, r2) := takeDigits 2 r1'
        if md.length == 2 && digitsToNat md ≤ 59 then
          let base : Int := sign * ((digitsToNat hd : Int) * 3600 +
            (digitsToNat md : Int) * 60)
          match r2 with
          | ':' :: t =>
            let (sd, r3) := takeDigits 2 t
            if sd.length == 2 && digitsToNat sd ≤ 59 then
              some (base + sign * (digitsToNat sd : Int), r3)
            else some (base, r2)
          | _ => some (base, r2)
        else none
      else none
    else none
  | [] => none

/-- One pass of the `strptime` format interpreter: consume the format and
the input in lockstep.  Only the directives the source's format strings
use are modelled (`%Y %m %d %H %M %S %f %z`); any other directive fails.
Literal letters match case-insensitively as CPython compiles the format
with `re.IGNORECASE`. -/
def runStrptime : List Char → List Char → DtBuilder → Option DtBuilder
  | [], [], b => some b
  | [], _ :: _, _ => none
  | '%' :: 'Y' :: fmt, input, b =>
    let (ds, rest) := takeDigits 4 input
    if ds.length == 4 then runStrptime fmt rest { b with year := digitsToNat ds }
    else none
  | '%' :: 'm' :: fmt, input, b =>
    match takeNumField 1 12 input with
    | some (v, rest) => runStrptime fmt rest { b with month := v }
    | none => none
  | '%' :: 'd' :: fmt, input, b =>
    match takeNumField 1 31 input with
    | some (v, rest) => runStrptime fmt rest { b with day := v }
    | none => none
  | '%' :: 'H' :: fmt, input, b =>
    match takeNumField 0 23 input with
    | some (v, rest) => runStrptime fmt rest { b with hour := v }
    | none => none
  | '%' :: 'M' :: fmt, input, b =>
    match takeNumField 0 59 input with
    | some (v, rest) => runStrptime fmt rest { b with minute := v }
    | none => none
  | '%' :: 'S' :: fmt, input, b =>
    match takeNumField 0 61 input with
    | some (v, rest) => runStrptime fmt rest { b with second := v }
    | none => none
  | '%' :: 'f' :: fmt, input, b =>
    let (ds, rest) := takeDigits 6 input
    if ds.isEmpty then none
    else
      let padded := ds ++ List.replicate (6 - ds.length) '0'
      runStrptime fmt rest { b with micro := digitsToNat padded }
  | '%' :: 'z' :: fmt, input, b =>
    match takeTzOffset input with
    | some (off, rest) => runStrptime fmt rest { b with tz := some off }
    | none => none
  | '%' :: _ :: _, _, _ => none
  | '%' :: [], _, _ => none
  | c :: fmt, i :: input, b =>
    if c.toLower == i.toLower then runStrptime fmt input b else none
  | _ :: _, [], _ => none

/-- Build the final datetime, applying the constructor's day-of-month
validation (`datetime(...)` raises `ValueError` on an invalid date). -/
def DtBuilder.finish (b : DtBuilder) : Option PyDateTime :=
  if 1 ≤ b.month && b.month ≤ 12 && 1 ≤ b.day &&
      b.day ≤ daysInMonth b.year b.month && b.second ≤ 59 then
    some ⟨b.year, b.month, b.day, b.hour, b.minute, b.second, b.micro, b.tz⟩
  else none

/-- Model of `datetime.strptime(value, fmt)` for the directive subset the
source uses. -/
def strptime (value fmt : String) : Option PyDateTime :=
  match runStrptime fmt.toList value.toList {} with
  | some b => b.finish
  | none => none

/-- Model of `datetime.fromisoformat` (Python 3.10 grammar subset):
`YYYY-MM-DD[<sep>HH:MM[:SS[.ffffff]][±HH:MM]]`. -/
def fromisoformat (value : String) : Option PyDateTime :=
  let cs := value.toList
  let (yd, r1) := takeDigits 4 cs
  if yd.length != 4 then none
  else
    match r1 with
    | '-' :: r2 =>
      let (md, r3) := takeDigits 2 r2
      if md.length != 2 then none
      else
        match r3 with
        | '-' :: r4 =>
          let (dd, r5) := takeDigits 2 r4
          if dd.length != 2 then none
          else
            let base : DtBuilder :=
              { year := digitsToNat yd, month := digitsToNat md,
                day := digitsToNat dd }
            if digitsToNat md < 1 || 12 < digitsToNat md then none
            else
              match r5 with
              | [] => base.finish
              | _ :: r6 =>
                let (hd, r7) := takeDigits 2 r6
                if hd.length != 2 || digitsToNat hd > 23 then none
                else
                  match r7 with
                  | ':' :: r8 =>
                    let (mind, r9) := takeDigits 2 r8
                    if mind.length != 2 || digitsToNat mind > 59 then none
                    else
                      let withTime : DtBuilder :=
                        { base with
                          hour := digitsToNat hd
                          minute := digitsToNat mind }
                      let (sec, micro, r10) :=
                        match r9 with
                        | ':' :: r10 =>
                          let (sd, r11) := takeDigits 2 r10
                          if sd.length == 2 && digitsToNat sd ≤ 59 then
                            match r11 with
                            | '.' :: r12 =>
                              let (fd, r13) := takeDigits 6 r12
                              if fd.isEmpty then (none, 0, r11)
                              else
                                (some (digitsToNat sd),
                                 digitsToNat (fd ++ List.replicate (6 - fd.length) '0'),
                                 r13)
                            | _ => (some (digitsToNat sd), 0, r11)
                          else (none, 0, ':' :: r10)
                        | _ => (some 0, 0, r9)
                      match sec with
                      | none => none
                      | some s =>
                        let withSec :=
                          { withTime with second := s, micro := micro }
                        match r10 with
                        | [] => withSec.finish
                        | c :: r11 =>
                          if c == '+' || c == '-' then
                            let sign : Int := if c == '-' then -1 else 1
                            let (ohd, r12) := takeDigits 2 r11
                            match r12 with
                            | ':' :: r13 =>
                              let (omd, r14) := takeDigits 2 r13
                              if ohd.length == 2 && omd.length == 2 &&
                                  r14.isEmpty && digitsToNat omd ≤ 59 then
                                { withSec with
                                  tz := some (sign * ((digitsToNat ohd : Int) * 3600 +
                                    (digitsToNat omd : Int) * 60)) }.finish
                              else none
                            | _ => none
                          else none
                  | _ => none
        | _ => none
    | _ => none

/-- Fixed ISO-8601 format list from `comparators.parse_datetime`. -/
def isoFormats : List String :=
  ["%Y-%m-%dT%H:%M:%S.%fZ",
   "%Y-%m-%dT%H:%M:%SZ",
   "%Y-%m-%dT%H:%M:%S.%f%z",
   "%Y-%m-%dT%H:%M:%S%z",
   "%Y-%m-%dT%H:%M:%S.%f",
   "%Y-%m-%dT%H:%M:%S",
   "%Y-%m-%d %H:%M:%S.%f",
   "%Y-%m-%d %H:%M:%S",
   "%Y-%m-%d"]

/-- Source `comparators.parse_datetime`: ISO path tries the fixed format
list then `fromisoformat` with `Z` replaced; a custom format string goes
straight to `strptime`.  Parse failures are `ValueError`s; a truthy
non-string format raises `AttributeError` at `fmt.upper()`. -/
def parse_datetime (value : String) (fmt : Value) :
    Except PyErr PyDateTime :=
  let isoPath : Except PyErr PyDateTime :=
    match isoFormats.foldl
        (fun acc f => match acc with
          | some dt => some dt
          | none => strptime value f) none with
    | some dt => .ok dt
    | none =>
      match fromisoformat (strReplace value "Z" "+00:00") with
      | some dt => .ok dt
      | none =>
        .error (.valueError ("Cannot parse datetime '" ++ value ++ "' as ISO8601"))
  match fmt with
  | .null => isoPath
  | .str f =>
    if strUpper f == "ISO8601" then isoPath
    else
      match strptime value f with
      | some dt => .ok dt
      | none =>
        .error (.valueError ("time data '" ++ value ++
          "' does not match format '" ++ f ++ "'"))
  | _ => .error (.attributeError "upper")

/-- Truthiness of an optional raw schema value (`None` is falsy). -/
def optTruthy : Option Value → Bool
  | none => false
  | some v => v.truthy

/-- Model of anchored `re.match` for the patterns of
`x-migration-pattern`: literal-prefix matching (see the header note; no
settled claim depends on regex semantics). -/
def reMatch (pat txt : String) : Bool :=
  pat.toList.isPrefixOf txt.toList

/-- Source `models.MigrationStrategy`. -/
inductive MigrationStrategy where
  | strict | ignore | existsCheck | lenient
  deriving DecidableEq, Repr

/-- Wire value of a strategy (`existsCheck` models the source's
`EXISTS = "exists"`). -/
def MigrationStrategy.fromStr : String → Option MigrationStrategy
  | "strict" => some .strict
  | "ignore" => some .ignore
  | "exists" => some .existsCheck
  | "lenient" => some .lenient
  | _ => none

/-- Source `models.ArrayMode`. -/
inductive ArrayMode where
  | strict | unordered | keyed
  deriving DecidableEq, Repr

/-- Decode an `x-migration-array-mode` string. -/
def ArrayMode.fromStr : String → Option ArrayMode
  | "strict" => some .strict
  | "unordered" => some .unordered
  | "keyed" => some .keyed
  | _ => none

/-- Source `models.DuplicateHandling`. -/
inductive DuplicateHandling where
  | error | first | last | merge
  deriving DecidableEq, Repr

/-- Decode an `x-migration-duplicate-handling` string. -/
def DuplicateHandling.fromStr : String → Option DuplicateHandling
  | "error" => some .error
  | "first" => some .first
  | "last" => some .last
  | "merge" => some .merge
  | _ => none

/-- Source `models.CastType`. -/
inductive CastType where
  | int | float | string | boolean
  deriving DecidableEq, Repr

/-- Decode an `x-migration-cast` string. -/
def CastType.fromStr : String → Option CastType
  | "int" => some .int
  | "float" => some .float
  | "string" => some .string
  | "boolean" => some .boolean
  | _ => none

/-- Wire value of a cast type (`.value` in the source). -/
def CastType.toStr : CastType → String
  | .int => "int"
  | .float => "float"
  | .string => "string"
  | .boolean => "boolean"

/-- Source `models.DiffType`. -/
inductive DiffType where
  | VALUE_MISMATCH | TYPE_MISMATCH | MISSING_IN_NEW | EXTRA_IN_NEW
  | ARRAY_LENGTH_MISMATCH | ARRAY_ITEM_MISSING | ARRAY_ITEM_EXTRA
  | DUPLICATE_KEY | SCHEMA_MISMATCH | PRECISION_EXCEEDED
  | PATTERN_MISMATCH | DATETIME_EXCEEDED
  deriving DecidableEq, Repr

/-- Source `models.Severity`. -/
inductive Severity where
  | ERROR | WARNING | INFO
  deriving DecidableEq, Repr

/-- Source `models.FieldRules`; boolean-flag fields store the Python
truthiness of the raw schema value (the source only ever uses those
fields in boolean position), rule payloads that the source keeps raw are
stored as raw `Value`s. -/
structure FieldRules where
  strategy : MigrationStrategy := .strict
  aliasName : Value := .null
  precision : Option ℚ := none
  caseInsensitive : Bool := false
  trimWhitespace : Bool := false
  cast : Option CastType := none
  pattern : Value := .null
  datetimeFormat : Value := .null
  datetimeTolerance : Value := .null
  default : Value := .null
  hasDefault : Bool := false
  enumMap : Value := .null
  arrayMode : ArrayMode := .strict
  arrayKey : Value := .null
  orderBy : Value := .null
  ignoreExtraItems : Bool := false
  ignoreMissingItems : Bool := false
  arraySubset : Bool := false
  duplicateHandling : DuplicateHandling := .error
  inheritRules : Bool := false
  whenCondition : Value := .null
  deriving Repr

/-- Source `models.GlobalRules`; `global_ignores` is kept raw (the source
iterates whatever the schema supplied). -/
structure GlobalRules where
  globalIgnores : Value := .arr []
  allowNullAsMissing : Bool := false
  emptyStringAsNull : Bool := false
  deriving Repr

/-- Source `models.DiffEntry`. -/
structure DiffEntry where
  path : String
  type : DiffType
  severity : Severity
  oldValue : Value
  newValue : Value
  message : String
  ruleApplied : Option String
  deriving Repr

/-- Source `models.WarningEntry`. -/
structure WarningEntry where
  path : String
  type : DiffType
  severity : Severity
  message : String
  deriving Repr

/-- Source `models.TraceEntry`. -/
structure TraceEntry where
  path : String
  rule : String
  action : String
  details : Option Value
  deriving Repr

/-- Source `models.ExecutionInfo`. -/
structure ExecutionInfo where
  durationMs : Int
  timestamp : String
  engineVersion : String
  deriving Repr

/-- Source `models.Summary`. -/
structure Summary where
  totalFieldsChecked : Nat
  mismatchesFound : Nat
  warningsCount : Nat
  fieldsIgnored : Nat
  deriving Repr

/-- Source `models.Coverage`. -/
structure Coverage where
  fieldsInSchema : Nat
  fieldsInPayload : Nat
  unmatchedInOld : List String
  unmatchedInNew : List String
  deriving Repr

/-- Source `models.DiffReport`. -/
structure DiffReport where
  isMatch : Bool
  execution : ExecutionInfo
  summary : Summary
  diffs : List DiffEntry
  warnings : List WarningEntry
  coverage : Option Coverage
  trace : List TraceEntry
  deriving Repr

/-- Error payload of an `ErrorResponse` (`{code, message, details}`). -/
structure ErrorInfo where
  code : String
  message : String
  details : Value
  deriving Repr

/-- Source `models.ErrorResponse` (`partial_result` is always `None` in
the source). -/
structure ErrorResponse where
  success : Bool
  error : ErrorInfo
  deriving Repr

/-- Source `models.EngineConfig` (fields the core uses). -/
structure EngineConfig where
  maxDepth : Nat := 100
  maxPayloadSizeMb : ℚ := 50
  collectStatistics : Bool := true
  traceRuleApplication : Bool := false
  failFast : Bool := false
  deriving Repr

/-- Wall-clock observations `compare` makes: `time.time()` at entry and
before building the report, and `datetime.utcnow().isoformat()`. -/
structure Clock where
  t0 : ℚ
  t1 : ℚ
  utcnow : String
  deriving Repr

/-- Source `comparators.compare_numbers`: parse both sides as floats,
compare within the optional precision.  The conversion-failure message
text abbreviates the CPython exception string. -/
def compare_numbers (old new : Value) (precision : Option ℚ) :
    Bool × String :=
  match pyFloat old, pyFloat new with
  | some a, some b =>
    match precision with
    | some p =>
      let diff := |a - b|
      if diff ≤ p then (true, "")
      else (false, "Value difference (" ++ floatStr diff ++
        ") exceeds precision tolerance (" ++ floatStr p ++ ")")
    | none =>
      if a == b then (true, "")
      else (false, "Values differ: " ++ pyStr old ++ " != " ++ pyStr new)
  | _, _ => (false, "Cannot convert to number: invalid value")

/-- Source `comparators.compare_strings`: stringify, apply the
trim/case transformations, then pattern or exact comparison.  Compiling
a truthy non-string pattern raises `TypeError`. -/
def compare_strings (old new : Value) (rules : FieldRules) :
    Except PyErr (Bool × String) :=
  let oldStr0 := match old with | .null => "" | v => pyStr v
  let newStr0 := match new with | .null => "" | v => pyStr v
  let oldStr1 := if rules.trimWhitespace then pyStrip oldStr0 else oldStr0
  let newStr1 := if rules.trimWhitespace then pyStrip newStr0 else newStr0
  let oldStr := if rules.caseInsensitive then pyLower oldStr1 else oldStr1
  let newStr := if rules.caseInsensitive then pyLower newStr1 else newStr1
  let exact : Bool × String :=
    if oldStr == newStr then (true, "")
    else (false, "Values differ: '" ++ pyStr old ++ "' != '" ++ pyStr new ++ "'")
  if rules.pattern.truthy then
    match rules.pattern with
    | .str p =>
      let oldMatches := reMatch p oldStr
      let newMatches := reMatch p newStr
      if !oldMatches && !newMatches then
        .ok (false, "Neither value matches pattern '" ++ p ++ "'")
      else if !oldMatches then
        .ok (false, "Old value '" ++ pyStr old ++ "' doesn't match pattern '" ++
          p ++ "'")
      else if !newMatches then
        .ok (false, "New value '" ++ pyStr new ++ "' doesn't match pattern '" ++
          p ++ "'")
      else .ok (true, "")
    | _ => .error (.typeError "first argument must be string or compiled pattern")
  else .ok exact

/-- Source `comparators.compare_datetime`: parse both instants, then
either tolerance comparison (invalid durations are reported as a
mismatch message) or datetime equality.  `ValueError`s from parsing are
caught; `TypeError` (naive minus aware) propagates. -/
def compare_datetime (old new : String) (fmt tolerance : Value) :
    Except PyErr (Bool × String) :=
  match parse_datetime old fmt with
  | .error (.valueError m) => .ok (false, "Cannot parse datetime: " ++ m)
  | .error e => .error e
  | .ok oldDt =>
    match parse_datetime new fmt with
    | .error (.valueError m) => .ok (false, "Cannot parse datetime: " ++ m)
    | .error e => .error e
    | .ok newDt =>
      if tolerance.truthy then
        match parse_duration tolerance with
        | .error (.valueError m) => .ok (false, "Invalid tolerance format: " ++ m)
        | .error e => .error e
        | .ok tolSec =>
          match dtSub oldDt newDt with
          | .error e => .error e
          | .ok delta =>
            let diff := |delta|
            if diff ≤ tolSec then .ok (true, "")
            else .ok (false, "Time difference (" ++ floatStr diff ++
              "s) exceeds tolerance (" ++ pyStr tolerance ++ ")")
      else
        if dtEq oldDt newDt then .ok (true, "")
        else .ok (false, "Datetimes differ: " ++ old ++ " != " ++ new)

/-- Source `comparators.compare_with_rules`: optional cast, null
handling with defaults, then datetime / numeric / string / fallback
comparison in the source's order. -/
def compare_with_rules (old0 new0 : Value) (rules : FieldRules) :
    Except PyErr (Bool × String) :=
  let old1 := match rules.cast with
    | some c => safe_cast old0 c.toStr
    | none => old0
  let new1 := match rules.cast with
    | some c => safe_cast new0 c.toStr
    | none => new0
  match old1, new1 with
  | .null, .null => .ok (true, "")
  | oldV, newV =>
    let oldSubst : Except PyErr Value :=
      match oldV with
      | .null =>
        if rules.hasDefault then .ok rules.default
        else .error (.valueError "sentinel")
      | v => .ok v
    match oldSubst with
    | .error _ =>
      .ok (false, "Old value is null, new value is '" ++ pyStr newV ++ "'")
    | .ok old =>
      let newSubst : Except PyErr Value :=
        match newV with
        | .null =>
          if rules.hasDefault then .ok rules.default
          else .error (.valueError "sentinel")
        | v => .ok v
      match newSubst with
      | .error _ =>
        .ok (false, "Old value is '" ++ pyStr old ++ "', new value is null")
      | .ok new =>
        if rules.datetimeFormat.truthy then
          compare_datetime (pyStr old) (pyStr new) rules.datetimeFormat
            rules.datetimeTolerance
        else if rules.precision.isSome then
          .ok (compare_numbers old new rules.precision)
        else if old.asNum.isSome && new.asNum.isSome then
          .ok (compare_numbers old new none)
        else
          match old, new with
          | .str _, _ => compare_strings old new rules
          | _, .str _ => compare_strings old new rules
          | .bool ba, .bool bb =>
            if ba == bb then .ok (true, "")
            else .ok (false, "Booleans differ: " ++ pyStr old ++ " != " ++ pyStr new)
          | _, _ =>
            if Value.pyEq old new then .ok (true, "")
            else .ok (false, "Values differ: " ++ pyStr old ++ " != " ++ pyStr new)

/-- Python `key in container` for a string key: dict key lookup, list
membership, substring test; `in` on a number is a `TypeError`. -/
def pyContains (container : Value) (key : String) : Except PyErr Bool :=
  match container with
  | .obj e => .ok (Value.objHas e key)
  | .arr l => .ok (l.any (fun v => Value.pyEq v (.str key)))
  | .str s => .ok (decide ((strSplitOn s key).length > 1))
  | _ => .error (.typeError "argument of type is not iterable")

/-- Python `container[key]` for a string key. -/
def pySubscript (container : Value) (key : String) : Except PyErr Value :=
  match container with
  | .obj e =>
    match Value.objGet e key with
    | some v => .ok v
    | none => .error (.keyError key)
  | _ => .error (.typeError "object is not subscriptable")

/-- Source `schema.SchemaResolver._resolve_ref` / `_resolve_node`,
merged into one fueled recursion.  `schema` is the original root used
for pointer lookups, `stack` models `_resolution_stack`. -/
def resolveNode (schema : Value) (maxDepth : Nat) :
    Nat → Value → Nat → List String → Except PyErr Value
  | 0, _, _, _ => .error .recursionError
  | Nat.succ fuel, node, depth, stack =>
    if depth > maxDepth then .ok node
    else
      match node with
      | .obj entries =>
        match Value.objGet entries "$ref" with
        | some refv =>
          match refv with
          | .str ref =>
            if strStartsWith ref "http://" || strStartsWith ref "https://" then
              .error (.externalRef ref)
            else if !strStartsWith ref "#/" then .error (.externalRef ref)
            else if ref ∈ stack then .error (.circularRef ref)
            else
              let parts := (strSplitOn (strDrop ref 2) "/").map
                (fun p => strReplace (strReplace p "~1" "/") "~0" "~")
              let target : Except PyErr Value := parts.foldl
                (fun acc part =>
                  match acc with
                  | .error e => .error e
                  | .ok cur =>
                    match cur with
                    | .obj ce =>
                      match Value.objGet ce part with
                      | some v => .ok v
                      | none =>
                        .error (.schemaParse ("Cannot resolve $ref: " ++ ref)
                          (some ("Path component '" ++ part ++ "' not found")))
                    | _ =>
                      .error (.schemaParse ("Cannot resolve $ref: " ++ ref)
                        (some ("Path component '" ++ part ++ "' not found"))))
                (.ok schema)
              match target with
              | .error e => .error e
              | .ok tgt =>
                resolveNode schema maxDepth fuel tgt (depth + 1) (ref :: stack)
          | _ => .error (.attributeError "startswith")
        | none =>
          let resolved : Except PyErr (List (String × Value)) := entries.foldl
            (fun acc (kv : String × Value) =>
              match acc with
              | .error e => .error e
              | .ok done =>
                match resolveNode schema maxDepth fuel kv.2 (depth + 1) stack with
                | .error e => .error e
                | .ok v => .ok (done ++ [(kv.1, v)]))
            (.ok [])
          match resolved with
          | .error e => .error e
          | .ok done => .ok (.obj done)
      | .arr items =>
        let resolved : Except PyErr (List Value) := items.foldl
          (fun acc item =>
            match acc with
            | .error e => .error e
            | .ok done =>
              match resolveNode schema maxDepth fuel item (depth + 1) stack with
              | .error e => .error e
              | .ok v => .ok (done ++ [v]))
          (.ok [])
        match resolved with
        | .error e => .error e
        | .ok done => .ok (.arr done)
      | v => .ok v

/-- Source `SchemaResolver.resolve`. -/
def schemaResolve (schema : Value) (maxDepth : Nat) (fuel : Nat) :
    Except PyErr Value :=
  resolveNode schema maxDepth fuel schema 0 []

/-- Source `RuleExtractor.extract_field_rules` over a schema-node dict.
Each field mirrors one `.get` in the source; the only raising step is
`float(precision)`.  A seed carrying `{strategy, case_insensitive,
trim_whitespace, inherit_rules}` is taken from the parent when the
parent has `inherit_rules` (the strategy seed is always overwritten
afterwards because the `.get` default is `'strict'`). -/
def extract_field_rules (node : List (String × Value))
    (parentRules : Option FieldRules) : Except PyErr FieldRules :=
  let seedStrategy : MigrationStrategy :=
    match parentRules with
    | some p => if p.inheritRules then p.strategy else .strict
    | none => .strict
  let seedCase : Bool :=
    match parentRules with
    | some p => p.inheritRules && p.caseInsensitive
    | none => false
  let seedTrim : Bool :=
    match parentRules with
    | some p => p.inheritRules && p.trimWhitespace
    | none => false
  let getRaw (k : String) : Value := (Value.objGet node k).getD .null
  let strategyF : MigrationStrategy :=
    match (Value.objGet node "x-migration-strategy").getD (.str "strict") with
    | .str s =>
      match MigrationStrategy.fromStr s with
      | some st => st
      | none => seedStrategy
    | _ => seedStrategy
  let precE : Except PyErr (Option ℚ) :=
    match Value.objGet node "x-migration-precision" with
    | none => .ok none
    | some .null => .ok none
    | some v =>
      match pyFloat v with
      | some q => .ok (some q)
      | none => .error (.valueError "could not convert to float")
  match precE with
  | .error e => .error e
  | .ok prec =>
    let caseF : Bool :=
      match Value.objGet node "x-migration-case-insensitive" with
      | none => seedCase
      | some v => v.truthy
    let trimF : Bool :=
      match Value.objGet node "x-migration-trim-whitespace" with
      | none => seedTrim
      | some v => v.truthy
    let castF : Option CastType :=
      match getRaw "x-migration-cast" with
      | .str s => if s != "" then CastType.fromStr s else none
      | _ => none
    let arrayModeF : ArrayMode :=
      match (Value.objGet node "x-migration-array-mode").getD (.str "strict") with
      | .str s =>
        match ArrayMode.fromStr s with
        | some m => m
        | none => .strict
      | _ => .strict
    let dupF : DuplicateHandling :=
      match (Value.objGet node "x-migration-duplicate-handling").getD
          (.str "error") with
      | .str s =>
        match DuplicateHandling.fromStr s with
        | some d => d
        | none => .error
      | _ => .error
    .ok
      { strategy := strategyF
        aliasName := getRaw "x-migration-alias"
        precision := prec
        caseInsensitive := caseF
        trimWhitespace := trimF
        cast := castF
        pattern := getRaw "x-migration-pattern"
        datetimeFormat := getRaw "x-migration-datetime-format"
        datetimeTolerance := getRaw "x-migration-datetime-tolerance"
        default := (Value.objGet node "x-migration-default").getD .null
        hasDefault := Value.objHas node "x-migration-default"
        enumMap := getRaw "x-migration-enum-map"
        arrayMode := arrayModeF
        arrayKey := getRaw "x-migration-array-key"
        orderBy := getRaw "x-migration-order-by"
        ignoreExtraItems :=
          ((Value.objGet node "x-migration-ignore-extra-items").getD
            (.bool false)).truthy
        ignoreMissingItems :=
          ((Value.objGet node "x-migration-ignore-missing-items").getD
            (.bool false)).truthy
        arraySubset :=
          ((Value.objGet node "x-migration-array-subset").getD
            (.bool false)).truthy
        duplicateHandling := dupF
        inheritRules :=
          ((Value.objGet node "x-migration-inherit-rules").getD
            (.bool false)).truthy
        whenCondition := getRaw "x-migration-when" }

/-- Root-selection step shared by `extract_global_rules` (the
`components.schemas` unwrapping). -/
def globalRoot (schema : Value) : Except PyErr Value :=
  match pyContains schema "components" with
  | .error e => .error e
  | .ok true =>
    match pySubscript schema "components" with
    | .error e => .error e
    | .ok comp =>
      match pyContains comp "schemas" with
      | .error e => .error e
      | .ok true =>
        match pySubscript comp "schemas" with
        | .error e => .error e
        | .ok schemas =>
          if schemas.truthy then
            match schemas with
            | .obj ((_, v) :: _) => .ok v
            | .obj [] => .ok schema
            | _ => .error (.attributeError "values")
          else .ok schema
      | .ok false => .ok schema
  | .ok false => .ok schema

/-- Source `RuleExtractor.extract_global_rules`. -/
def extract_global_rules (schema : Value) : Except PyErr GlobalRules := do
  let root ← globalRoot schema
  match root with
  | .obj e =>
    .ok { globalIgnores := (Value.objGet e "x-migration-global-ignores").getD (.arr [])
          allowNullAsMissing :=
            ((Value.objGet e "x-migration-allow-null-as-missing").getD
              (.bool false)).truthy
          emptyStringAsNull :=
            ((Value.objGet e "x-migration-empty-string-as-null").getD
              (.bool false)).truthy }
  | _ => .error (.attributeError "get")

/-- One parsed segment of a JSONPath-like path string. -/
inductive Seg where
  | name (s : String)
  | idx (n : Nat)
  deriving DecidableEq, Repr

/-- Characters allowed inside a dotted path segment
(`[^.\[\]]` in the source's regex). -/
def segChar (c : Char) : Bool :=
  c != '.' && c != '[' && c != ']'

/-- Scanner replicating `re.finditer` over the traverser's segment
pattern: at each position try `.name`, `[digits]`, `['name']`,
`["name"]` in order; skip one character when nothing matches. -/
def parseSegsGo : Nat → List Char → List Seg
  | 0, _ => []
  | _, [] => []
  | Nat.succ fuel, cs =>
    match cs with
    | [] => []
    | '.' :: rest =>
      let nm := rest.takeWhile segChar
      if !nm.isEmpty then
        .name (String.mk nm) :: parseSegsGo fuel (rest.drop nm.length)
      else parseSegsGo fuel rest
    | '[' :: rest =>
      let ds := rest.takeWhile Char.isDigit
      if !ds.isEmpty && ((rest.drop ds.length).headD ' ') == ']' then
        .idx (digitsToNat ds) :: parseSegsGo fuel (rest.drop (ds.length + 1))
      else
        match rest with
        | '\'' :: r2 =>
          let nm := r2.takeWhile (fun c => c != '\'')
          (match r2.drop nm.length with
           | '\'' :: ']' :: r3 =>
             if !nm.isEmpty then .name (String.mk nm) :: parseSegsGo fuel r3
             else parseSegsGo fuel (cs.drop 1)
           | _ => parseSegsGo fuel (cs.drop 1))
        | '"' :: r2 =>
          let nm := r2.takeWhile (fun c => c != '"')
          (match r2.drop nm.length with
           | '"' :: ']' :: r3 =>
             if !nm.isEmpty then .name (String.mk nm) :: parseSegsGo fuel r3
             else parseSegsGo fuel (cs.drop 1)
           | _ => parseSegsGo fuel (cs.drop 1))
        | _ => parseSegsGo fuel (cs.drop 1)
    | _ :: rest => parseSegsGo fuel rest

/-- Source `SchemaTraverser._parse_path_segments`. -/
def parse_path_segments (path : String) : List Seg :=
  if path == "$" then []
  else
    let p :=
      if strStartsWith path "$." then strDrop path 2
      else if strStartsWith path "$" then strDrop path 1
      else path
    let cs := p.toList
    match cs with
    | [] => []
    | c :: _ =>
      if c != '[' && c != '.' then
        let nm := cs.takeWhile segChar
        if !nm.isEmpty then
          .name (String.mk nm) :: parseSegsGo (cs.length + 1) (cs.drop nm.length)
        else parseSegsGo (cs.length + 1) cs
      else parseSegsGo (cs.length + 1) cs

/-- Tail of `SchemaTraverser._get_root_schema`: the `type`/`properties`
membership probes (both outcomes return the schema; only the raised
`TypeError`s are observable). -/
def rootFallback (schema : Value) : Except PyErr Value :=
  match pyContains schema "type" with
  | .error e => .error e
  | .ok true => .ok schema
  | .ok false =>
    match pyContains schema "properties" with
    | .error e => .error e
    | .ok _ => .ok schema

/-- Source `SchemaTraverser._get_root_schema`. -/
def getRootSchema (schema : Value) : Except PyErr Value :=
  match pyContains schema "components" with
  | .error e => .error e
  | .ok true =>
    match pySubscript schema "components" with
    | .error e => .error e
    | .ok comp =>
      match pyContains comp "schemas" with
      | .error e => .error e
      | .ok true =>
        match pySubscript comp "schemas" with
        | .error e => .error e
        | .ok schemas =>
          if schemas.truthy then
            match schemas with
            | .obj ((_, v) :: _) => .ok v
            | .obj [] => rootFallback schema
            | _ => .error (.attributeError "values")
          else rootFallback schema
      | .ok false => rootFallback schema
  | .ok false => rootFallback schema

/-- Python-`None`-aware wrapping of a returned schema node. -/
def val2opt (v : Value) : Option Value :=
  match v with
  | .null => none
  | _ => some v

/-- Source `SchemaTraverser._traverse_to_path` (the by-path memo cache is
semantically transparent and omitted). -/
def traverseToPath (schema : Value) (path : String) :
    Except PyErr (Option Value) := do
  if path == "$" then
    let root ← getRootSchema schema
    return val2opt root
  else
    let segs := parse_path_segments path
    if segs.isEmpty then
      let root ← getRootSchema schema
      return val2opt root
    else
      let root ← getRootSchema schema
      if !root.truthy then return none
      else
        let step (acc : Except PyErr (Option Value)) (seg : Seg) :
            Except PyErr (Option Value) :=
          match acc with
          | .error e => .error e
          | .ok none => .ok none
          | .ok (some cur) =>
            match cur with
            | .null => .ok none
            | .obj e =>
              match seg with
              | .idx _ =>
                if Value.pyEq ((Value.objGet e "type").getD .null)
                      (.str "array") &&
                    Value.objHas e "items" then
                  .ok (some ((Value.objGet e "items").getD .null))
                else .ok none
              | .name s =>
                if Value.pyEq ((Value.objGet e "type").getD .null)
                      (.str "object") ||
                    Value.objHas e "properties" then
                  let props := (Value.objGet e "properties").getD (.obj [])
                  match pyContains props s with
                  | .error er => .error er
                  | .ok true =>
                    match pySubscript props s with
                    | .error er => .error er
                    | .ok v => .ok (some v)
                  | .ok false =>
                    if Value.objHas e "additionalProperties" then
                      .ok (some ((Value.objGet e "additionalProperties").getD .null))
                    else .ok none
                else .ok none
            | _ => .error (.attributeError "get")
        let fin ← segs.foldl step (.ok (some root))
        match fin with
        | none => return none
        | some v => return val2opt v

/-- Source `SchemaTraverser.get_schema_for_path`. -/
def get_schema_for_path (schema : Value) (path : String) :
    Except PyErr (Option Value) :=
  traverseToPath schema path

/-- Source `SchemaTraverser.get_rules_for_path`: extract rules from the
schema node at the path, defaulting to `FieldRules()` when the node is
missing or falsy. -/
def get_rules_for_path (schema : Value) (path : String)
    (parentRules : Option FieldRules) : Except PyErr FieldRules := do
  let node ← get_schema_for_path schema path
  match node with
  | some v =>
    if v.truthy then
      match v with
      | .obj e => extract_field_rules e parentRules
      | _ => .error (.attributeError "get")
    else return {}
  | none => return {}

/-- Python `item in container` for arbitrary items (dict keys here are
strings). -/
def pyContainsV (container item : Value) : Except PyErr Bool :=
  match container with
  | .obj e => .ok (e.any (fun kv => Value.pyEq (.str kv.1) item))
  | .arr l => .ok (l.any (fun v => Value.pyEq v item))
  | .str s =>
    match item with
    | .str t => .ok (decide ((strSplitOn s t).length > 1))
    | _ => .error (.typeError "in string requires string")
  | _ => .error (.typeError "argument of type is not iterable")

/-- Python `container[item]` by value equality (dict lookup). -/
def pySubscriptV (container item : Value) : Except PyErr Value :=
  match container with
  | .obj e =>
    match e.find? (fun kv => Value.pyEq (.str kv.1) item) with
    | some kv => .ok kv.2
    | none => .error (.keyError (pyStr item))
  | _ => .error (.typeError "object is not subscriptable")

/-- Kernel-reducible comparison of rationals. -/
def ratCmp (x y : ℚ) : Ordering :=
  if x == y then .eq else if x ≤ y then .lt else .gt

/-- Kernel-reducible comparison of characters (by code point). -/
def charCmp (a b : Char) : Ordering :=
  if a.toNat == b.toNat then .eq
  else if a.toNat < b.toNat then .lt
  else .gt

/-- Lexicographic comparison of character lists. -/
def strCmpL : List Char → List Char → Ordering
  | [], [] => .eq
  | [], _ :: _ => .lt
  | _ :: _, [] => .gt
  | a :: as_, b :: bs =>
    match charCmp a b with
    | .eq => strCmpL as_ bs
    | o => o

/-- Kernel-reducible comparison of naturals. -/
def natCmp (a b : Nat) : Ordering :=
  if a == b then .eq else if a < b then .lt else .gt

/-- Python `<`-style ordering: numbers (including `bool`) by value,
strings lexicographically; everything else is a `TypeError` (modelled
as `none`). -/
def pyCompareOrd (a b : Value) : Option Ordering :=
  match a.asNum, b.asNum with
  | some x, some y => some (ratCmp x y)
  | _, _ =>
    match a, b with
    | .str sa, .str sb => some (strCmpL sa.toList sb.toList)
    | _, _ => none

/-- Python `int(s)` on a stripped string: optional sign and digits. -/
def pyIntStr (s : String) : Option Int :=
  let cs := (pyStrip s).toList
  let (sign, ds) :=
    match cs with
    | '-' :: rest => ((-1 : Int), rest)
    | '+' :: rest => ((1 : Int), rest)
    | _ => ((1 : Int), cs)
  if ds.isEmpty || !ds.all Char.isDigit then none
  else some (sign * (digitsToNat ds : Int))

/-- Source `jsonpath_utils.JSONPathMatcher._parse_path_segments`:
character scan splitting on dots and brackets. -/
def jpParseSegsGo : Nat → List Char → List Char → List Seg
  | 0, _, current =>
    if current.isEmpty then [] else [.name (String.mk current)]
  | Nat.succ fuel, cs, current =>
    match cs with
    | [] => if current.isEmpty then [] else [.name (String.mk current)]
    | '.' :: rest =>
      if current.isEmpty then jpParseSegsGo fuel rest []
      else .name (String.mk current) :: jpParseSegsGo fuel rest []
    | '[' :: rest =>
      let emitted := if current.isEmpty then [] else [Seg.name (String.mk current)]
      let content := rest.takeWhile (fun c => c != ']')
      let after := rest.drop content.length
      let afterBracket := match after with
        | ']' :: r => r
        | r => r
      let seg : Seg :=
        if !content.isEmpty && content.all Char.isDigit then
          .idx (digitsToNat content)
        else
          match content with
          | '\'' :: mid =>
            (match mid.reverse with
             | '\'' :: core => .name (String.mk core.reverse)
             | _ => .name (String.mk content))
          | '"' :: mid =>
            (match mid.reverse with
             | '"' :: core => .name (String.mk core.reverse)
             | _ => .name (String.mk content))
          | _ => .name (String.mk content)
      emitted ++ (seg :: jpParseSegsGo fuel afterBracket [])
    | c :: rest => jpParseSegsGo fuel rest (current ++ [c])

/-- Source `JSONPathMatcher._parse_path_segments` entry point. -/
def jpParseSegments (path : String) : List Seg :=
  if path == "$" then []
  else
    let p :=
      if strStartsWith path "$." then strDrop path 2
      else if strStartsWith path "$" then strDrop path 1
      else path
    jpParseSegsGo (p.length + 1) p.toList []

/-- Model of `jsonpath_ng` value lookup for the plain child paths the
source's condition evaluator uses (`$.old.tier` and the like); patterns
the model cannot navigate yield no matches, as the source returns `[]`
on any lookup failure. -/
def findValues (data : Value) (path : String) : List Value :=
  let segs := jpParseSegments path
  let step (acc : Option Value) (seg : Seg) : Option Value :=
    match acc, seg with
    | some (.obj e), .name k => Value.objGet e k
    | some (.arr l), .idx i => l.get? i
    | _, _ => none
  match segs.foldl step (some data) with
  | some v => [v]
  | none => []

/-- Deletion at an exact parsed path (model of the `jsonpath_ng`-backed
`JSONPathMatcher.delete_paths` for plain child paths; other patterns are
left untouched, mirroring the source's blanket `except: pass`). -/
def delAtSegs (data : Value) : List Seg → Value
  | [] => data
  | [seg] =>
    match data, seg with
    | .obj e, .name k => .obj (Value.objDel e k)
    | .arr l, .idx i =>
      if i < l.length then .arr (l.take i ++ l.drop (i + 1)) else .arr l
    | d, _ => d
  | seg :: rest =>
    match data, seg with
    | .obj e, .name k =>
      match Value.objGet e k with
      | some child => .obj (Value.objSet e k (delAtSegs child rest))
      | none => .obj e
    | .arr l, .idx i =>
      match l.get? i with
      | some child => .arr (l.take i ++ [delAtSegs child rest] ++ l.drop (i + 1))
      | none => .arr l
    | d, _ => d

/-- Source `jsonpath_utils.evaluate_condition` over the root pair. -/
def evaluate_condition (data cond : Value) : Except PyErr Bool :=
  if !cond.truthy then .ok true
  else
    match cond with
    | .str c =>
      let ops := ["==", "!=", ">=", "<=", ">", "<"]
      match ops.find? (fun op => (strSplitOn c op).length > 1) with
      | none => .ok true
      | some op =>
        let parts := strSplitOn c op
        match parts with
        | [] => .ok true
        | p0 :: prest =>
          let path := pyStrip p0
          let expectedStr := pyStrip (strJoin op prest)
          let expected : Value :=
            if (strStartsWith expectedStr "'" && strEndsWith expectedStr "'") ||
                (strStartsWith expectedStr "\"" && strEndsWith expectedStr "\"") then
              .str (strDropRight (strDrop expectedStr 1) 1)
            else if pyLower expectedStr == "true" then .bool true
            else if pyLower expectedStr == "false" then .bool false
            else if pyLower expectedStr == "null" then .null
            else if (strSplitOn expectedStr ".").length > 1 then
              match parseFloatStr expectedStr with
              | some q => .float q
              | none => .str expectedStr
            else
              match pyIntStr expectedStr with
              | some n => .int n
              | none => .str expectedStr
          match findValues data path with
          | [] => .ok false
          | actual :: _ =>
            if op == "==" then .ok (Value.pyEq actual expected)
            else if op == "!=" then .ok (!Value.pyEq actual expected)
            else
              match pyCompareOrd actual expected with
              | none => .ok false
              | some ord =>
                if op == ">" then .ok (ord == .gt)
                else if op == "<" then .ok (ord == .lt)
                else if op == ">=" then .ok (ord == .gt || ord == .eq)
                else .ok (ord == .lt || ord == .eq)
    | _ => .error (.typeError "argument of type is not iterable")

/-- Elements Python iterates for `for x in v`: list items, dict keys,
string characters; numbers are not iterable. -/
def pyIter (v : Value) : Except PyErr (List Value) :=
  match v with
  | .arr l => .ok l
  | .obj e => .ok (e.map (fun kv => .str kv.1))
  | .str s => .ok (s.toList.map (fun c => .str (String.mk [c])))
  | _ => .error (.typeError "object is not iterable")

/-- Source `Normalizer._delete_field_recursive`: drop every binding of
`field` anywhere in the tree (fueled walk; the source mutates in place
on the already-cloned document). -/
def deleteFieldRecursive (fuel : Nat) (data : Value) (field : String) :
    Except PyErr Value :=
  match fuel with
  | 0 => .error .recursionError
  | Nat.succ fuel =>
    match data with
    | .obj entries =>
      let kept := Value.objDel entries field
      let walked : Except PyErr (List (String × Value)) := kept.foldl
        (fun acc kv =>
          match acc with
          | .error e => .error e
          | .ok done =>
            match deleteFieldRecursive fuel kv.2 field with
            | .error e => .error e
            | .ok v2 => .ok (done ++ [(kv.1, v2)]))
        (.ok [])
      walked.map .obj
    | .arr items =>
      let walked : Except PyErr (List Value) := items.foldl
        (fun acc v =>
          match acc with
          | .error e => .error e
          | .ok done =>
            match deleteFieldRecursive fuel v field with
            | .error e => .error e
            | .ok v2 => .ok (done ++ [v2]))
        (.ok [])
      walked.map .arr
    | d => .ok d
termination_by structural fuel

/-- Source `Normalizer._delete_recursive`: interpret a `$..field`
pattern and delete the field everywhere. -/
def deleteRecursive (fuel : Nat) (data : Value) (pat : String) :
    Except PyErr Value :=
  let parts := strSplitOn pat ".."
  if parts.length != 2 then .ok data
  else
    let fieldRaw := String.mk ((parts.getD 1 "").toList.dropWhile (fun c => c == '.'))
    let field :=
      if strStartsWith fieldRaw "[" && strEndsWith fieldRaw "]" then
        strDropRight (strDrop fieldRaw 2) 2
      else fieldRaw
    deleteFieldRecursive fuel data field

/-- Source `Normalizer._delete_jsonpath`: recursive-descent patterns are
handled in-source, anything else goes through the (modelled)
`jsonpath_ng` deletion. -/
def deleteJsonpath (fuel : Nat) (data : Value) (pat : Value) :
    Except PyErr Value :=
  match pat with
  | .str p =>
    if (strSplitOn p "..").length > 1 then deleteRecursive fuel data p
    else .ok (delAtSegs data (jpParseSegments p))
  | _ => .error (.typeError "argument of type is not iterable")

/-- Source `Normalizer._apply_global_ignores`. -/
def applyGlobalIgnores (fuel : Nat) (gr : GlobalRules) (data : Value) :
    Except PyErr Value :=
  if !gr.globalIgnores.truthy then .ok data
  else
    match pyIter gr.globalIgnores with
    | .error e => .error e
    | .ok pats =>
      pats.foldl
        (fun acc p =>
          match acc with
          | .error e => .error e
          | .ok d => deleteJsonpath fuel d p)
        (.ok data)

/-- Source `Normalizer._apply_aliases` (baseline only): rename keys that
some sibling schema property declares as its `x-migration-alias`. -/
def applyAliases (schema : Value) : Nat → Value → String → Except PyErr Value
  | 0, _, _ => .error .recursionError
  | Nat.succ fuel, data, path =>
    match data with
    | .arr items =>
      let rec goA (l : List Value) (i : Nat) : Except PyErr (List Value) :=
        match l with
        | [] => .ok []
        | v :: rest =>
          match applyAliases schema fuel v (path ++ "[" ++ toString i ++ "]") with
          | .error e => .error e
          | .ok v2 =>
            match goA rest (i + 1) with
            | .error e => .error e
            | .ok rest2 => .ok (v2 :: rest2)
      (goA items 0).map .arr
    | .obj entries =>
      let rec go (l : List (String × Value))
          (acc : List (String × Value)) : Except PyErr (List (String × Value)) :=
        match l with
        | [] => .ok acc
        | (key, value) :: rest =>
          let childPath := path ++ "." ++ key
          match get_schema_for_path schema childPath with
          | .error e => .error e
          | .ok nodeOpt =>
            let newKeyE : Except PyErr String :=
              match nodeOpt with
              | some _ => .ok key
              | none =>
                match get_schema_for_path schema path with
                | .error e => .error e
                | .ok parentOpt =>
                  match parentOpt with
                  | none => .ok key
                  | some parent =>
                    if !parent.truthy then .ok key
                    else
                      match pyContains parent "properties" with
                      | .error e => .error e
                      | .ok false => .ok key
                      | .ok true =>
                        match pySubscript parent "properties" with
                        | .error e => .error e
                        | .ok (.obj props) =>
                          let rec scan (ps : List (String × Value)) :
                              Except PyErr String :=
                            match ps with
                            | [] => .ok key
                            | (propName, propSchema) :: psRest =>
                              match propSchema with
                              | .obj pe =>
                                let aliasV :=
                                  (Value.objGet pe "x-migration-alias").getD .null
                                if Value.pyEq aliasV (.str key) then .ok propName
                                else scan psRest
                              | _ => .error (.attributeError "get")
                          scan props
                        | .ok _ => .error (.attributeError "items")
            match newKeyE with
            | .error e => .error e
            | .ok newKey =>
              match applyAliases schema fuel value childPath with
              | .error e => .error e
              | .ok v2 => go rest (Value.objSet acc newKey v2)
      (go entries []).map .obj
    | d => .ok d

/-- Source `Normalizer._normalize_nulls` (fueled walk): drop null-valued
dict entries recursively. -/
def normalizeNulls : Nat → Value → Except PyErr Value
  | 0, _ => .error .recursionError
  | Nat.succ fuel, data =>
    match data with
    | .obj entries =>
      let rec go (l : List (String × Value)) :
          Except PyErr (List (String × Value)) :=
        match l with
        | [] => .ok []
        | (k, v) :: rest =>
          match v with
          | .null => go rest
          | v =>
            match normalizeNulls fuel v with
            | .error e => .error e
            | .ok v2 =>
              match go rest with
              | .error e => .error e
              | .ok rest2 => .ok ((k, v2) :: rest2)
      (go entries).map .obj
    | .arr items =>
      let rec goA (l : List Value) : Except PyErr (List Value) :=
        match l with
        | [] => .ok []
        | v :: rest =>
          match normalizeNulls fuel v with
          | .error e => .error e
          | .ok v2 =>
            match goA rest with
            | .error e => .error e
            | .ok rest2 => .ok (v2 :: rest2)
      (goA items).map .arr
    | d => .ok d

/-- Source `Normalizer._normalize_empty_strings` (fueled walk). -/
def normalizeEmptyStrings : Nat → Value → Except PyErr Value
  | 0, _ => .error .recursionError
  | Nat.succ fuel, data =>
    match data with
    | .obj entries =>
      let rec go (l : List (String × Value)) :
          Except PyErr (List (String × Value)) :=
        match l with
        | [] => .ok []
        | (k, v) :: rest =>
          match normalizeEmptyStrings fuel v with
          | .error e => .error e
          | .ok v2 =>
            match go rest with
            | .error e => .error e
            | .ok rest2 => .ok ((k, v2) :: rest2)
      (go entries).map .obj
    | .arr items =>
      let rec goA (l : List Value) : Except PyErr (List Value) :=
        match l with
        | [] => .ok []
        | v :: rest =>
          match normalizeEmptyStrings fuel v with
          | .error e => .error e
          | .ok v2 =>
            match goA rest with
            | .error e => .error e
            | .ok rest2 => .ok (v2 :: rest2)
      (goA items).map .arr
    | .str s => .ok (if s == "" then .null else .str s)
    | d => .ok d

/-- Source `Normalizer._apply_defaults`: inject `x-migration-default`
for missing properties, then recurse (also into injected values, as the
source iterates the already-augmented dict). -/
def applyDefaults (schema : Value) : Nat → Value → String → Except PyErr Value
  | 0, _, _ => .error .recursionError
  | Nat.succ fuel, data, path =>
    match get_schema_for_path schema path with
    | .error e => .error e
    | .ok none => .ok data
    | .ok (some schemaNode) =>
      match data with
      | .obj entries =>
        let propsE : Except PyErr (Option (List (String × Value))) :=
          match pyContains schemaNode "properties" with
          | .error e => .error e
          | .ok false => .ok none
          | .ok true =>
            match pySubscript schemaNode "properties" with
            | .error e => .error e
            | .ok (.obj props) => .ok (some props)
            | .ok _ => .error (.attributeError "items")
        match propsE with
        | .error e => .error e
        | .ok propsOpt =>
          let injectedE : Except PyErr (List (String × Value)) :=
            match propsOpt with
            | none => .ok entries
            | some props =>
              props.foldl
                (fun acc (p : String × Value) =>
                  match acc with
                  | .error e => .error e
                  | .ok cur =>
                    if Value.objHas cur p.1 then .ok cur
                    else
                      match pyContains p.2 "x-migration-default" with
                      | .error e => .error e
                      | .ok true =>
                        match pySubscript p.2 "x-migration-default" with
                        | .error e => .error e
                        | .ok dv => .ok (Value.objSet cur p.1 dv)
                      | .ok false => .ok cur)
                (.ok entries)
          match injectedE with
          | .error e => .error e
          | .ok injected =>
            let walked : Except PyErr (List (String × Value)) := injected.foldl
              (fun acc kv =>
                match acc with
                | .error e => .error e
                | .ok done =>
                  match applyDefaults schema fuel kv.2 (path ++ "." ++ kv.1) with
                  | .error e => .error e
                  | .ok v2 => .ok (done ++ [(kv.1, v2)]))
              (.ok [])
            walked.map .obj
      | .arr items =>
        let walked : Except PyErr (List Value) := (items.enum).foldl
          (fun acc p =>
            match acc with
            | .error e => .error e
            | .ok done =>
              match applyDefaults schema fuel p.2
                  (path ++ "[" ++ toString p.1 ++ "]") with
              | .error e => .error e
              | .ok v2 => .ok (done ++ [v2]))
          (.ok [])
        walked.map .arr
      | d => .ok d

/-- Source `Normalizer._apply_enum_mapping` (baseline only). -/
def applyEnumMapping (schema : Value) : Nat → Value → String → Except PyErr Value
  | 0, _, _ => .error .recursionError
  | Nat.succ fuel, data, path =>
    match get_schema_for_path schema path with
    | .error e => .error e
    | .ok nodeOpt =>
      match data with
      | .obj entries =>
        let rec go (l : List (String × Value)) :
            Except PyErr (List (String × Value)) :=
          match l with
          | [] => .ok []
          | (k, v) :: rest =>
            match applyEnumMapping schema fuel v (path ++ "." ++ k) with
            | .error e => .error e
            | .ok v2 =>
              match go rest with
              | .error e => .error e
              | .ok rest2 => .ok ((k, v2) :: rest2)
        (go entries).map .obj
      | .arr items =>
        let rec goA (l : List Value) (i : Nat) : Except PyErr (List Value) :=
          match l with
          | [] => .ok []
          | v :: rest =>
            match applyEnumMapping schema fuel v
                (path ++ "[" ++ toString i ++ "]") with
            | .error e => .error e
            | .ok v2 =>
              match goA rest (i + 1) with
              | .error e => .error e
              | .ok rest2 => .ok (v2 :: rest2)
        (goA items 0).map .arr
      | d =>
        match nodeOpt with
        | none => .ok d
        | some node =>
          if !node.truthy then .ok d
          else
            match node with
            | .obj ne =>
              let enumMap := (Value.objGet ne "x-migration-enum-map").getD .null
              if !enumMap.truthy then .ok d
              else
                match pyContainsV enumMap d with
                | .error e => .error e
                | .ok true => pySubscriptV enumMap d
                | .ok false => .ok d
            | _ => .error (.attributeError "get")

/-- Is the value a dict? -/
def Value.isObj : Value → Bool
  | .obj _ => true
  | _ => false

/-- Entries of a dict value (empty for non-dicts). -/
def Value.entriesOf : Value → List (String × Value)
  | .obj e => e
  | _ => []

/-- Sort key of one item per `Normalizer._sort_array.sort_key`: a list
of `(0|1, value)` pairs, one per `order_by` field.  A non-string field
raises `AttributeError` (not caught by the source); missing/null values
sort as `0`; descending numeric values are negated. -/
def sortKeyOf (orderElems : List Value) (item : List (String × Value)) :
    Except PyErr (List (Nat × Value)) :=
  orderElems.foldl
    (fun acc f =>
      match acc with
      | .error e => .error e
      | .ok ks =>
        match f with
        | .str field =>
          let desc := strStartsWith field "-"
          let fname := if desc then strDrop field 1 else field
          let value0 := (Value.objGet item fname).getD .null
          let value1 :=
            match value0 with
            | .null => Value.int 0
            | v => v
          let value2 :=
            if desc then
              match value1 with
              | .int n => Value.int (-n)
              | .float q => Value.float (-q)
              | .bool b => Value.int (-(if b then (1 : Int) else 0))
              | v => v
            else value1
          .ok (ks ++ [((if desc then 1 else 0), value2)])
        | _ => .error (.attributeError "startswith"))
    (.ok [])

/-- Python comparison of two sort-key lists (tuples compare
lexicographically; an incomparable value pair is a `TypeError`,
modelled as `none`). -/
def keyListCmp : List (Nat × Value) → List (Nat × Value) → Option Ordering
  | [], [] => some .eq
  | [], _ :: _ => some .lt
  | _ :: _, [] => some .gt
  | (na, va) :: ra, (nb, vb) :: rb =>
    match natCmp na nb with
    | .eq =>
      match pyCompareOrd va vb with
      | none => none
      | some .eq => keyListCmp ra rb
      | some o => some o
    | o => some o

/-- Stable insertion into a sorted list (used to model Python's stable
`sorted`). -/
def insSorted (cmp : α → α → Ordering) (x : α) : List α → List α
  | [] => [x]
  | y :: rest =>
    if cmp x y == .lt then x :: y :: rest else y :: insSorted cmp x rest

/-- Source `Normalizer._sort_array`: stable sort by the `order_by`
fields; any `TypeError` (non-iterable `order_by` or an incomparable key
pair) yields the array unchanged, while `AttributeError`s from
non-string fields propagate.  The model treats the presence of any
incomparable key pair as the `TypeError` case. -/
def sortArray (items : List Value) (orderBy : Value) :
    Except PyErr (List Value) :=
  if items.isEmpty || !items.all Value.isObj then .ok items
  else
    match pyIter orderBy with
    | .error (.typeError _) => .ok items
    | .error e => .error e
    | .ok orderElems =>
      let keysE : Except PyErr (List (List (Nat × Value) × Value)) :=
        items.foldl
          (fun acc item =>
            match acc with
            | .error e => .error e
            | .ok done =>
              match sortKeyOf orderElems item.entriesOf with
              | .error e => .error e
              | .ok k => .ok (done ++ [(k, item)]))
          (.ok [])
      match keysE with
      | .error e => .error e
      | .ok keyed =>
        let comparable := keyed.all (fun a => keyed.all (fun b =>
          (keyListCmp a.1 b.1).isSome))
        if !comparable then .ok items
        else
          let cmp (a b : List (Nat × Value) × Value) : Ordering :=
            (keyListCmp a.1 b.1).getD .eq
          .ok ((keyed.foldl (fun acc x => insSorted cmp x acc) []).map (·.2))

/-- Source `Normalizer._apply_array_sorting`. -/
def applyArraySorting (schema : Value) :
    Nat → Value → String → Except PyErr Value
  | 0, _, _ => .error .recursionError
  | Nat.succ fuel, data, path =>
    match get_schema_for_path schema path with
    | .error e => .error e
    | .ok nodeOpt =>
      match data with
      | .arr items =>
        let orderByE : Except PyErr Value :=
          match nodeOpt with
          | none => .ok .null
          | some n =>
            if !n.truthy then .ok .null
            else
              match n with
              | .obj ne => .ok ((Value.objGet ne "x-migration-order-by").getD .null)
              | _ => .error (.attributeError "get")
        match orderByE with
        | .error e => .error e
        | .ok orderBy =>
          match (if orderBy.truthy then sortArray items orderBy else .ok items) with
          | .error e => .error e
          | .ok sortedItems =>
            let walked : Except PyErr (List Value) := (sortedItems.enum).foldl
              (fun acc p =>
                match acc with
                | .error e => .error e
                | .ok done =>
                  match applyArraySorting schema fuel p.2
                      (path ++ "[" ++ toString p.1 ++ "]") with
                  | .error e => .error e
                  | .ok v2 => .ok (done ++ [v2]))
              (.ok [])
            walked.map .arr
      | .obj entries =>
        let walked : Except PyErr (List (String × Value)) := entries.foldl
          (fun acc kv =>
            match acc with
            | .error e => .error e
            | .ok done =>
              match applyArraySorting schema fuel kv.2 (path ++ "." ++ kv.1) with
              | .error e => .error e
              | .ok v2 => .ok (done ++ [(kv.1, v2)]))
          (.ok [])
        walked.map .obj
      | d => .ok d

/-- Source `Normalizer.normalize`: the seven stages in order (deep
clones are identities on pure values). -/
def normalize (schema : Value) (gr : GlobalRules) (fuel : Nat)
    (oldJson newJson : Value) : Except PyErr (Value × Value) := do
  let old1 ← applyGlobalIgnores fuel gr oldJson
  let new1 ← applyGlobalIgnores fuel gr newJson
  let old2 ← applyAliases schema fuel old1 "$"
  let old3 ← if gr.allowNullAsMissing then normalizeNulls fuel old2 else pure old2
  let new2 ← if gr.allowNullAsMissing then normalizeNulls fuel new1 else pure new1
  let old4 ←
    if gr.emptyStringAsNull then normalizeEmptyStrings fuel old3 else pure old3
  let new3 ←
    if gr.emptyStringAsNull then normalizeEmptyStrings fuel new2 else pure new2
  let old5 ← applyDefaults schema fuel old4 "$"
  let new4 ← applyDefaults schema fuel new3 "$"
  let old6 ← applyEnumMapping schema fuel old5 "$"
  let old7 ← applyArraySorting schema fuel old6 "$"
  let new5 ← applyArraySorting schema fuel new4 "$"
  return (old7, new5)

/-- Source `Masker._was_ignored`. -/
def wasIgnored (schema : Value) (path : String) : Except PyErr Bool :=
  match get_rules_for_path schema path none with
  | .error e => .error e
  | .ok r => .ok (r.strategy == .ignore)

/-- Source `Masker._mask_recursive`: returns the masked value (the
source signals subtree removal by returning `None`, which is the same
object as JSON null) together with the number of ignored fields. -/
def maskRecursive (schema : Value) :
    Nat → Value → String → Option FieldRules → Except PyErr (Value × Nat)
  | 0, _, _, _ => .error .recursionError
  | Nat.succ fuel, data, path, parentRules =>
    match get_rules_for_path schema path parentRules with
    | .error e => .error e
    | .ok rules =>
      if rules.strategy == .ignore then .ok (.null, 1)
      else
        match data with
        | .obj entries =>
          let rec go (l : List (String × Value)) :
              Except PyErr (List (String × Value) × Nat) :=
            match l with
            | [] => .ok ([], 0)
            | (k, v) :: rest =>
              let childPath := path ++ "." ++ k
              match maskRecursive schema fuel v childPath (some rules) with
              | .error e => .error e
              | .ok (mv, c) =>
                match go rest with
                | .error e => .error e
                | .ok (rest2, crest) =>
                  match wasIgnored schema childPath with
                  | .error e => .error e
                  | .ok ign =>
                    if (match mv with | .null => false | _ => true) || !ign then
                      .ok ((k, mv) :: rest2, c + crest)
                    else .ok (rest2, c + crest)
          match go entries with
          | .error e => .error e
          | .ok (entries2, c) => .ok (.obj entries2, c)
        | .arr items =>
          let rec goA (l : List Value) (i : Nat) :
              Except PyErr (List Value × Nat) :=
            match l with
            | [] => .ok ([], 0)
            | v :: rest =>
              match maskRecursive schema fuel v
                  (path ++ "[" ++ toString i ++ "]") (some rules) with
              | .error e => .error e
              | .ok (mv, c) =>
                match goA rest (i + 1) with
                | .error e => .error e
                | .ok (rest2, crest) => .ok (mv :: rest2, c + crest)
          match goA items 0 with
          | .error e => .error e
          | .ok (items2, c) => .ok (.arr items2, c)
        | d => .ok (d, 0)

/-- Source `Masker.mask`. -/
def mask (schema : Value) (fuel : Nat) (oldJson newJson : Value) :
    Except PyErr (Value × Value × Nat) := do
  let (old, c1) ← maskRecursive schema fuel oldJson "$" none
  let (new, c2) ← maskRecursive schema fuel newJson "$" none
  return (old, new, c1 + c2)

/-- Key of a keyed-array map entry: an index (no `array_key` configured)
or a tuple of field values. -/
inductive KKey where
  | idx (n : Nat)
  | tup (t : List Value)
  deriving Repr

/-- Python `==` on map keys (int vs tuple keys never collide). -/
def kkEq : KKey → KKey → Bool
  | .idx a, .idx b => a == b
  | .tup a, .tup b => Value.pyEqList a b
  | _, _ => false

/-- Insertion-ordered key map (Python dict keyed by tuples/ints). -/
abbrev KeyMap := List (KKey × Value)

/-- Dict lookup on a key map. -/
def kmGet (m : KeyMap) (k : KKey) : Option Value :=
  (m.find? (fun e => kkEq e.1 k)).map (·.2)

/-- Dict membership on a key map. -/
def kmHas (m : KeyMap) (k : KKey) : Bool :=
  (kmGet m k).isSome

/-- Dict assignment on a key map. -/
def kmSet (m : KeyMap) (k : KKey) (v : Value) : KeyMap :=
  if kmHas m k then m.map (fun e => if kkEq e.1 k then (k, v) else e)
  else m ++ [(k, v)]

/-- Keys of a key map in insertion order. -/
def kmKeys (m : KeyMap) : List KKey :=
  m.map (·.1)

/-- Copy an item with its position recorded (`{**item, '_index': i}`). -/
def withIndex (item : Value) (i : Nat) : Value :=
  .obj (Value.objSet item.entriesOf "_index" (.int i))

/-- Source `KeyedArrayTransformer._build_key_map`: map key tuples to
items, resolving duplicates per the configured handling; duplicate
records carry the key and the `[first_index, i]` list the source
reports. -/
def buildKeyMap (keySpec : Value) (dup : DuplicateHandling) :
    List Value → Nat → KeyMap → List (List Value × Value) →
    Except PyErr (KeyMap × List (List Value × Value))
  | [], _, m, dups => .ok (m, dups)
  | item :: rest, i, m, dups =>
    match extract_key_value item keySpec with
    | .error e => .error e
    | .ok none => buildKeyMap keySpec dup rest (i + 1) m dups
    | .ok (some key) =>
      let kk := KKey.tup key
      match kmGet m kk with
      | some stored =>
        match dup with
        | .error =>
          let prev := (Value.objGet stored.entriesOf "_index").getD .null
          buildKeyMap keySpec dup rest (i + 1) m
            (dups ++ [(key, .arr [prev, .int i])])
        | .first => buildKeyMap keySpec dup rest (i + 1) m dups
        | .last =>
          buildKeyMap keySpec dup rest (i + 1) (kmSet m kk (withIndex item i)) dups
        | .merge =>
          let merged := Value.obj (Value.objSet
            (merge_dicts stored.entriesOf item.entriesOf) "_index" (.int i))
          buildKeyMap keySpec dup rest (i + 1) (kmSet m kk merged) dups
      | none =>
        buildKeyMap keySpec dup rest (i + 1) (kmSet m kk (withIndex item i)) dups

/-- Strip the `_index` bookkeeping keys after building a map. -/
def kmStrip (m : KeyMap) : KeyMap :=
  m.map (fun e =>
    match e.2 with
    | .obj oe =>
      if Value.objHas oe "_index" then (e.1, .obj (Value.objDel oe "_index"))
      else (e.1, .obj oe)
    | v => (e.1, v))

/-- Source `KeyedArrayTransformer.transform`. -/
def keyedTransform (oldArr newArr : List Value) (rules : FieldRules) :
    Except PyErr (KeyMap × KeyMap × List (List Value × Value)) :=
  if !rules.arrayKey.truthy then
    .ok (oldArr.enum.map (fun p => (KKey.idx p.1, p.2)),
         newArr.enum.map (fun p => (KKey.idx p.1, p.2)), [])
  else
    match buildKeyMap rules.arrayKey rules.duplicateHandling oldArr 0 [] [] with
    | .error e => .error e
    | .ok (om, od) =>
      match buildKeyMap rules.arrayKey rules.duplicateHandling newArr 0 [] [] with
      | .error e => .error e
      | .ok (nm, nd) => .ok (kmStrip om, kmStrip nm, od ++ nd)

/-- `format_key_value` applied to a map key: index keys (the
no-`array_key` path) raise `TypeError` at `len(key_value)`. -/
def formatKKey : KKey → Except PyErr String
  | .idx _ => .error (.typeError "object of type int has no len")
  | .tup t => .ok (format_key_value t)

/-- Differ configuration (constructor arguments of `Differ`). -/
structure DCtx where
  schema : Value
  rootData : Value
  failFast : Bool
  traceRules : Bool
  deriving Repr

/-- Differ accumulator state (`diffs`, `warnings`, `traces`,
`fields_checked`, `_aborted`). -/
structure DState where
  diffs : List DiffEntry := []
  warnings : List WarningEntry := []
  traces : List TraceEntry := []
  fieldsChecked : Nat := 0
  aborted : Bool := false
  deriving Repr

/-- Source `Differ._add_diff` (sets `_aborted` when `fail_fast`). -/
def addDiff (ctx : DCtx) (s : DState) (path : String) (type : DiffType)
    (oldV newV : Value) (msg : String) (rule : Option String) : DState :=
  let s := { s with diffs := s.diffs ++
    [{ path := path, type := type, severity := .ERROR, oldValue := oldV,
       newValue := newV, message := msg, ruleApplied := rule }] }
  if ctx.failFast then { s with aborted := true } else s

/-- Source `Differ._add_warning`. -/
def addWarning (s : DState) (path : String) (type : DiffType) (msg : String) :
    DState :=
  { s with warnings := s.warnings ++
    [{ path := path, type := type, severity := .WARNING, message := msg }] }

/-- Source `Differ._add_trace` (only records when tracing is on). -/
def addTrace (ctx : DCtx) (s : DState) (path rule action : String)
    (details : Option Value) : DState :=
  if ctx.traceRules then
    { s with traces := s.traces ++
      [{ path := path, rule := rule, action := action, details := details }] }
  else s

/-- Null test matching Python `is None` on document values. -/
def isNotNull : Value → Bool
  | .null => false
  | _ => true

/-- Source `Differ._diff_scalars`: count the field, force the lenient
flags, run the comparators, and classify a mismatch by the active rule. -/
def diffScalars (ctx : DCtx) (old new : Value) (path : String)
    (rules0 : FieldRules) (s0 : DState) : Except PyErr (Bool × DState) :=
  let s := { s0 with fieldsChecked := s0.fieldsChecked + 1 }
  let rules :=
    if rules0.strategy == .lenient then
      { rules0 with trimWhitespace := true, caseInsensitive := true }
    else rules0
  match compare_with_rules old new rules with
  | .error e => .error e
  | .ok (isMatch, message) =>
    if isMatch then
      let s :=
        match rules.precision with
        | some p => addTrace ctx s path "x-migration-precision" "matched"
            (some (.obj [("precision", .float p)]))
        | none => s
      .ok (true, s)
    else
      let (diffType, ruleApplied) : DiffType × Option String :=
        match rules.precision with
        | some p => (.PRECISION_EXCEEDED, some ("x-migration-precision: " ++ floatStr p))
        | none =>
          if isNotNull rules.pattern then
            (.PATTERN_MISMATCH, some ("x-migration-pattern: " ++ pyStr rules.pattern))
          else if isNotNull rules.datetimeTolerance then
            (.DATETIME_EXCEEDED,
             some ("x-migration-datetime-tolerance: " ++ pyStr rules.datetimeTolerance))
          else (.VALUE_MISMATCH, none)
      .ok (false, addDiff ctx s path diffType old new message ruleApplied)

/-- Model of CPython's `set(a) | set(b)` iteration for string keys: `a`'s
keys in insertion order, then `b`'s keys not in `a` (see header note). -/
def unionKeys (a b : List String) : List String :=
  a ++ b.filter (fun k => !a.contains k)

/-- Union of key-map keys in the modelled set order. -/
def kkUnionKeys (a b : List KKey) : List KKey :=
  a ++ b.filter (fun k => !a.any (fun k2 => kkEq k2 k))

/-- Discriminator used for the Python `type(old) == type(new)` check. -/
def typeTag : Value → Nat
  | .null => 0
  | .bool _ => 1
  | .int _ => 2
  | .float _ => 3
  | .str _ => 4
  | .arr _ => 5
  | .obj _ => 6

/-- Python `isinstance(v, (int, float)) and not isinstance(v, bool)`. -/
def isNumNonBool : Value → Bool
  | .int _ => true
  | .float _ => true
  | _ => false

/-- Tail of `Differ._diff_strict_arrays` after the common-index loop:
the extra-items and missing-items handling. -/
def strictTail (ctx : DCtx) (old new : List Value) (path : String)
    (rules : FieldRules) (allMatch0 : Bool) (s0 : DState) : Bool × DState :=
  let (allMatch1, s1) :=
    if new.length > old.length then
      if rules.ignoreExtraItems then
        (allMatch0, addWarning s0 path .ARRAY_ITEM_EXTRA
          ("New array contains " ++ toString (new.length - old.length) ++
            " extra items (allowed by x-migration-ignore-extra-items)"))
      else
        ((List.range (new.length - old.length)).foldl
          (fun (acc : Bool × DState) k =>
            let i := old.length + k
            (false, addDiff ctx acc.2 (path ++ "[" ++ toString i ++ "]")
              .ARRAY_ITEM_EXTRA .null ((new.get? i).getD .null)
              ("Extra item in new array at index " ++ toString i) none))
          (allMatch0, s0))
    else (allMatch0, s0)
  if old.length > new.length && !rules.ignoreMissingItems then
    ((List.range (old.length - new.length)).foldl
      (fun (acc : Bool × DState) k =>
        let i := new.length + k
        (false, addDiff ctx acc.2 (path ++ "[" ++ toString i ++ "]")
          .ARRAY_ITEM_MISSING ((old.get? i).getD .null) .null
          ("Missing item in new array at index " ++ toString i) none))
      (allMatch1, s1))
  else (allMatch1, s1)

/-- Length-mismatch prologue of `Differ._diff_strict_arrays`. -/
def strictLengthCheck (ctx : DCtx) (old new : List Value) (path : String)
    (rules : FieldRules) (s : DState) : Bool × DState :=
  if old.length != new.length then
    if !rules.ignoreExtraItems && new.length > old.length then
      (false, addDiff ctx s path .ARRAY_LENGTH_MISMATCH (.int old.length)
        (.int new.length)
        ("Array length mismatch: " ++ toString old.length ++ " vs " ++
          toString new.length) none)
    else if !rules.ignoreMissingItems && old.length > new.length then
      (false, addDiff ctx s path .ARRAY_LENGTH_MISMATCH (.int old.length)
        (.int new.length)
        ("Array length mismatch: " ++ toString old.length ++ " vs " ++
          toString new.length) none)
    else (true, s)
  else (true, s)

/-- Unmatched-item reporting of `Differ._diff_unordered_arrays`. -/
def unorderedReport (ctx : DCtx) (old new : List Value)
    (oldMatched newMatched : List Bool) (path : String) (rules : FieldRules)
    (s0 : DState) : Bool × DState :=
  let (allMatch1, s1) :=
    (oldMatched.enum).foldl
      (fun (acc : Bool × DState) (p : Nat × Bool) =>
        if !p.2 && !rules.ignoreMissingItems && !rules.arraySubset then
          (false, addDiff ctx acc.2 (path ++ "[" ++ toString p.1 ++ "]")
            .ARRAY_ITEM_MISSING ((old.get? p.1).getD .null) .null
            "Item from old array not found in new" none)
        else acc)
      (true, s0)
  (newMatched.enum).foldl
    (fun (acc : Bool × DState) (p : Nat × Bool) =>
      if !p.2 then
        if rules.ignoreExtraItems then
          (acc.1, addWarning acc.2 (path ++ "[" ++ toString p.1 ++ "]")
            .ARRAY_ITEM_EXTRA
            "Extra item in new array (allowed by x-migration-ignore-extra-items)")
        else
          (false, addDiff ctx acc.2 (path ++ "[" ++ toString p.1 ++ "]")
            .ARRAY_ITEM_EXTRA .null ((new.get? p.1).getD .null)
            "Extra item in new array" none)
      else acc)
    (allMatch1, s1)

mutual

/-- Source `Differ.diff`: abort check, rule resolution, `when`
condition, then the strategy/null/cast/type pre-dispatch via
`diffCore`. -/
def diffD (ctx : DCtx) (fuel : Nat) (old new : Value) (path : String)
    (parentRules : Option FieldRules) (s : DState) :
    Except PyErr (Bool × DState) :=
  match fuel with
  | 0 => .error .recursionError
  | Nat.succ fuel =>
    if s.aborted then .ok (false, s)
    else
      match get_rules_for_path ctx.schema path parentRules with
      | .error e => .error e
      | .ok rules =>
        if rules.whenCondition.truthy then
          match evaluate_condition ctx.rootData rules.whenCondition with
          | .error e => .error e
          | .ok cond =>
            if !cond then
              .ok (true, addTrace ctx s path "x-migration-when" "skipped"
                (some (.obj [("condition", rules.whenCondition)])))
            else diffCore ctx fuel old new path rules s
        else diffCore ctx fuel old new path rules s
termination_by structural fuel

/-- Source `Differ.diff` after the `when` check: ignore/exists
strategies, null handling, casting, the type check, and the final type
dispatch. -/
def diffCore (ctx : DCtx) (fuel : Nat) (old0 new0 : Value) (path : String)
    (rules : FieldRules) (s : DState) : Except PyErr (Bool × DState) :=
  match fuel with
  | 0 => .error .recursionError
  | Nat.succ fuel =>
    if rules.strategy == .ignore then
      .ok (true, addTrace ctx s path "x-migration-strategy" "ignored" none)
    else if rules.strategy == .existsCheck then
      let s := addTrace ctx s path "x-migration-strategy" "exists-check" none
      let oldExists := isNotNull old0
      let newExists := isNotNull new0
      if oldExists != newExists then
        .ok (false, addDiff ctx s path .VALUE_MISMATCH old0 new0
          ("Existence mismatch: old " ++
            (if oldExists then "exists" else "missing") ++ ", new " ++
            (if newExists then "exists" else "missing"))
          (some "x-migration-strategy: exists"))
      else .ok (true, { s with fieldsChecked := s.fieldsChecked + 1 })
    else
      match old0, new0 with
      | .null, .null => .ok (true, { s with fieldsChecked := s.fieldsChecked + 1 })
      | .null, newV =>
        .ok (false, addDiff ctx s path .MISSING_IN_NEW .null newV
          ("Field missing in old, present in new: " ++ pyStr newV) none)
      | oldV, .null =>
        .ok (false, addDiff ctx s path .MISSING_IN_NEW oldV .null
          ("Field present in old (" ++ pyStr oldV ++ "), missing in new") none)
      | oldV0, newV0 =>
        let (old, new, s) :=
          match rules.cast with
          | some c =>
            (safe_cast oldV0 c.toStr, safe_cast newV0 c.toStr,
             addTrace ctx s path "x-migration-cast" "applied"
               (some (.obj [("cast_type", .str c.toStr)])))
          | none => (oldV0, newV0, s)
        if !(typeTag old == typeTag new ||
            (isNumNonBool old && isNumNonBool new)) then
          .ok (false, addDiff ctx s path .TYPE_MISMATCH old new
            ("Type mismatch: " ++ get_type_name old ++ " vs " ++
              get_type_name new) none)
        else
          match old, new with
          | .obj oldE, .obj newE =>
            diffObjects ctx fuel
              (unionKeys (Value.objKeys oldE) (Value.objKeys newE))
              oldE newE path rules true s
          | .arr oldItems, .arr newItems =>
            match rules.arrayMode with
            | .keyed => diffKeyedArrays ctx fuel oldItems newItems path rules s
            | .unordered => diffUnorderedArrays ctx fuel oldItems newItems path rules s
            | .strict => diffStrictArrays ctx fuel oldItems newItems path rules s
          | o, n => diffScalars ctx o n path rules s
termination_by structural fuel

/-- Source `Differ._diff_strict_arrays`: length check, common-index
loop, then extra/missing tail handling. -/
def diffStrictArrays (ctx : DCtx) (fuel : Nat) (oldItems newItems : List Value)
    (path : String) (rules : FieldRules) (s : DState) :
    Except PyErr (Bool × DState) :=
  match fuel with
  | 0 => .error .recursionError
  | Nat.succ fuel =>
    let (allMatch0, s0) := strictLengthCheck ctx oldItems newItems path rules s
    match diffStrictCommon ctx fuel oldItems newItems 0 path rules
        allMatch0 s0 with
    | .error e => .error e
    | .ok (early, allMatch1, s1) =>
      if early then .ok (false, s1)
      else .ok (strictTail ctx oldItems newItems path rules allMatch1 s1)
termination_by structural fuel

/-- Source `Differ._diff_unordered_arrays`: pairwise matching then
unmatched-item reporting. -/
def diffUnorderedArrays (ctx : DCtx) (fuel : Nat)
    (oldItems newItems : List Value) (path : String) (rules : FieldRules)
    (s : DState) : Except PyErr (Bool × DState) :=
  match fuel with
  | 0 => .error .recursionError
  | Nat.succ fuel =>
    match diffUnorderedMatch ctx fuel oldItems 0 newItems
        (List.replicate newItems.length false) path rules s with
    | .error e => .error e
    | .ok (oldMatched, newMatched, s1) =>
      .ok (unorderedReport ctx oldItems newItems oldMatched newMatched
        path rules s1)
termination_by structural fuel

/-- Source `Differ._diff_keyed_arrays`: build the key maps, report
duplicates, then walk the union of keys. -/
def diffKeyedArrays (ctx : DCtx) (fuel : Nat) (oldItems newItems : List Value)
    (path : String) (rules : FieldRules) (s : DState) :
    Except PyErr (Bool × DState) :=
  match fuel with
  | 0 => .error .recursionError
  | Nat.succ fuel =>
    match keyedTransform oldItems newItems rules with
    | .error e => .error e
    | .ok (oldMap, newMap, duplicates) =>
      let (allMatch0, s0) := duplicates.foldl
        (fun (acc : Bool × DState) d =>
          (false, addDiff ctx acc.2 path .DUPLICATE_KEY .null .null
            ("Duplicate key " ++ format_key_value d.1 ++
              " at indices " ++ pyStr d.2)
            (some ("x-migration-array-key: " ++ pyStr rules.arrayKey))))
        (true, s)
      let keySpecD :=
        if rules.arrayKey.truthy then rules.arrayKey else .str "id"
      diffKeyedGo ctx fuel (kkUnionKeys (kmKeys oldMap) (kmKeys newMap))
        oldMap newMap keySpecD path rules allMatch0 s0
termination_by structural fuel

/-- Source `Differ._diff_objects` key loop over the union of keys. -/
def diffObjects (ctx : DCtx) (fuel : Nat) (keys : List String)
    (oldE newE : List (String × Value)) (path : String) (rules : FieldRules)
    (allMatch : Bool) (s : DState) : Except PyErr (Bool × DState) :=
  match fuel with
  | 0 => .error .recursionError
  | Nat.succ fuel =>
    match keys with
    | [] => .ok (allMatch, s)
    | key :: restKeys =>
      if s.aborted then .ok (false, s)
      else
        let childPath := build_path path key
        match Value.objGet oldE key with
        | none =>
          match get_rules_for_path ctx.schema childPath (some rules) with
          | .error e => .error e
          | .ok childRules =>
            if !(childRules.strategy == .ignore) then
              let s := addDiff ctx s childPath .EXTRA_IN_NEW .null
                ((Value.objGet newE key).getD .null)
                ("Extra field in new: " ++ key) none
              diffObjects ctx fuel restKeys oldE newE path rules false s
            else diffObjects ctx fuel restKeys oldE newE path rules allMatch s
        | some oldV =>
          match Value.objGet newE key with
          | none =>
            match get_rules_for_path ctx.schema childPath (some rules) with
            | .error e => .error e
            | .ok childRules =>
              if !(childRules.strategy == .ignore) then
                if childRules.hasDefault then
                  match diffD ctx fuel oldV childRules.default childPath
                      (some rules) s with
                  | .error e => .error e
                  | .ok (b, s2) =>
                    diffObjects ctx fuel restKeys oldE newE path rules
                      (allMatch && b) s2
                else
                  let s := addDiff ctx s childPath .MISSING_IN_NEW oldV .null
                    ("Field missing in new: " ++ key) none
                  diffObjects ctx fuel restKeys oldE newE path rules false s
              else diffObjects ctx fuel restKeys oldE newE path rules allMatch s
          | some newV =>
            match diffD ctx fuel oldV newV childPath (some rules) s with
            | .error e => .error e
            | .ok (b, s2) =>
              diffObjects ctx fuel restKeys oldE newE path rules (allMatch && b) s2
termination_by structural fuel

/-- Common-index loop of `Differ._diff_strict_arrays`; the first
component of the result records the source's early `return False` on
abort. -/
def diffStrictCommon (ctx : DCtx) (fuel : Nat) (oldItems newItems : List Value)
    (i : Nat) (path : String) (rules : FieldRules) (allMatch : Bool)
    (s : DState) : Except PyErr (Bool × Bool × DState) :=
  match fuel with
  | 0 => .error .recursionError
  | Nat.succ fuel =>
    match oldItems, newItems with
    | [], _ => .ok (false, allMatch, s)
    | _, [] => .ok (false, allMatch, s)
    | oldV :: oldRest, newV :: newRest =>
      if s.aborted then .ok (true, allMatch, s)
      else
        match diffD ctx fuel oldV newV (path ++ "[" ++ toString i ++ "]")
            (some rules) s with
        | .error e => .error e
        | .ok (b, s2) =>
          diffStrictCommon ctx fuel oldRest newRest (i + 1) path rules
            (allMatch && b) s2
termination_by structural fuel

/-- Matching phase of `Differ._diff_unordered_arrays`: for each baseline
item find the first unmatched equal candidate. -/
def diffUnorderedMatch (ctx : DCtx) (fuel : Nat) (oldItems : List Value)
    (i : Nat) (newItems : List Value) (newMatched : List Bool) (path : String)
    (rules : FieldRules) (s : DState) :
    Except PyErr (List Bool × List Bool × DState) :=
  match fuel with
  | 0 => .error .recursionError
  | Nat.succ fuel =>
    match oldItems with
    | [] => .ok ([], newMatched, s)
    | oldItem :: oldRest =>
      match diffUnorderedFind ctx fuel oldItem i newItems newMatched 0 path rules with
      | .error e => .error e
      | .ok (some j) =>
        match diffUnorderedMatch ctx fuel oldRest (i + 1) newItems
            (newMatched.set j true) path rules
            { s with fieldsChecked := s.fieldsChecked + 1 } with
        | .error e => .error e
        | .ok (tail, nm, s2) => .ok (true :: tail, nm, s2)
      | .ok none =>
        match diffUnorderedMatch ctx fuel oldRest (i + 1) newItems newMatched
            path rules s with
        | .error e => .error e
        | .ok (tail, nm, s2) => .ok (false :: tail, nm, s2)
termination_by structural fuel

/-- Inner search of `Differ._diff_unordered_arrays`: first unmatched
candidate index a fail-fast sub-differ (fresh state) considers equal. -/
def diffUnorderedFind (ctx : DCtx) (fuel : Nat) (oldItem : Value) (i : Nat)
    (newItems : List Value) (matched : List Bool) (j : Nat) (path : String)
    (rules : FieldRules) : Except PyErr (Option Nat) :=
  match fuel with
  | 0 => .error .recursionError
  | Nat.succ fuel =>
    match newItems with
    | [] => .ok none
    | newItem :: newRest =>
      let matchedHere := matched.headD false
      let matchedRest := matched.tail
      if matchedHere then
        diffUnorderedFind ctx fuel oldItem i newRest matchedRest (j + 1) path rules
      else
        match diffD { ctx with failFast := true, traceRules := false } fuel
            oldItem newItem (path ++ "[" ++ toString i ++ "]") (some rules) {} with
        | .error e => .error e
        | .ok (b, _) =>
          if b then .ok (some j)
          else
            diffUnorderedFind ctx fuel oldItem i newRest matchedRest (j + 1)
              path rules
termination_by structural fuel

/-- Union-of-keys loop of `Differ._diff_keyed_arrays`. -/
def diffKeyedGo (ctx : DCtx) (fuel : Nat) (keys : List KKey)
    (oldMap newMap : KeyMap) (keySpecD : Value) (path : String)
    (rules : FieldRules) (allMatch : Bool) (s : DState) :
    Except PyErr (Bool × DState) :=
  match fuel with
  | 0 => .error .recursionError
  | Nat.succ fuel =>
    match keys with
    | [] => .ok (allMatch, s)
    | key :: restKeys =>
      if s.aborted then .ok (false, s)
      else
        match formatKKey key with
        | .error e => .error e
        | .ok keyDisplay =>
          let itemPath :=
            match keySpecD with
            | .str ks => path ++ "[?(@." ++ ks ++ "==" ++ keyDisplay ++ ")]"
            | _ => path ++ "[key=" ++ keyDisplay ++ "]"
          match kmGet oldMap key with
          | none =>
            if rules.ignoreExtraItems then
              let s := addWarning s itemPath .ARRAY_ITEM_EXTRA
                ("Extra item with key " ++ keyDisplay ++ " in new (allowed)")
              diffKeyedGo ctx fuel restKeys oldMap newMap keySpecD path rules
                allMatch s
            else
              let s := addDiff ctx s itemPath .ARRAY_ITEM_EXTRA .null
                ((kmGet newMap key).getD .null)
                ("Extra item with key " ++ keyDisplay ++ " in new array") none
              diffKeyedGo ctx fuel restKeys oldMap newMap keySpecD path rules
                false s
          | some oldItem =>
            match kmGet newMap key with
            | none =>
              if rules.ignoreMissingItems then
                let s := addWarning s itemPath .ARRAY_ITEM_MISSING
                  ("Missing item with key " ++ keyDisplay ++ " in new (allowed)")
                diffKeyedGo ctx fuel restKeys oldMap newMap keySpecD path rules
                  allMatch s
              else
                let s := addDiff ctx s itemPath .ARRAY_ITEM_MISSING oldItem .null
                  ("Missing item with key " ++ keyDisplay ++ " in new array") none
                diffKeyedGo ctx fuel restKeys oldMap newMap keySpecD path rules
                  false s
            | some newItem =>
              match diffD ctx fuel oldItem newItem itemPath (some rules) s with
              | .error e => .error e
              | .ok (b, s2) =>
                diffKeyedGo ctx fuel restKeys oldMap newMap keySpecD path rules
                  (allMatch && b) s2
termination_by structural fuel

end

/-- Python `type(x).__name__` for document values. -/
def pyTypeName : Value → String
  | .null => "NoneType"
  | .bool _ => "bool"
  | .int _ => "int"
  | .float _ => "float"
  | .str _ => "str"
  | .arr _ => "list"
  | .obj _ => "dict"

/-- Render a rational with two decimals (model of Python `:.2f`). -/
def fmt2 (q : ℚ) : String :=
  let cents : Int := Int.floor (q * 100 + 1 / 2)
  let sign := if cents < 0 then "-" else ""
  let n := cents.natAbs
  sign ++ toString (n / 100) ++ "." ++
    (let f := n % 100
     (if f < 10 then "0" else "") ++ toString f)

/-- Source `ShadowDiffEngine._create_error_response` applied to the
exception taxonomy of `compare`'s `except` clauses. -/
def mkErrorResponse (e : PyErr) : ErrorResponse :=
  let (code, message, details) : String × String × Value :=
    match e with
    | .validation msg d => ("VALIDATION_ERROR", msg, d)
    | .schemaParse msg reason =>
      ("SCHEMA_PARSE_ERROR", msg,
       .obj [("line", .null), ("column", .null),
             ("reason", match reason with | some r => .str r | none => .null)])
    | .payloadSize size limit =>
      ("PAYLOAD_SIZE_ERROR",
       "Payload size (" ++ fmt2 size ++ "MB) exceeds limit (" ++
         floatStr limit ++ "MB)",
       .obj [("size_mb", .float size), ("limit_mb", .float limit)])
    | .externalRef ref =>
      ("PROCESSING_ERROR", "External $ref not allowed: " ++ ref,
       .obj [("type", .str "ExternalRefError")])
    | .circularRef ref =>
      ("PROCESSING_ERROR", "Circular reference detected at: " ++ ref,
       .obj [("type", .str "CircularRefError")])
    | .valueError m =>
      ("PROCESSING_ERROR", m, .obj [("type", .str "ValueError")])
    | .typeError m =>
      ("PROCESSING_ERROR", m, .obj [("type", .str "TypeError")])
    | .attributeError m =>
      ("PROCESSING_ERROR", m, .obj [("type", .str "AttributeError")])
    | .keyError k =>
      ("PROCESSING_ERROR", "'" ++ k ++ "'", .obj [("type", .str "KeyError")])
    | .recursionError =>
      ("PROCESSING_ERROR", "maximum recursion depth exceeded",
       .obj [("type", .str "RecursionError")])
  { success := false, error := { code := code, message := message, details := details } }

/-- Source `ShadowDiffEngine._count_schema_fields` (depth-capped). -/
def countSchemaFields : Nat → Value → Except PyErr Nat
  | 0, _ => .ok 0
  | Nat.succ fuel, schema => do
    let hasComp ← pyContains schema "components"
    let compCase ←
      if hasComp then do
        let comp ← pySubscript schema "components"
        let hasSchemas ← pyContains comp "schemas"
        if hasSchemas then do
          let schemas ← pySubscript comp "schemas"
          match schemas with
          | .obj se =>
            let total ← se.foldlM
              (fun acc kv => do
                let c ← countSchemaFields fuel kv.2
                pure (acc + c)) 0
            pure (some total)
          | _ => .error (.attributeError "values")
        else pure none
      else pure none
    match compCase with
    | some total => return total
    | none => do
      let hasProps ← pyContains schema "properties"
      let c1 ←
        if hasProps then do
          let props ← pySubscript schema "properties"
          match props with
          | .obj pe =>
            pe.foldlM
              (fun acc kv => do
                let c ← countSchemaFields fuel kv.2
                pure (acc + 1 + c)) 0
          | _ => .error (.attributeError "values")
        else pure 0
      let hasItems ← pyContains schema "items"
      let c2 ←
        if hasItems then do
          let items ← pySubscript schema "items"
          countSchemaFields fuel items
        else pure 0
      return c1 + c2

/-- Source `ShadowDiffEngine._count_payload_fields` (depth-capped). -/
def countPayloadFields : Nat → Value → Nat
  | 0, _ => 0
  | Nat.succ fuel, .obj e =>
    e.foldl (fun acc kv => acc + countPayloadFields fuel kv.2) e.length
  | Nat.succ fuel, .arr l =>
    l.foldl (fun acc v => acc + countPayloadFields fuel v) 0
  | Nat.succ _, _ => 0

/-- Source `ShadowDiffEngine._collect_paths` (the Python `set` is
modelled as a deduplicated traversal-order list; see header note). -/
def collectPaths : Nat → Value → String → List String
  | 0, _, _ => []
  | Nat.succ fuel, .obj e, path =>
    e.foldl
      (fun acc kv =>
        let cp := path ++ "." ++ kv.1
        acc ++ [cp] ++ collectPaths fuel kv.2 cp) []
  | Nat.succ fuel, .arr l, path =>
    (l.enum).foldl
      (fun acc p =>
        acc ++ collectPaths fuel p.2 (path ++ "[" ++ toString p.1 ++ "]")) []
  | Nat.succ _, _, _ => []

/-- Source `ShadowDiffEngine._calculate_coverage`. -/
def calculateCoverage (oldJson newJson resolvedSchema : Value) :
    Except PyErr Coverage := do
  let schemaFields ← countSchemaFields 51 resolvedSchema
  let payloadFields :=
    max (countPayloadFields 51 oldJson) (countPayloadFields 51 newJson)
  let oldPaths := (collectPaths 51 oldJson "$").dedup
  let newPaths := (collectPaths 51 newJson "$").dedup
  let unmatchedOld := (oldPaths.filter (fun p => !newPaths.contains p)).take 10
  let unmatchedNew := (newPaths.filter (fun p => !oldPaths.contains p)).take 10
  return { fieldsInSchema := schemaFields, fieldsInPayload := payloadFields,
           unmatchedInOld := unmatchedOld, unmatchedInNew := unmatchedNew }

/-- Recursion-limit fuel standing in for the CPython interpreter stack
bound; exceeding it is a `RecursionError` which `compare` reports as
`PROCESSING_ERROR`. -/
def pyFuel : Nat := 1000

/-- Source `ShadowDiffEngine._validate_inputs`. -/
def validateInputs (cfg : EngineConfig) (oldJson newJson schemaFragment : Value) :
    Except PyErr Unit :=
  match oldJson with
  | .null => .error (.validation "old_json is required" (.obj []))
  | _ =>
    match newJson with
    | .null => .error (.validation "new_json is required" (.obj []))
    | _ =>
      match schemaFragment with
      | .null => .error (.validation "schema_fragment is required" (.obj []))
      | .obj _ =>
        let oldSize := get_json_size_mb oldJson
        let newSize := get_json_size_mb newJson
        if !(oldSize ≤ cfg.maxPayloadSizeMb) then
          .error (.payloadSize oldSize cfg.maxPayloadSizeMb)
        else if !(newSize ≤ cfg.maxPayloadSizeMb) then
          .error (.payloadSize newSize cfg.maxPayloadSizeMb)
        else .ok ()
      | v =>
        .error (.validation "schema_fragment must be an object"
          (.obj [("type", .str (pyTypeName v))]))

/-- Success path of `ShadowDiffEngine.compare` (stages 1-4 plus report
assembly), with every stage's exceptions surfaced in `Except`. -/
def comparePipeline (cfg : EngineConfig) (clk : Clock)
    (oldJson newJson schemaFragment : Value) : Except PyErr DiffReport := do
  validateInputs cfg oldJson newJson schemaFragment
  let resolvedSchema ← schemaResolve schemaFragment cfg.maxDepth pyFuel
  let globalRules ← extract_global_rules resolvedSchema
  let (oldNorm, newNorm) ← normalize resolvedSchema globalRules pyFuel
    oldJson newJson
  let (oldMasked, newMasked, ignoredCount) ← mask resolvedSchema pyFuel
    oldNorm newNorm
  let ctx : DCtx :=
    { schema := resolvedSchema
      rootData := .obj [("old", oldMasked), ("new", newMasked)]
      failFast := cfg.failFast
      traceRules := cfg.traceRuleApplication }
  let (isMatch, ds) ← diffD ctx pyFuel oldMasked newMasked "$" none {}
  let coverage ←
    if cfg.collectStatistics then
      (calculateCoverage oldJson newJson resolvedSchema).map some
    else pure none
  let report : DiffReport :=
    { isMatch := isMatch && ds.diffs.isEmpty
      execution :=
        { durationMs := pyTrunc ((clk.t1 - clk.t0) * 1000)
          timestamp := clk.utcnow ++ "Z"
          engineVersion := "2.0.0" }
      summary :=
        { totalFieldsChecked := ds.fieldsChecked
          mismatchesFound := ds.diffs.length
          warningsCount := ds.warnings.length
          fieldsIgnored := ignoredCount }
      diffs := ds.diffs
      warnings := ds.warnings
      coverage := coverage
      trace := if cfg.traceRuleApplication then ds.traces else [] }
  return report

/-- Source `ShadowDiffEngine.compare`: the pipeline with every raised
exception converted to a structured `ErrorResponse`. -/
def compare (cfg : EngineConfig) (clk : Clock)
    (oldJson newJson schemaFragment : Value) : DiffReport ⊕ ErrorResponse :=
  match comparePipeline cfg clk oldJson newJson schemaFragment with
  | .ok report => .inl report
  | .error e => .inr (mkErrorResponse e)

end ShadowDiff
namespace ShadowDiff

/-! ### Concrete inputs and report views used by the claim theorems -/

/-- A fixed clock observation (`time.time()` twice and
`datetime.utcnow().isoformat()`). -/
def clk0 : Clock := ⟨0, 0, "1970-01-01T00:00:00"⟩

/-- A second clock observation, for determinism questions. -/
def clkA : Clock := ⟨0, 1, "1970-01-01T00:00:01"⟩

/-- A third clock observation, for determinism questions. -/
def clkB : Clock := ⟨5, 9, "2024-06-01T12:00:00"⟩

/-- Observable outcome of a `compare` run: match flag, diff types in
order, warning count and `fields_ignored`. -/
def reportView : DiffReport ⊕ ErrorResponse → Option (Bool × List DiffType × Nat × Nat)
  | .inl rep => some (rep.isMatch, rep.diffs.map (fun d => d.type),
      rep.warnings.length, rep.summary.fieldsIgnored)
  | .inr _ => none

/-- The error code of a `compare` run that returned an `ErrorResponse`. -/
def errorCodeOf : DiffReport ⊕ ErrorResponse → Option String
  | .inl _ => none
  | .inr r => some r.error.code

/-- The execution timestamp of a successful `compare` run. -/
def execTimestampOf : DiffReport ⊕ ErrorResponse → Option String
  | .inl rep => some rep.execution.timestamp
  | .inr _ => none

/-- Observable outcome of a `_diff_scalars` call: match flag plus the
type and message of every accumulated diff. -/
def scalView : Except PyErr (Bool × DState) → Option (Bool × List (DiffType × String))
  | .ok (b, s) => some (b, s.diffs.map (fun d => (d.type, d.message)))
  | .error _ => none

/-- Spec scenario S1: the schema with global ignores, an enum map,
string flags and a `5s` datetime tolerance. -/
def s1Schema : Value := .obj [
  ("type", .str "object"),
  ("x-migration-global-ignores", .arr [.str "$..updatedAt", .str "$..metadata"]),
  ("properties", .obj [
    ("status", .obj [("type", .str "string"),
      ("x-migration-enum-map", .obj [("PAID", .str "paid")])]),
    ("description", .obj [("type", .str "string"),
      ("x-migration-trim-whitespace", .bool true),
      ("x-migration-case-insensitive", .bool true)]),
    ("createdAt", .obj [("type", .str "string"),
      ("x-migration-datetime-tolerance", .str "5s")])])]

/-- Spec scenario S1: the baseline document. -/
def s1B : Value := .obj [("status", .str "PAID"), ("description", .str " Test "),
  ("createdAt", .str "2025-02-02T10:30:00Z"), ("updatedAt", .str "x")]

/-- Spec scenario S1: the candidate document. -/
def s1C : Value := .obj [("status", .str "paid"), ("description", .str "test"),
  ("createdAt", .str "2025-02-02T10:30:02Z")]

/-- Payload used by the `$ref` error-code scenarios. -/
def d3B : Value := .obj [("a", .int 1)]

/-- Candidate payload used by the `$ref` error-code scenarios. -/
def d3C : Value := .obj [("a", .int 2)]

/-- A schema whose `a` property carries an external `$ref`. -/
def c3ExtSchema : Value := .obj [("type", .str "object"),
  ("properties", .obj [("a", .obj [("$ref", .str "https://example.com/s.json#/A")])])]

/-- A schema whose `a` property carries an unresolvable internal `$ref`. -/
def c3IntSchema : Value := .obj [("type", .str "object"),
  ("properties", .obj [("a", .obj [("$ref", .str "#/definitions/missing")])])]

/-- A schema whose array field sets `x-migration-ignore-missing-items`. -/
def c4Schema : Value := .obj [("type", .str "object"),
  ("properties", .obj [("a", .obj [("type", .str "array"),
    ("x-migration-ignore-missing-items", .bool true)])])]

/-- Baseline with a three-item array. -/
def d4B : Value := .obj [("a", .arr [.int 1, .int 2, .int 3])]

/-- Candidate with only the first two items. -/
def d4C : Value := .obj [("a", .arr [.int 1, .int 2])]

/-- A minimal differ configuration (empty schema, no fail-fast, no
tracing). -/
def ctx0 : DCtx := ⟨.obj [], .obj [], false, false⟩

/-- Field rules carrying a datetime format and an invalid
`datetime_tolerance` duration string. -/
def rules5 : FieldRules := { datetimeFormat := .str "%Y-%m-%dT%H:%M:%S", datetimeTolerance := .str "bogus" }

/-- Spec scenario S5: a rule-free object schema. -/
def s5Schema : Value := .obj [("type", .str "object")]

/-- Spec scenario S5: baseline `{x:1}`. -/
def s5B : Value := .obj [("x", .int 1)]

/-- Spec scenario S5: candidate `{x:"1"}`. -/
def s5C : Value := .obj [("x", .str "1")]

/-- A `DiffReport` with its wall-clock-derived execution block replaced
by a fixed one: what remains of a report once the timing observations
are quotiented away. -/
def reportCore (rep : DiffReport) : DiffReport :=
  { rep with execution := { durationMs := 0, timestamp := "", engineVersion := "2.0.0" } }

/-- `reportCore` lifted to `compare` outcomes. -/
def outCore : DiffReport ⊕ ErrorResponse → DiffReport ⊕ ErrorResponse
  | .inl rep => .inl (reportCore rep)
  | .inr e => .inr e

/-- Keyed-array rules on key field `id`. -/
def r10 : FieldRules := { arrayMode := .keyed, arrayKey := .str "id" }

/-- A keyed item carrying the key field. -/
def o10 : Value := .obj [("id", .int 1), ("v", .int 1)]

/-- An object item lacking the `id` key field. -/
def kx1 : Value := .obj [("v", .int 9)]

/-- A non-object array item. -/
def kx2 : Value := .str "stray"

end ShadowDiff
namespace ShadowDiff

/-- Some accumulated diff entry is a `PRECISION_EXCEEDED`. -/
def hasPEb (s : DState) : Bool :=
  s.diffs.any (fun d => d.type == DiffType.PRECISION_EXCEEDED)

/-- A `_diff_scalars` outcome free of `PRECISION_EXCEEDED` entries. -/
def scalPEFree : Except PyErr (Bool × DState) → Bool
  | .ok (_, s') => !hasPEb s'
  | .error _ => true

end ShadowDiff
namespace ShadowDiff

/-- The per-index `ARRAY_ITEM_MISSING` entry `_diff_strict_arrays` emits
for the `k`-th missing tail item. -/
def c4MissEntry (old : List Value) (newLen : Nat) (path : String) (k : Nat) : DiffEntry :=
  { path := path ++ "[" ++ toString (newLen + k) ++ "]"
    type := .ARRAY_ITEM_MISSING
    severity := .ERROR
    oldValue := (old.get? (newLen + k)).getD .null
    newValue := .null
    message := "Missing item in new array at index " ++ toString (newLen + k)
    ruleApplied := none }

end ShadowDiff
namespace ShadowDiff

/-- The differ only ever appends to `diffs`: `s'` extends `s`. -/
def DExt (s s' : DState) : Prop := ∃ t, s'.diffs = s.diffs ++ t

/-- Fail-fast invariant: an aborted state already holds a diff. -/
def DInv (s : DState) : Prop := s.aborted = true → s.diffs ≠ []

/-- Differ-call postcondition: the invariant holds, the diffs only
grew, and a `false` verdict is witnessed by a recorded diff. -/
def POut (s : DState) (r : Bool × DState) : Prop :=
  DInv r.2 ∧ DExt s r.2 ∧ (r.1 = false → r.2.diffs ≠ [])

/-- Postcondition for the loops that thread an `all_match` flag: a
`false` verdict traces back to the incoming flag or a recorded diff. -/
def POutA (am : Bool) (s : DState) (r : Bool × DState) : Prop :=
  DInv r.2 ∧ DExt s r.2 ∧ (r.1 = false → am = false ∨ r.2.diffs ≠ [])

/-- Lift a postcondition over `Except` (errors are vacuous). -/
def EOk (P : Bool × DState → Prop) : Except PyErr (Bool × DState) → Prop
  | .ok r => P r
  | .error _ => True

/-- Postcondition of the strict common-index loop: its early-abort flag
also certifies a recorded diff. -/
def EOkSC (am : Bool) (s : DState) : Except PyErr (Bool × Bool × DState) → Prop
  | .ok r => DInv r.2.2 ∧ DExt s r.2.2 ∧ (r.1 = true → r.2.2.diffs ≠ []) ∧
      (r.2.1 = false → am = false ∨ r.2.2.diffs ≠ [])
  | .error _ => True

/-- Postcondition of the unordered matching phase: it records no diff
and never aborts. -/
def EOkUM (s : DState) : Except PyErr (List Bool × List Bool × DState) → Prop
  | .ok r => r.2.2.diffs = s.diffs ∧ r.2.2.aborted = s.aborted
  | .error _ => True

end ShadowDiff
namespace ShadowDiff

/-- Concrete instant `2025-02-02T10:30:00` (naive). -/
def dtW1 : PyDateTime := ⟨2025, 2, 2, 10, 30, 0, 0, none⟩

/-- Concrete instant `2025-02-02T10:30:02` (naive). -/
def dtW2 : PyDateTime := ⟨2025, 2, 2, 10, 30, 2, 0, none⟩

end ShadowDiff
namespace ShadowDiff

/-- One-step unfolding of `diffCore` at positive fuel. -/
theorem diffCore_succ_eq (ctx : DCtx) (n : Nat) (old0 new0 : Value) (path : String)
    (rules : FieldRules) (s : DState) :
    diffCore ctx (n + 1) old0 new0 path rules s =
    (if rules.strategy == .ignore then
      .ok (true, addTrace ctx s path "x-migration-strategy" "ignored" none)
    else if rules.strategy == .existsCheck then
      let s := addTrace ctx s path "x-migration-strategy" "exists-check" none
      let oldExists := isNotNull old0
      let newExists := isNotNull new0
      if oldExists != newExists then
        .ok (false, addDiff ctx s path .VALUE_MISMATCH old0 new0
          ("Existence mismatch: old " ++
            (if oldExists then "exists" else "missing") ++ ", new " ++
            (if newExists then "exists" else "missing"))
          (some "x-migration-strategy: exists"))
      else .ok (true, { s with fieldsChecked := s.fieldsChecked + 1 })
    else
      match old0, new0 with
      | .null, .null => .ok (true, { s with fieldsChecked := s.fieldsChecked + 1 })
      | .null, newV =>
        .ok (false, addDiff ctx s path .MISSING_IN_NEW .null newV
          ("Field missing in old, present in new: " ++ pyStr newV) none)
      | oldV, .null =>
        .ok (false, addDiff ctx s path .MISSING_IN_NEW oldV .null
          ("Field present in old (" ++ pyStr oldV ++ "), missing in new") none)
      | oldV0, newV0 =>
        let (old, new, s) :=
          match rules.cast with
          | some c =>
            (safe_cast oldV0 c.toStr, safe_cast newV0 c.toStr,
             addTrace ctx s path "x-migration-cast" "applied"
               (some (.obj [("cast_type", .str c.toStr)])))
          | none => (oldV0, newV0, s)
        if !(typeTag old == typeTag new ||
            (isNumNonBool old && isNumNonBool new)) then
          .ok (false, addDiff ctx s path .TYPE_MISMATCH old new
            ("Type mismatch: " ++ get_type_name old ++ " vs " ++
              get_type_name new) none)
        else
          match old, new with
          | .obj oldE, .obj newE =>
            diffObjects ctx n
              (unionKeys (Value.objKeys oldE) (Value.objKeys newE))
              oldE newE path rules true s
          | .arr oldItems, .arr newItems =>
            match rules.arrayMode with
            | .keyed => diffKeyedArrays ctx n oldItems newItems path rules s
            | .unordered => diffUnorderedArrays ctx n oldItems newItems path rules s
            | .strict => diffStrictArrays ctx n oldItems newItems path rules s
          | o, n => diffScalars ctx o n path rules s
    ) := rfl

/-- One-step unfolding of `diffObjects` at positive fuel. -/
theorem diffObjects_succ_eq (ctx : DCtx) (n : Nat) (keys : List String)
    (oldE newE : List (String × Value)) (path : String) (rules : FieldRules)
    (allMatch : Bool) (s : DState) :
    diffObjects ctx (n + 1) keys oldE newE path rules allMatch s =
    (match keys with
    | [] => .ok (allMatch, s)
    | key :: restKeys =>
      if s.aborted then .ok (false, s)
      else
        let childPath := build_path path key
        match Value.objGet oldE key with
        | none =>
          match get_rules_for_path ctx.schema childPath (some rules) with
          | .error e => .error e
          | .ok childRules =>
            if !(childRules.strategy == .ignore) then
              let s := addDiff ctx s childPath .EXTRA_IN_NEW .null
                ((Value.objGet newE key).getD .null)
                ("Extra field in new: " ++ key) none
              diffObjects ctx n restKeys oldE newE path rules false s
            else diffObjects ctx n restKeys oldE newE path rules allMatch s
        | some oldV =>
          match Value.objGet newE key with
          | none =>
            match get_rules_for_path ctx.schema childPath (some rules) with
            | .error e => .error e
            | .ok childRules =>
              if !(childRules.strategy == .ignore) then
                if childRules.hasDefault then
                  match diffD ctx n oldV childRules.default childPath
                      (some rules) s with
                  | .error e => .error e
                  | .ok (b, s2) =>
                    diffObjects ctx n restKeys oldE newE path rules
                      (allMatch && b) s2
                else
                  let s := addDiff ctx s childPath .MISSING_IN_NEW oldV .null
                    ("Field missing in new: " ++ key) none
                  diffObjects ctx n restKeys oldE newE path rules false s
              else diffObjects ctx n restKeys oldE newE path rules allMatch s
          | some newV =>
            match diffD ctx n oldV newV childPath (some rules) s with
            | .error e => .error e
            | .ok (b, s2) =>
              diffObjects ctx n restKeys oldE newE path rules (allMatch && b) s2
    ) := rfl

/-- One-step unfolding of `diffStrictCommon` at positive fuel. -/
theorem diffStrictCommon_succ_eq (ctx : DCtx) (n : Nat) (oldItems newItems : List Value)
    (i : Nat) (path : String) (rules : FieldRules) (allMatch : Bool)
    (s : DState) :
    diffStrictCommon ctx (n + 1) oldItems newItems i path rules allMatch s =
    (match oldItems, newItems with
    | [], _ => .ok (false, allMatch, s)
    | _, [] => .ok (false, allMatch, s)
    | oldV :: oldRest, newV :: newRest =>
      if s.aborted then .ok (true, allMatch, s)
      else
        match diffD ctx n oldV newV (path ++ "[" ++ toString i ++ "]")
            (some rules) s with
        | .error e => .error e
        | .ok (b, s2) =>
          diffStrictCommon ctx n oldRest newRest (i + 1) path rules
            (allMatch && b) s2
    ) := rfl

/-- One-step unfolding of `diffUnorderedMatch` at positive fuel. -/
theorem diffUnorderedMatch_succ_eq (ctx : DCtx) (n : Nat) (oldItems : List Value)
    (i : Nat) (newItems : List Value) (newMatched : List Bool) (path : String)
    (rules : FieldRules) (s : DState) :
    diffUnorderedMatch ctx (n + 1) oldItems i newItems newMatched path rules s =
    (match oldItems with
    | [] => .ok ([], newMatched, s)
    | oldItem :: oldRest =>
      match diffUnorderedFind ctx n oldItem i newItems newMatched 0 path rules with
      | .error e => .error e
      | .ok (some j) =>
        match diffUnorderedMatch ctx n oldRest (i + 1) newItems
            (newMatched.set j true) path rules
            { s with fieldsChecked := s.fieldsChecked + 1 } with
        | .error e => .error e
        | .ok (tail, nm, s2) => .ok (true :: tail, nm, s2)
      | .ok none =>
        match diffUnorderedMatch ctx n oldRest (i + 1) newItems newMatched
            path rules s with
        | .error e => .error e
        | .ok (tail, nm, s2) => .ok (false :: tail, nm, s2)
    ) := rfl

/-- One-step unfolding of `diffKeyedGo` at positive fuel. -/
theorem diffKeyedGo_succ_eq (ctx : DCtx) (n : Nat) (keys : List KKey)
    (oldMap newMap : KeyMap) (keySpecD : Value) (path : String)
    (rules : FieldRules) (allMatch : Bool) (s : DState) :
    diffKeyedGo ctx (n + 1) keys oldMap newMap keySpecD path rules allMatch s =
    (match keys with
    | [] => .ok (allMatch, s)
    | key :: restKeys =>
      if s.aborted then .ok (false, s)
      else
        match formatKKey key with
        | .error e => .error e
        | .ok keyDisplay =>
          let itemPath :=
            match keySpecD with
            | .str ks => path ++ "[?(@." ++ ks ++ "==" ++ keyDisplay ++ ")]"
            | _ => path ++ "[key=" ++ keyDisplay ++ "]"
          match kmGet oldMap key with
          | none =>
            if rules.ignoreExtraItems then
              let s := addWarning s itemPath .ARRAY_ITEM_EXTRA
                ("Extra item with key " ++ keyDisplay ++ " in new (allowed)")
              diffKeyedGo ctx n restKeys oldMap newMap keySpecD path rules
                allMatch s
            else
              let s := addDiff ctx s itemPath .ARRAY_ITEM_EXTRA .null
                ((kmGet newMap key).getD .null)
                ("Extra item with key " ++ keyDisplay ++ " in new array") none
              diffKeyedGo ctx n restKeys oldMap newMap keySpecD path rules
                false s
          | some oldItem =>
            match kmGet newMap key with
            | none =>
              if rules.ignoreMissingItems then
                let s := addWarning s itemPath .ARRAY_ITEM_MISSING
                  ("Missing item with key " ++ keyDisplay ++ " in new (allowed)")
                diffKeyedGo ctx n restKeys oldMap newMap keySpecD path rules
                  allMatch s
              else
                let s := addDiff ctx s itemPath .ARRAY_ITEM_MISSING oldItem .null
                  ("Missing item with key " ++ keyDisplay ++ " in new array") none
                diffKeyedGo ctx n restKeys oldMap newMap keySpecD path rules
                  false s
            | some newItem =>
              match diffD ctx n oldItem newItem itemPath (some rules) s with
              | .error e => .error e
              | .ok (b, s2) =>
                diffKeyedGo ctx n restKeys oldMap newMap keySpecD path rules
                  (allMatch && b) s2
    ) := rfl

end ShadowDiff
namespace ShadowDiff

set_option maxHeartbeats 4000000 in
/-- C2 counterexample: in spec scenario S1 the engine returns
`is_match = false` with one `DATETIME_EXCEEDED` diff and
`fields_ignored = 0`, not the expected clean match with
`fields_ignored ≥ 1`. -/
theorem c2_s1_counterexample :
    reportView (compare {} clk0 s1B s1C s1Schema) =
      some (false, [DiffType.DATETIME_EXCEEDED], 0, 0) := by
  decide

set_option maxHeartbeats 1000000 in
/-- C3 counterexample: a schema with an external `$ref` makes `compare`
return error code `PROCESSING_ERROR`, not `SCHEMA_PARSE_ERROR`. -/
theorem c3_external_ref_counterexample :
    errorCodeOf (compare {} clk0 d3B d3C c3ExtSchema) = some "PROCESSING_ERROR" ∧
      some "PROCESSING_ERROR" ≠ (some "SCHEMA_PARSE_ERROR" : Option String) := by
  constructor
  · decide
  · decide

set_option maxHeartbeats 1000000 in
/-- C3 amended: an `ExternalRefError` escaping the pipeline is reported
as `PROCESSING_ERROR` (it is not a `SchemaParseError` subclass), while a
`SchemaParseError` — e.g. an unresolvable internal `$ref` — is reported
as `SCHEMA_PARSE_ERROR`. -/
theorem c3_ref_error_codes_amended :
    (∀ (cfg : EngineConfig) (clk : Clock) (B C S : Value) (r : String),
      comparePipeline cfg clk B C S = .error (.externalRef r) →
      errorCodeOf (compare cfg clk B C S) = some "PROCESSING_ERROR") ∧
    (∀ (cfg : EngineConfig) (clk : Clock) (B C S : Value) (m : String) (d : Option String),
      comparePipeline cfg clk B C S = .error (.schemaParse m d) →
      errorCodeOf (compare cfg clk B C S) = some "SCHEMA_PARSE_ERROR") := by
  constructor
  · intro cfg clk B C S r h
    unfold compare
    rw [h]
    rfl
  · intro cfg clk B C S m d h
    unfold compare
    rw [h]
    rfl

/-- C3 witness: the amended theorem applied to a concrete external-ref
schema and a concrete unresolvable internal-ref schema. -/
theorem c3_ref_error_codes_witness :
    errorCodeOf (compare {} clk0 d3B d3C c3ExtSchema) = some "PROCESSING_ERROR" ∧
      errorCodeOf (compare {} clk0 d3B d3C c3IntSchema) = some "SCHEMA_PARSE_ERROR" :=
  ⟨c3_ref_error_codes_amended.1 {} clk0 d3B d3C c3ExtSchema
      "https://example.com/s.json#/A" (by rfl),
    c3_ref_error_codes_amended.2 {} clk0 d3B d3C c3IntSchema
      "Cannot resolve $ref: #/definitions/missing"
      (some "Path component 'definitions' not found") (by rfl)⟩

set_option maxHeartbeats 1000000 in
/-- C4 counterexample: with `x-migration-ignore-missing-items` and a
shorter candidate array, `compare` emits no warning at all (the spec
expects one summary `ARRAY_ITEM_MISSING` warning). -/
theorem c4_ignore_missing_counterexample :
    reportView (compare {} clk0 d4B d4C c4Schema) = some (true, [], 0, 0) := by
  decide

set_option maxHeartbeats 1000000 in
/-- C5 counterexample: an invalid `datetime_tolerance` duration string
yields a per-field diff of type `DATETIME_EXCEEDED` (with the
tolerance-format message), not `VALUE_MISMATCH`. -/
theorem c5_invalid_tolerance_counterexample :
    scalView (diffScalars ctx0 (.str "2025-01-02T00:00:00")
        (.str "2025-01-02T00:00:00") "$.f" rules5 {}) =
      some (false, [(DiffType.DATETIME_EXCEEDED,
        "Invalid tolerance format: Invalid duration format: bogus")]) := by
  decide

/-- C9 counterexample: two `compare` calls on the same inputs but with
different wall-clock observations return different reports (the
execution timestamps differ), so two calls need not yield identical
reports. -/
theorem c9_clock_counterexample :
    compare {} clkA s5B s5B s5Schema ≠ compare {} clkB s5B s5B s5Schema := by
  intro h
  exact absurd (congrArg execTimestampOf h) (by decide)

/-- Reduction of a successful `Except` bind. -/
theorem exbind_ok {α β : Type} (a : α) (f : α → Except PyErr β) :
    (Except.ok a >>= f) = f a := rfl

/-- C9 amended: `compare` is deterministic modulo the execution block —
for any two clock observations the reports agree once
`execution.timestamp` and `execution.duration_ms` are quotiented away,
and the error outcomes agree exactly. -/
theorem c9_reports_modulo_execution :
    ∀ (cfg : EngineConfig) (ca cb : Clock) (B C S : Value),
      outCore (compare cfg ca B C S) = outCore (compare cfg cb B C S) := by
  intro cfg ca cb B C S
  unfold compare comparePipeline
  cases validateInputs cfg B C S with
  | error e => rfl
  | ok u =>
    simp only [exbind_ok]
    cases schemaResolve S cfg.maxDepth pyFuel with
    | error e => rfl
    | ok rs =>
      simp only [exbind_ok]
      cases extract_global_rules rs with
      | error e => rfl
      | ok gr =>
        simp only [exbind_ok]
        cases normalize rs gr pyFuel B C with
        | error e => rfl
        | ok p =>
          obtain ⟨oN, nN⟩ := p
          simp only [exbind_ok]
          cases mask rs pyFuel oN nN with
          | error e => rfl
          | ok t =>
            obtain ⟨oM, nM, ic⟩ := t
            simp only [exbind_ok]
            cases diffD { schema := rs
                          rootData := .obj [("old", oM), ("new", nM)]
                          failFast := cfg.failFast
                          traceRules := cfg.traceRuleApplication } pyFuel oM nM "$" none {} with
            | error e => rfl
            | ok r =>
              obtain ⟨im, ds⟩ := r
              simp only [exbind_ok]
              cases hcs : cfg.collectStatistics with
              | false => rfl
              | true =>
                cases calculateCoverage B C rs with
                | error e => rfl
                | ok cov => rfl

/-- Items that `extract_key_value` maps to `None` are skipped by
`_build_key_map`: appending such an item changes nothing. -/
theorem buildKeyMap_keyless (ks : Value) (dup : DuplicateHandling) (b : Value)
    (hb : extract_key_value b ks = .ok none) :
    ∀ (l : List Value) (i : Nat) (m : KeyMap) (dups : List (List Value × Value)),
      buildKeyMap ks dup (l ++ [b]) i m dups = buildKeyMap ks dup l i m dups := by
  intro l
  induction l with
  | nil =>
    intro i m dups
    rw [List.nil_append, buildKeyMap.eq_2, hb]
    rfl
  | cons x xs ih =>
    intro i m dups
    rw [List.cons_append, buildKeyMap.eq_2, buildKeyMap.eq_2]
    cases hx : extract_key_value x ks with
    | error e => rfl
    | ok o =>
      cases o with
      | none => exact ih (i + 1) m dups
      | some key =>
        dsimp only
        cases hk : kmGet m (KKey.tup key) with
        | none => exact ih (i + 1) (kmSet m (KKey.tup key) (withIndex x i)) dups
        | some stored =>
          cases dup with
          | error =>
            exact ih (i + 1) m
              (dups ++ [(key, .arr [(Value.objGet stored.entriesOf "_index").getD .null, .int i])])
          | first => exact ih (i + 1) m dups
          | last => exact ih (i + 1) (kmSet m (KKey.tup key) (withIndex x i)) dups
          | merge =>
            exact ih (i + 1) (kmSet m (KKey.tup key) (Value.obj (Value.objSet
              (merge_dicts stored.entriesOf x.entriesOf) "_index" (.int i)))) dups

/-- C10: in keyed mode with a truthy `array_key`, an item in either
array whose key extraction yields `None` (not an object, or lacking a
key field) is invisible: appending such items to both arrays leaves the
differ's entire outcome — diffs, warnings, match flag — unchanged. -/
theorem c10_keyless_items_invisible
    (ctx : DCtx) (fuel : Nat) (old new : List Value) (path : String)
    (rules : FieldRules) (s : DState) (b1 b2 : Value)
    (hk : rules.arrayKey.truthy = true)
    (h1 : extract_key_value b1 rules.arrayKey = .ok none)
    (h2 : extract_key_value b2 rules.arrayKey = .ok none) :
    diffKeyedArrays ctx fuel (old ++ [b1]) (new ++ [b2]) path rules s =
      diffKeyedArrays ctx fuel old new path rules s := by
  have ht : keyedTransform (old ++ [b1]) (new ++ [b2]) rules =
      keyedTransform old new rules := by
    unfold keyedTransform
    rw [hk]
    rw [buildKeyMap_keyless rules.arrayKey rules.duplicateHandling b1 h1,
      buildKeyMap_keyless rules.arrayKey rules.duplicateHandling b2 h2]
    rw [if_neg (by decide : ¬((!true) = true)), if_neg (by decide : ¬((!true) = true))]
  cases fuel with
  | zero => rfl
  | succ n =>
    rw [diffKeyedArrays.eq_2, diffKeyedArrays.eq_2, ht]

/-- C10 witness: the theorem applied to concrete arrays, a keyless
object item and a non-object item. -/
theorem c10_keyless_items_witness :
    diffKeyedArrays ctx0 20 ([o10] ++ [kx1]) ([o10] ++ [kx2]) "$.a" r10 {} =
      diffKeyedArrays ctx0 20 [o10] [o10] "$.a" r10 {} :=
  c10_keyless_items_invisible ctx0 20 [o10] [o10] "$.a" r10 {} kx1 kx2
    (by rfl) (by rfl) (by rfl)

end ShadowDiff
namespace ShadowDiff

/-- C2 amended: (a) when both sides parse as instants and
`datetime_tolerance` is a valid duration, the comparison matches
exactly when the absolute difference is within the tolerance — within
it the result is a match, beyond it a mismatch reporting the excess;
(b) but the datetime path is only taken when `datetime_format` is
truthy — with no format, string fields fall through to the plain
string comparison even if a tolerance is configured. -/
theorem c2_datetime_tolerance_amended :
    (∀ (old new : String) (fmt tol : Value) (a b : PyDateTime) (tolSec delta : ℚ),
      parse_datetime old fmt = .ok a →
      parse_datetime new fmt = .ok b →
      tol.truthy = true →
      parse_duration tol = .ok tolSec →
      dtSub a b = .ok delta →
      |delta| ≤ tolSec →
      compare_datetime old new fmt tol = .ok (true, "")) ∧
    (∀ (old new : String) (fmt tol : Value) (a b : PyDateTime) (tolSec delta : ℚ),
      parse_datetime old fmt = .ok a →
      parse_datetime new fmt = .ok b →
      tol.truthy = true →
      parse_duration tol = .ok tolSec →
      dtSub a b = .ok delta →
      ¬(|delta| ≤ tolSec) →
      compare_datetime old new fmt tol =
        .ok (false, "Time difference (" ++ floatStr |delta| ++
          "s) exceeds tolerance (" ++ pyStr tol ++ ")")) ∧
    (∀ (rules : FieldRules) (a b : String),
      rules.datetimeFormat = .null → rules.cast = none → rules.precision = none →
      compare_with_rules (.str a) (.str b) rules =
        compare_strings (.str a) (.str b) rules) := by
  refine ⟨?_, ?_, ?_⟩
  · intro old new fmt tol a b tolSec delta ha hb htol hdur hsub hle
    unfold compare_datetime
    rw [ha, hb]
    dsimp only
    rw [if_pos htol, hdur]
    dsimp only
    rw [hsub]
    dsimp only
    rw [if_pos hle]
  · intro old new fmt tol a b tolSec delta ha hb htol hdur hsub hgt
    unfold compare_datetime
    rw [ha, hb]
    dsimp only
    rw [if_pos htol, hdur]
    dsimp only
    rw [hsub]
    dsimp only
    rw [if_neg hgt]
  · intro rules a b hf hc hp
    unfold compare_with_rules
    rw [hf, hc, hp]
    rfl

/-- C2 witness: two instants two seconds apart match under a `5s`
tolerance with an explicit format but mismatch under a `1s` tolerance,
and a rule-free string comparison goes through `compare_strings`. -/
theorem c2_datetime_tolerance_amended_witness :
    compare_datetime "2025-02-02T10:30:00" "2025-02-02T10:30:02"
        (.str "%Y-%m-%dT%H:%M:%S") (.str "5s") = .ok (true, "") ∧
      compare_datetime "2025-02-02T10:30:00" "2025-02-02T10:30:02"
        (.str "%Y-%m-%dT%H:%M:%S") (.str "1s") =
        .ok (false, "Time difference (" ++ floatStr |(-2 : ℚ)| ++
          "s) exceeds tolerance (" ++ pyStr (Value.str "1s") ++ ")") ∧
      compare_with_rules (.str "x") (.str "y") {} =
        compare_strings (.str "x") (.str "y") {} :=
  ⟨c2_datetime_tolerance_amended.1 "2025-02-02T10:30:00" "2025-02-02T10:30:02"
      (.str "%Y-%m-%dT%H:%M:%S") (.str "5s") dtW1 dtW2 5 (-2)
      (by rfl) (by rfl) (by rfl) (by rfl) (by rfl) (by decide),
    c2_datetime_tolerance_amended.2.1 "2025-02-02T10:30:00" "2025-02-02T10:30:02"
      (.str "%Y-%m-%dT%H:%M:%S") (.str "1s") dtW1 dtW2 1 (-2)
      (by rfl) (by rfl) (by rfl) (by rfl) (by rfl) (by decide),
    c2_datetime_tolerance_amended.2.2 {} "x" "y" rfl rfl rfl⟩

/-- A truthy value is not `None`. -/
theorem truthy_isNotNull (v : Value) (h : v.truthy = true) : isNotNull v = true := by
  cases v <;> first | rfl | exact absurd h (by decide)

/-- `compare_with_rules` on two strings under a truthy format and an
invalid tolerance returns the tolerance-format mismatch. -/
theorem cwr_invalid_tol (oS nS : String) (r : FieldRules) (a b : PyDateTime) (m : String)
    (hc : r.cast = none) (hf : r.datetimeFormat.truthy = true)
    (ha : parse_datetime oS r.datetimeFormat = .ok a)
    (hb : parse_datetime nS r.datetimeFormat = .ok b)
    (htt : r.datetimeTolerance.truthy = true)
    (htol : parse_duration r.datetimeTolerance = .error (.valueError m)) :
    compare_with_rules (.str oS) (.str nS) r =
      .ok (false, "Invalid tolerance format: " ++ m) := by
  unfold compare_with_rules compare_datetime
  rw [hc]
  dsimp only [pyStr]
  rw [if_pos hf, ha, hb]
  dsimp only
  rw [if_pos htt, htol]

/-- C5 amended: a scalar field compared as a date-time (truthy
`datetime_format`) whose `datetime_tolerance` is an invalid duration
string gets exactly one diff of type `DATETIME_EXCEEDED` whose message
is the tolerance-format report, classified under the
`x-migration-datetime-tolerance` rule. -/
theorem c5_invalid_tolerance_amended
    (ctx : DCtx) (oS nS path : String) (rules : FieldRules) (s : DState)
    (a b : PyDateTime) (m : String)
    (hcast : rules.cast = none)
    (hprec : rules.precision = none)
    (hpat : rules.pattern = .null)
    (hfmt : rules.datetimeFormat.truthy = true)
    (ha : parse_datetime oS rules.datetimeFormat = .ok a)
    (hb : parse_datetime nS rules.datetimeFormat = .ok b)
    (htt : rules.datetimeTolerance.truthy = true)
    (htol : parse_duration rules.datetimeTolerance = .error (.valueError m)) :
    diffScalars ctx (.str oS) (.str nS) path rules s =
      .ok (false, addDiff ctx { s with fieldsChecked := s.fieldsChecked + 1 } path
        .DATETIME_EXCEEDED (.str oS) (.str nS) ("Invalid tolerance format: " ++ m)
        (some ("x-migration-datetime-tolerance: " ++ pyStr rules.datetimeTolerance))) := by
  unfold diffScalars
  cases hs : rules.strategy == MigrationStrategy.lenient with
  | false =>
    rw [if_neg (by decide : ¬(false = true))]
    dsimp only
    rw [cwr_invalid_tol oS nS rules a b m hcast hfmt ha hb htt htol]
    dsimp only
    rw [if_neg (by decide : ¬(false = true))]
    rw [hprec]
    dsimp only
    rw [hpat]
    rw [if_neg (by decide : ¬(isNotNull Value.null = true))]
    rw [if_pos (truthy_isNotNull rules.datetimeTolerance htt)]
  | true =>
    rw [if_pos (rfl : true = true)]
    dsimp only
    rw [cwr_invalid_tol oS nS { rules with trimWhitespace := true, caseInsensitive := true }
      a b m hcast hfmt ha hb htt htol]
    dsimp only
    rw [if_neg (by decide : ¬(false = true))]
    rw [show ({ rules with trimWhitespace := true, caseInsensitive := true } :
      FieldRules).precision = rules.precision from rfl, hprec]
    dsimp only
    rw [show ({ rules with trimWhitespace := true, caseInsensitive := true } :
      FieldRules).pattern = rules.pattern from rfl, hpat]
    rw [if_neg (by decide : ¬(isNotNull Value.null = true))]
    rw [if_pos (truthy_isNotNull rules.datetimeTolerance htt)]

/-- C5 witness: the amended theorem at a concrete format
`%Y-%m-%dT%H:%M:%S` and the invalid tolerance string `bogus`. -/
theorem c5_invalid_tolerance_witness :
    diffScalars ctx0 (.str "2025-01-02T00:00:00") (.str "2025-01-02T00:00:00")
        "$.f" rules5 {} =
      .ok (false, addDiff ctx0 { ({} : DState) with fieldsChecked := ({} : DState).fieldsChecked + 1 } "$.f"
        .DATETIME_EXCEEDED (.str "2025-01-02T00:00:00") (.str "2025-01-02T00:00:00")
        ("Invalid tolerance format: " ++ "Invalid duration format: bogus")
        (some ("x-migration-datetime-tolerance: " ++ pyStr rules5.datetimeTolerance))) :=
  c5_invalid_tolerance_amended ctx0 "2025-01-02T00:00:00" "2025-01-02T00:00:00" "$.f"
    rules5 {} ⟨2025, 1, 2, 0, 0, 0, 0, none⟩ ⟨2025, 1, 2, 0, 0, 0, 0, none⟩
    "Invalid duration format: bogus"
    (by rfl) (by rfl) (by rfl) (by rfl) (by rfl) (by rfl) (by rfl) (by rfl)

end ShadowDiff
namespace ShadowDiff

/-- Precision matching is monotone in the precision bound. -/
theorem compare_numbers_mono (old new : Value) (p1 p2 : ℚ) (h : p1 ≤ p2)
    (h1 : (compare_numbers old new (some p1)).1 = true) :
    (compare_numbers old new (some p2)).1 = true := by
  unfold compare_numbers at h1 ⊢
  cases ho : pyFloat old with
  | none =>
    cases hn : pyFloat new with
    | none => rw [ho, hn] at h1; exact Bool.noConfusion h1
    | some b => rw [ho, hn] at h1; exact Bool.noConfusion h1
  | some a =>
    cases hn : pyFloat new with
    | none => rw [ho, hn] at h1; exact Bool.noConfusion h1
    | some b =>
      rw [ho, hn] at h1
      dsimp only at h1 ⊢
      by_cases hd : |a - b| ≤ p1
      · rw [if_pos (le_trans hd h)]
      · rw [if_neg hd] at h1
        exact Bool.noConfusion h1

/-- With a configured precision, no cast and no datetime format, the
rule-driven comparison of two numbers is exactly `compare_numbers` at
that precision. -/
theorem cwr_numeric (old new : Value) (r : FieldRules) (p : ℚ)
    (hnum : isNumNonBool old = true) (hnum2 : isNumNonBool new = true)
    (hp : r.precision = some p) (hc : r.cast = none)
    (hf : r.datetimeFormat = Value.null) :
    compare_with_rules old new r = .ok (compare_numbers old new (some p)) := by
  cases old <;> first
  | exact Bool.noConfusion hnum
  | (cases new <;> first
     | exact Bool.noConfusion hnum2
     | (unfold compare_with_rules; rw [hc, hf, hp]; rfl))

/-- Traces do not change the precision-exceeded flag. -/
theorem hasPEb_addTrace (ctx : DCtx) (s : DState) (p r a : String) (d : Option Value) :
    hasPEb (addTrace ctx s p r a d) = hasPEb s := by
  unfold addTrace
  split <;> rfl

/-- Adding a `PRECISION_EXCEEDED` diff makes the flag true. -/
theorem hasPEb_addDiff_pe (ctx : DCtx) (s : DState) (path : String) (o n : Value)
    (m : String) (r : Option String) :
    hasPEb (addDiff ctx s path .PRECISION_EXCEEDED o n m r) = true := by
  unfold addDiff hasPEb
  split <;> simp

/-- Observable shape of `_diff_scalars` on a numeric pair under a
configured precision: precision-exceeded-free iff the numbers matched
and the incoming state was already clean. -/
theorem diffScalars_precision_view (ctx : DCtx) (old new : Value) (path : String)
    (r : FieldRules) (s : DState) (p : ℚ) (b : Bool) (mm : String)
    (hnum : isNumNonBool old = true) (hnum2 : isNumNonBool new = true)
    (hp : r.precision = some p) (hc : r.cast = none)
    (hf : r.datetimeFormat = Value.null)
    (hcn : compare_numbers old new (some p) = (b, mm)) :
    scalPEFree (diffScalars ctx old new path r s) = (b && !hasPEb s) := by
  have hcwr : ∀ r' : FieldRules, r'.precision = some p → r'.cast = none →
      r'.datetimeFormat = Value.null →
      compare_with_rules old new r' = .ok (b, mm) := by
    intro r' h1 h2 h3
    rw [cwr_numeric old new r' p hnum hnum2 h1 h2 h3, hcn]
  unfold diffScalars
  cases hs : r.strategy == MigrationStrategy.lenient with
  | false =>
    rw [if_neg (by decide : ¬(false = true))]
    dsimp only
    rw [hcwr r hp hc hf]
    dsimp only
    cases b with
    | true =>
      rw [if_pos (rfl : true = true)]
      rw [hp]
      dsimp only [scalPEFree]
      rw [hasPEb_addTrace]
      rfl
    | false =>
      rw [if_neg (by decide : ¬(false = true))]
      rw [hp]
      dsimp only [scalPEFree]
      rw [hasPEb_addDiff_pe]
      rfl
  | true =>
    rw [if_pos (rfl : true = true)]
    dsimp only
    rw [hcwr { r with trimWhitespace := true, caseInsensitive := true } hp hc hf]
    dsimp only
    cases b with
    | true =>
      rw [if_pos (rfl : true = true)]
      rw [show ({ r with trimWhitespace := true, caseInsensitive := true } :
        FieldRules).precision = r.precision from rfl, hp]
      dsimp only [scalPEFree]
      rw [hasPEb_addTrace]
      rfl
    | false =>
      rw [if_neg (by decide : ¬(false = true))]
      rw [show ({ r with trimWhitespace := true, caseInsensitive := true } :
        FieldRules).precision = r.precision from rfl, hp]
      dsimp only [scalPEFree]
      rw [hasPEb_addDiff_pe]
      rfl

/-- C8: precision monotonicity — for numeric values and precisions
`p1 ≤ p2` (no cast, no datetime format), if the comparison under `p1`
leaves the report free of `PRECISION_EXCEEDED` entries then so does the
comparison under `p2`. -/
theorem c8_precision_monotone (ctx : DCtx) (old new : Value) (path : String)
    (rules : FieldRules) (s : DState) (p1 p2 : ℚ)
    (hp : p1 ≤ p2)
    (hnum : isNumNonBool old = true) (hnum2 : isNumNonBool new = true)
    (hcast : rules.cast = none) (hfmt : rules.datetimeFormat = Value.null)
    (h1 : scalPEFree (diffScalars ctx old new path
      { rules with precision := some p1 } s) = true) :
    scalPEFree (diffScalars ctx old new path
      { rules with precision := some p2 } s) = true := by
  rcases hcn1 : compare_numbers old new (some p1) with ⟨b1, m1⟩
  rcases hcn2 : compare_numbers old new (some p2) with ⟨b2, m2⟩
  rw [diffScalars_precision_view ctx old new path { rules with precision := some p1 }
    s p1 b1 m1 hnum hnum2 rfl hcast hfmt hcn1] at h1
  rw [diffScalars_precision_view ctx old new path { rules with precision := some p2 }
    s p2 b2 m2 hnum hnum2 rfl hcast hfmt hcn2]
  rw [Bool.and_eq_true] at h1
  obtain ⟨hb1, hclean⟩ := h1
  have hb2 : b2 = true := by
    have hm := compare_numbers_mono old new p1 p2 hp (by rw [hcn1]; exact hb1)
    rw [hcn2] at hm
    exact hm
  rw [hb2, hclean]
  rfl

/-- C8 witness: `1` vs `1.05` under precisions `0.1 ≤ 0.5`. -/
theorem c8_precision_monotone_witness :
    scalPEFree (diffScalars ctx0 (.float 1) (.float (21/20)) "$.t"
      { ({} : FieldRules) with precision := some (1/2) } {}) = true :=
  c8_precision_monotone ctx0 (.float 1) (.float (21/20)) "$.t" {} {} (1/10) (1/2)
    (by norm_num) (by rfl) (by rfl) (by rfl) (by rfl) (by decide)

end ShadowDiff
namespace ShadowDiff

set_option maxHeartbeats 4000000 in
/-- C6: with a strict, cast-free rule set, two non-null values of
mismatched JSON types (integers and floats being mutually compatible,
booleans not numeric) make the differ emit exactly the `TYPE_MISMATCH`
entry and nothing else; and in spec scenario S5 (`{x:1}` vs `{x:"1"}`
under a rule-free schema) the engine reports exactly one
`TYPE_MISMATCH` and no `VALUE_MISMATCH`. -/
theorem c6_type_mismatch_dominates :
    (∀ (ctx : DCtx) (fuel : Nat) (old new : Value) (path : String)
       (rules : FieldRules) (s : DState),
      rules.strategy = .strict → rules.cast = none →
      isNotNull old = true → isNotNull new = true →
      (typeTag old == typeTag new || (isNumNonBool old && isNumNonBool new)) = false →
      diffCore ctx (fuel + 1) old new path rules s =
        .ok (false, addDiff ctx s path .TYPE_MISMATCH old new
          ("Type mismatch: " ++ get_type_name old ++ " vs " ++ get_type_name new) none)) ∧
    reportView (compare {} clk0 s5B s5C s5Schema) =
      some (false, [DiffType.TYPE_MISMATCH], 0, 0) := by
  constructor
  · intro ctx fuel old new path rules s hstrat hcast hold hnew hty
    obtain ⟨strat, al, prec, ci, tw, cst, pat, df, dtol, dflt, hdflt, em, am, ak,
      ob, iei, imi, asub, dh, ir, wc⟩ := rules
    dsimp only at hstrat hcast
    subst hstrat
    subst hcast
    cases old <;> cases new <;>
      first
      | exact Bool.noConfusion hold
      | exact Bool.noConfusion hnew
      | exact Bool.noConfusion hty
      | rfl
  · decide

/-- C6 witness: the general half applied to `1` vs `"1"`; booleans are
not numeric, so `true` vs `1` also yields the `TYPE_MISMATCH` entry. -/
theorem c6_type_mismatch_witness :
    diffCore ctx0 1000 (.int 1) (.str "1") "$.x" {} {} =
      .ok (false, addDiff ctx0 {} "$.x" .TYPE_MISMATCH (.int 1) (.str "1")
        ("Type mismatch: " ++ get_type_name (.int 1) ++ " vs " ++ get_type_name (.str "1")) none) ∧
      diffCore ctx0 1000 (.bool true) (.int 1) "$.x" {} {} =
        .ok (false, addDiff ctx0 {} "$.x" .TYPE_MISMATCH (.bool true) (.int 1)
          ("Type mismatch: " ++ get_type_name (.bool true) ++ " vs " ++ get_type_name (.int 1)) none) :=
  ⟨c6_type_mismatch_dominates.1 ctx0 999 (.int 1) (.str "1") "$.x" {} {}
      rfl rfl rfl rfl (by decide),
    c6_type_mismatch_dominates.1 ctx0 999 (.bool true) (.int 1) "$.x" {} {}
      rfl rfl rfl rfl (by decide)⟩

end ShadowDiff
namespace ShadowDiff

/-- `_add_diff` appends exactly one entry. -/
theorem addDiff_diffs (ctx : DCtx) (s : DState) (path : String) (ty : DiffType)
    (o n : Value) (m : String) (r : Option String) :
    (addDiff ctx s path ty o n m r).diffs = s.diffs ++
      [{ path := path
         type := ty
         severity := .ERROR
         oldValue := o
         newValue := n
         message := m
         ruleApplied := r }] := by
  unfold addDiff
  split <;> rfl

/-- `_add_diff` leaves the warnings alone. -/
theorem addDiff_warnings (ctx : DCtx) (s : DState) (path : String) (ty : DiffType)
    (o n : Value) (m : String) (r : Option String) :
    (addDiff ctx s path ty o n m r).warnings = s.warnings := by
  unfold addDiff
  split <;> rfl

/-- The missing-tail fold of `_diff_strict_arrays`: it appends one
`ARRAY_ITEM_MISSING` entry per index, touches no warning, and clears
the match flag as soon as the list is nonempty. -/
theorem missFold (ctx : DCtx) (old : List Value) (newLen : Nat) (path : String) :
    ∀ (l : List Nat) (am : Bool) (s : DState),
      ((l.foldl (fun (acc : Bool × DState) k =>
          (false, addDiff ctx acc.2 (path ++ "[" ++ toString (newLen + k) ++ "]")
            .ARRAY_ITEM_MISSING ((old.get? (newLen + k)).getD .null) .null
            ("Missing item in new array at index " ++ toString (newLen + k)) none))
        (am, s)).2.diffs = s.diffs ++ l.map (c4MissEntry old newLen path)) ∧
      ((l.foldl (fun (acc : Bool × DState) k =>
          (false, addDiff ctx acc.2 (path ++ "[" ++ toString (newLen + k) ++ "]")
            .ARRAY_ITEM_MISSING ((old.get? (newLen + k)).getD .null) .null
            ("Missing item in new array at index " ++ toString (newLen + k)) none))
        (am, s)).2.warnings = s.warnings) ∧
      ((l.foldl (fun (acc : Bool × DState) k =>
          (false, addDiff ctx acc.2 (path ++ "[" ++ toString (newLen + k) ++ "]")
            .ARRAY_ITEM_MISSING ((old.get? (newLen + k)).getD .null) .null
            ("Missing item in new array at index " ++ toString (newLen + k)) none))
        (am, s)).1 = if l.isEmpty then am else false) := by
  intro l
  induction l with
  | nil => intro am s; exact ⟨by simp, rfl, rfl⟩
  | cons x xs ih =>
    intro am s
    rw [List.foldl_cons]
    obtain ⟨d1, d2, d3⟩ := ih false
      (addDiff ctx s (path ++ "[" ++ toString (newLen + x) ++ "]")
        .ARRAY_ITEM_MISSING ((old.get? (newLen + x)).getD .null) .null
        ("Missing item in new array at index " ++ toString (newLen + x)) none)
    refine ⟨?_, ?_, ?_⟩
    · rw [d1, addDiff_diffs, List.map_cons, List.append_assoc]
      rfl
    · rw [d2, addDiff_warnings]
    · rw [d3]
      cases xs <;> rfl

/-- C4 amended: when the candidate array is strictly shorter, the
missing-tail handling of `_diff_strict_arrays` is: with
`ignore_missing_items` set, nothing at all — no diff, no warning, match
flag untouched (the spec's promised summary warning does not exist);
without it, one `ARRAY_LENGTH_MISMATCH` from the length check and one
per-index `ARRAY_ITEM_MISSING` entry per missing index, warnings
untouched. -/
theorem c4_missing_tail_amended (ctx : DCtx) (old new : List Value) (path : String)
    (rules : FieldRules) (am : Bool) (s : DState)
    (hlen : new.length < old.length) :
    (rules.ignoreMissingItems = true →
      strictLengthCheck ctx old new path rules s = (true, s) ∧
      strictTail ctx old new path rules am s = (am, s)) ∧
    (rules.ignoreMissingItems = false →
      strictLengthCheck ctx old new path rules s =
        (false, addDiff ctx s path .ARRAY_LENGTH_MISMATCH (.int old.length) (.int new.length)
          ("Array length mismatch: " ++ toString old.length ++ " vs " ++
            toString new.length) none) ∧
      (strictTail ctx old new path rules am s).1 = false ∧
      (strictTail ctx old new path rules am s).2.diffs =
        s.diffs ++ (List.range (old.length - new.length)).map (c4MissEntry old new.length path) ∧
      (strictTail ctx old new path rules am s).2.warnings = s.warnings) := by
  have hne : (old.length != new.length) = true := by
    simp only [bne_iff_ne, ne_eq]
    omega
  have hnotgt : ¬(new.length > old.length) := by omega
  have hgt1 : ¬((!rules.ignoreExtraItems && decide (new.length > old.length)) = true) := by
    simp only [Bool.and_eq_true, decide_eq_true_eq]
    rintro ⟨-, h⟩
    omega
  constructor
  · intro hIM
    constructor
    · unfold strictLengthCheck
      rw [if_pos hne, if_neg hgt1]
      rw [if_neg (by simp [hIM])]
    · unfold strictTail
      rw [if_neg hnotgt]
      dsimp only
      rw [if_neg (by simp [hIM])]
  · intro hIM
    have hgt2 : (decide (old.length > new.length) && !rules.ignoreMissingItems) = true := by
      simp [hIM]
      omega
    refine ⟨?_, ?_, ?_, ?_⟩
    · unfold strictLengthCheck
      rw [if_pos hne, if_neg hgt1]
      rw [if_pos (by simp [hIM]; omega)]
    · unfold strictTail
      rw [if_neg hnotgt]
      dsimp only
      rw [if_pos hgt2]
      exact (missFold ctx old new.length path (List.range (old.length - new.length)) am s).2.2.trans
        (by rw [if_neg (by simp [List.isEmpty_iff, List.range_eq_nil]; omega)])
    · unfold strictTail
      rw [if_neg hnotgt]
      dsimp only
      rw [if_pos hgt2]
      exact (missFold ctx old new.length path (List.range (old.length - new.length)) am s).1
    · unfold strictTail
      rw [if_neg hnotgt]
      dsimp only
      rw [if_pos hgt2]
      exact (missFold ctx old new.length path (List.range (old.length - new.length)) am s).2.1

/-- C4 witness: the amended theorem at a three-item baseline and a
one-item candidate, under `ignore_missing_items`. -/
theorem c4_missing_tail_witness :
    strictLengthCheck ctx0 [.int 1, .int 2, .int 3] [.int 1] "$.a"
        { ignoreMissingItems := true } {} = (true, {}) ∧
      strictTail ctx0 [.int 1, .int 2, .int 3] [.int 1] "$.a"
        { ignoreMissingItems := true } true {} = (true, {}) :=
  (c4_missing_tail_amended ctx0 [.int 1, .int 2, .int 3] [.int 1] "$.a"
    { ignoreMissingItems := true } true {} (by decide)).1 rfl

end ShadowDiff
namespace ShadowDiff

theorem dext_refl (s : DState) : DExt s s := ⟨[], by simp⟩

theorem dext_trans {a b c : DState} (h1 : DExt a b) (h2 : DExt b c) : DExt a c := by
  obtain ⟨t1, e1⟩ := h1
  obtain ⟨t2, e2⟩ := h2
  exact ⟨t1 ++ t2, by rw [e2, e1, List.append_assoc]⟩

theorem dext_ne {a b : DState} (h : DExt a b) (hne : a.diffs ≠ []) : b.diffs ≠ [] := by
  obtain ⟨t, e⟩ := h
  rw [e]
  intro hc
  exact hne (List.append_eq_nil.mp hc).1

theorem dext_of_eq {s s' : DState} (h : s'.diffs = s.diffs) : DExt s s' :=
  ⟨[], by rw [h, List.append_nil]⟩

theorem addDiff_dext {ctx : DCtx} {s : DState} {path : String} {ty : DiffType}
    {o n : Value} {m : String} {r : Option String} :
    DExt s (addDiff ctx s path ty o n m r) :=
  ⟨_, addDiff_diffs ctx s path ty o n m r⟩

theorem addDiff_ne {ctx : DCtx} {s : DState} {path : String} {ty : DiffType}
    {o n : Value} {m : String} {r : Option String} :
    (addDiff ctx s path ty o n m r).diffs ≠ [] := by
  rw [addDiff_diffs]
  simp

theorem addDiff_inv {ctx : DCtx} {s : DState} {path : String} {ty : DiffType}
    {o n : Value} {m : String} {r : Option String} :
    DInv (addDiff ctx s path ty o n m r) :=
  fun _ => addDiff_ne

theorem addWarning_diffs (s : DState) (p : String) (ty : DiffType) (m : String) :
    (addWarning s p ty m).diffs = s.diffs := rfl

theorem addWarning_aborted (s : DState) (p : String) (ty : DiffType) (m : String) :
    (addWarning s p ty m).aborted = s.aborted := rfl

theorem addTrace_diffs (ctx : DCtx) (s : DState) (p r a : String) (d : Option Value) :
    (addTrace ctx s p r a d).diffs = s.diffs := by
  unfold addTrace
  split <;> rfl

theorem addTrace_aborted (ctx : DCtx) (s : DState) (p r a : String) (d : Option Value) :
    (addTrace ctx s p r a d).aborted = s.aborted := by
  unfold addTrace
  split <;> rfl

theorem inv_same {s s' : DState} (hd : s'.diffs = s.diffs) (ha : s'.aborted = s.aborted)
    (h : DInv s) : DInv s' := by
  intro hab
  rw [hd]
  exact h (ha ▸ hab)

/-- A `true` verdict on a state that kept the diffs and abort flag. -/
theorem pout_ok_true {s s1 : DState} (h : DInv s) (hd : s1.diffs = s.diffs)
    (ha : s1.aborted = s.aborted) : POut s (true, s1) :=
  ⟨inv_same hd ha h, dext_of_eq hd, fun hb => Bool.noConfusion hb⟩

/-- A `false` verdict produced by `_add_diff` over an extension. -/
theorem pout_addDiff {s s1 : DState} (hd : DExt s s1) {ctx : DCtx} {path : String}
    {ty : DiffType} {o n : Value} {m : String} {r : Option String} :
    POut s (false, addDiff ctx s1 path ty o n m r) :=
  ⟨addDiff_inv, dext_trans hd addDiff_dext, fun _ => addDiff_ne⟩

theorem pout_pre {s s1 : DState} {r : Bool × DState} (hd : DExt s s1) (h : POut s1 r) :
    POut s r :=
  ⟨h.1, dext_trans hd h.2.1, h.2.2⟩

theorem pouta_of_pout {am : Bool} {s : DState} {r : Bool × DState} (h : POut s r) :
    POutA am s r :=
  ⟨h.1, h.2.1, fun hb => Or.inr (h.2.2 hb)⟩

theorem pout_of_pouta_true {s : DState} {r : Bool × DState} (h : POutA true s r) :
    POut s r :=
  ⟨h.1, h.2.1, fun hb => (h.2.2 hb).elim (fun h' => Bool.noConfusion h') id⟩

theorem pouta_id {am : Bool} {s : DState} (h : DInv s) : POutA am s (am, s) :=
  ⟨h, dext_refl s, fun hb => Or.inl hb⟩

/-- A `false` verdict produced by `_add_diff`, in flag-threading form. -/
theorem pouta_addDiff {am : Bool} {s s1 : DState} (hd : DExt s s1) {ctx : DCtx}
    {path : String} {ty : DiffType} {o n : Value} {m : String} {r : Option String} :
    POutA am s (false, addDiff ctx s1 path ty o n m r) :=
  pouta_of_pout (pout_addDiff hd)

/-- Once a diff is on the books, the final flag no longer matters. -/
theorem pouta_after_diff {am am2 : Bool} {s s' : DState} {r : Bool × DState}
    (hne : s'.diffs ≠ []) (hd : DExt s s') (hr : POutA am2 s' r) : POutA am s r :=
  ⟨hr.1, dext_trans hd hr.2.1, fun _ => Or.inr (dext_ne hr.2.1 hne)⟩

/-- Precomposition with a diffs-preserving step. -/
theorem pouta_pre {am : Bool} {s s' : DState} {r : Bool × DState}
    (hd : s'.diffs = s.diffs) (hr : POutA am s' r) : POutA am s r :=
  ⟨hr.1, dext_trans (dext_of_eq hd) hr.2.1, hr.2.2⟩

/-- One `diff` step followed by a loop on the conjoined flag. -/
theorem pouta_step {am b : Bool} {s s2 : DState} {r : Bool × DState}
    (hd : POut s (b, s2)) (hr : POutA (am && b) s2 r) : POutA am s r := by
  obtain ⟨i1, d1, f1⟩ := hd
  obtain ⟨i2, d2, f2⟩ := hr
  refine ⟨i2, dext_trans d1 d2, ?_⟩
  intro hb
  rcases f2 hb with h' | h'
  · cases am with
    | false => exact Or.inl rfl
    | true =>
      cases b with
      | false => exact Or.inr (dext_ne d2 (f1 rfl))
      | true => exact absurd h' (by simp)
  · exact Or.inr h'

/-- Sequential composition of flag-threading postconditions. -/
theorem pouta_comp {am am1 : Bool} {s s1 : DState} {r : Bool × DState}
    (h1 : POutA am s (am1, s1)) (h2 : POutA am1 s1 r) : POutA am s r := by
  obtain ⟨i1, d1, f1⟩ := h1
  obtain ⟨i2, d2, f2⟩ := h2
  refine ⟨i2, dext_trans d1 d2, ?_⟩
  intro hb
  rcases f2 hb with h' | h'
  · rcases f1 h' with h'' | h''
    · exact Or.inl h''
    · exact Or.inr (dext_ne d2 h'')
  · exact Or.inr h'

theorem eok_mono {P Q : Bool × DState → Prop} (h : ∀ r, P r → Q r) :
    ∀ x, EOk P x → EOk Q x
  | .ok r, hp => h r hp
  | .error _, _ => trivial

/-- Workhorse for the report-building folds: if every step preserves
the invariant, only appends diffs, and turns the flag false only with a
reason, so does the whole fold. -/
theorem foldl_flag_inv {α : Type} (step : Bool × DState → α → Bool × DState)
    (hstep : ∀ acc x, DInv acc.2 →
      DInv (step acc x).2 ∧ DExt acc.2 (step acc x).2 ∧
        ((step acc x).1 = false → acc.1 = false ∨ (step acc x).2.diffs ≠ [])) :
    ∀ (l : List α) (acc : Bool × DState), DInv acc.2 →
      DInv (l.foldl step acc).2 ∧ DExt acc.2 (l.foldl step acc).2 ∧
        ((l.foldl step acc).1 = false → acc.1 = false ∨ (l.foldl step acc).2.diffs ≠ []) := by
  intro l
  induction l with
  | nil => intro acc h; exact ⟨h, dext_refl _, fun hb => Or.inl hb⟩
  | cons x xs ih =>
    intro acc h
    rw [List.foldl_cons]
    obtain ⟨h1, h2, h3⟩ := hstep acc x h
    obtain ⟨g1, g2, g3⟩ := ih (step acc x) h1
    refine ⟨g1, dext_trans h2 g2, ?_⟩
    intro hb
    rcases g3 hb with h' | h'
    · rcases h3 h' with h'' | h''
      · exact Or.inl h''
      · exact Or.inr (dext_ne g2 h'')
    · exact Or.inr h'

/-- `_diff_scalars` satisfies the differ postcondition. -/
theorem diffScalars_pout (ctx : DCtx) (old new : Value) (path : String)
    (rules : FieldRules) (s : DState) (h : DInv s) :
    EOk (POut s) (diffScalars ctx old new path rules s) := by
  unfold diffScalars
  dsimp only
  split
  · trivial
  next isMatch message heq =>
    cases isMatch with
    | true =>
      rw [if_pos (rfl : true = true)]
      split
      · exact pout_ok_true h (by simp [addTrace_diffs]) (by simp [addTrace_aborted])
      · exact pout_ok_true h rfl rfl
    | false =>
      rw [if_neg (by decide : ¬(false = true))]
      split <;> exact pout_addDiff ⟨[], by simp⟩

/-- The length check of `_diff_strict_arrays` satisfies the
postcondition. -/
theorem strictLengthCheck_pout (ctx : DCtx) (old new : List Value) (path : String)
    (rules : FieldRules) (s : DState) (h : DInv s) :
    POut s (strictLengthCheck ctx old new path rules s) := by
  unfold strictLengthCheck
  split
  · split
    · exact pout_addDiff (dext_refl s)
    · split
      · exact pout_addDiff (dext_refl s)
      · exact pout_ok_true h rfl rfl
  · exact pout_ok_true h rfl rfl

/-- The extra/missing tail handling of `_diff_strict_arrays` satisfies
the flag-threading postcondition. -/
theorem strictTail_pouta (ctx : DCtx) (old new : List Value) (path : String)
    (rules : FieldRules) (am : Bool) (s : DState) (h : DInv s) :
    POutA am s (strictTail ctx old new path rules am s) := by
  unfold strictTail
  split
  next am1 s1 heq =>
    have hfirst : POutA am s (am1, s1) := by
      rw [← heq]
      split
      · split
        · exact ⟨inv_same (addWarning_diffs ..) (addWarning_aborted ..) h,
            dext_of_eq (addWarning_diffs ..), fun hb => Or.inl hb⟩
        · exact foldl_flag_inv _
            (fun acc x hin => ⟨addDiff_inv, addDiff_dext, fun _ => Or.inr addDiff_ne⟩)
            _ (am, s) h
      · exact pouta_id h
    split
    · exact pouta_comp hfirst (foldl_flag_inv _
        (fun acc x hin => ⟨addDiff_inv, addDiff_dext, fun _ => Or.inr addDiff_ne⟩)
        _ (am1, s1) hfirst.1)
    · exact hfirst

/-- The unmatched-item reporting of `_diff_unordered_arrays` satisfies
the differ postcondition. -/
theorem unorderedReport_pout (ctx : DCtx) (old new : List Value)
    (om nm : List Bool) (path : String) (rules : FieldRules) (s : DState)
    (h : DInv s) : POut s (unorderedReport ctx old new om nm path rules s) := by
  unfold unorderedReport
  have hstep1 : ∀ (acc : Bool × DState) (x : Nat × Bool), DInv acc.2 →
      DInv ((if !x.2 && !rules.ignoreMissingItems && !rules.arraySubset then
          (false, addDiff ctx acc.2 (path ++ "[" ++ toString x.1 ++ "]")
            .ARRAY_ITEM_MISSING ((old.get? x.1).getD .null) .null
            "Item from old array not found in new" none)
        else acc) : Bool × DState).2 ∧
      DExt acc.2 (if !x.2 && !rules.ignoreMissingItems && !rules.arraySubset then
          (false, addDiff ctx acc.2 (path ++ "[" ++ toString x.1 ++ "]")
            .ARRAY_ITEM_MISSING ((old.get? x.1).getD .null) .null
            "Item from old array not found in new" none)
        else acc).2 ∧
      ((if !x.2 && !rules.ignoreMissingItems && !rules.arraySubset then
          (false, addDiff ctx acc.2 (path ++ "[" ++ toString x.1 ++ "]")
            .ARRAY_ITEM_MISSING ((old.get? x.1).getD .null) .null
            "Item from old array not found in new" none)
        else acc).1 = false → acc.1 = false ∨
        (if !x.2 && !rules.ignoreMissingItems && !rules.arraySubset then
          (false, addDiff ctx acc.2 (path ++ "[" ++ toString x.1 ++ "]")
            .ARRAY_ITEM_MISSING ((old.get? x.1).getD .null) .null
            "Item from old array not found in new" none)
        else acc).2.diffs ≠ []) := by
    intro acc x hin
    split
    · exact ⟨addDiff_inv, addDiff_dext, fun _ => Or.inr addDiff_ne⟩
    · exact ⟨hin, dext_refl _, fun hb => Or.inl hb⟩
  have h1 := foldl_flag_inv _ hstep1 om.enum (true, s) h
  have hstep2 : ∀ (acc : Bool × DState) (x : Nat × Bool), DInv acc.2 →
      DInv ((if !x.2 then
          (if rules.ignoreExtraItems = true then
            (acc.1, addWarning acc.2 (path ++ "[" ++ toString x.1 ++ "]")
              .ARRAY_ITEM_EXTRA
              "Extra item in new array (allowed by x-migration-ignore-extra-items)")
          else
            (false, addDiff ctx acc.2 (path ++ "[" ++ toString x.1 ++ "]")
              .ARRAY_ITEM_EXTRA .null ((new.get? x.1).getD .null)
              "Extra item in new array" none))
        else acc) : Bool × DState).2 ∧
      DExt acc.2 (if !x.2 then
          (if rules.ignoreExtraItems = true then
            (acc.1, addWarning acc.2 (path ++ "[" ++ toString x.1 ++ "]")
              .ARRAY_ITEM_EXTRA
              "Extra item in new array (allowed by x-migration-ignore-extra-items)")
          else
            (false, addDiff ctx acc.2 (path ++ "[" ++ toString x.1 ++ "]")
              .ARRAY_ITEM_EXTRA .null ((new.get? x.1).getD .null)
              "Extra item in new array" none))
        else acc).2 ∧
      ((if !x.2 then
          (if rules.ignoreExtraItems = true then
            (acc.1, addWarning acc.2 (path ++ "[" ++ toString x.1 ++ "]")
              .ARRAY_ITEM_EXTRA
              "Extra item in new array (allowed by x-migration-ignore-extra-items)")
          else
            (false, addDiff ctx acc.2 (path ++ "[" ++ toString x.1 ++ "]")
              .ARRAY_ITEM_EXTRA .null ((new.get? x.1).getD .null)
              "Extra item in new array" none))
        else acc).1 = false → acc.1 = false ∨
        (if !x.2 then
          (if rules.ignoreExtraItems = true then
            (acc.1, addWarning acc.2 (path ++ "[" ++ toString x.1 ++ "]")
              .ARRAY_ITEM_EXTRA
              "Extra item in new array (allowed by x-migration-ignore-extra-items)")
          else
            (false, addDiff ctx acc.2 (path ++ "[" ++ toString x.1 ++ "]")
              .ARRAY_ITEM_EXTRA .null ((new.get? x.1).getD .null)
              "Extra item in new array" none))
        else acc).2.diffs ≠ []) := by
    intro acc x hin
    split
    · split
      · exact ⟨inv_same (addWarning_diffs ..) (addWarning_aborted ..) hin,
          dext_of_eq (addWarning_diffs ..), fun hb => Or.inl hb⟩
      · exact ⟨addDiff_inv, addDiff_dext, fun _ => Or.inr addDiff_ne⟩
    · exact ⟨hin, dext_refl _, fun hb => Or.inl hb⟩
  have h2 := foldl_flag_inv _ hstep2 nm.enum _ h1.1
  refine ⟨h2.1, dext_trans h1.2.1 h2.2.1, ?_⟩
  intro hb
  rcases h2.2.2 hb with h' | h'
  · rcases h1.2.2 h' with h'' | h''
    · exact absurd h'' (by simp)
    · exact dext_ne h2.2.1 h''
  · exact h'

end ShadowDiff
namespace ShadowDiff

/-- Invert a differ postcondition along a successful run. -/
theorem eok_of_eq {P : Bool × DState → Prop} {x : Except PyErr (Bool × DState)}
    {r : Bool × DState} (hx : EOk P x) (heq : x = Except.ok r) : P r := by
  rw [heq] at hx
  exact hx

/-- Invert the strict-common postcondition along a successful run. -/
theorem eoksc_of_eq {am : Bool} {s : DState} {x : Except PyErr (Bool × Bool × DState)}
    {r : Bool × Bool × DState} (hx : EOkSC am s x) (heq : x = Except.ok r) :
    DInv r.2.2 ∧ DExt s r.2.2 ∧ (r.1 = true → r.2.2.diffs ≠ []) ∧
      (r.2.1 = false → am = false ∨ r.2.2.diffs ≠ []) := by
  rw [heq] at hx
  exact hx

/-- Invert the unordered-match postcondition along a successful run. -/
theorem eokum_of_eq {s : DState} {x : Except PyErr (List Bool × List Bool × DState)}
    {r : List Bool × List Bool × DState} (hx : EOkUM s x) (heq : x = Except.ok r) :
    r.2.2.diffs = s.diffs ∧ r.2.2.aborted = s.aborted := by
  rw [heq] at hx
  exact hx

/-- Precomposing a strict-common postcondition with one differ step. -/
theorem eoksc_weaken {am b : Bool} {s s2 : DState}
    {x : Except PyErr (Bool × Bool × DState)}
    (hd : POut s (b, s2)) (hx : EOkSC (am && b) s2 x) : EOkSC am s x := by
  cases x with
  | error e => trivial
  | ok trip =>
    obtain ⟨i2, d2, g2, f2⟩ := hx
    refine ⟨i2, dext_trans hd.2.1 d2, g2, ?_⟩
    intro hb
    rcases f2 hb with h' | h'
    · cases am with
      | false => exact Or.inl rfl
      | true =>
        cases b with
        | false => exact Or.inr (dext_ne d2 (hd.2.2 rfl))
        | true => exact absurd h' (by simp)
    · exact Or.inr h'

set_option maxHeartbeats 1600000 in
/-- Joint invariant of the differ's mutual recursion: every call
preserves `DInv`, only appends diffs, and justifies a `false` verdict
(or a strict-common early abort) with a recorded diff, tracing
flag-threading loops back to their incoming flag. -/
theorem differ_inv : ∀ fuel : Nat,
    (∀ (ctx : DCtx) (old new : Value) (path : String) (pr : Option FieldRules) (s : DState),
      DInv s → EOk (POut s) (diffD ctx fuel old new path pr s)) ∧
    (∀ (ctx : DCtx) (old new : Value) (path : String) (rules : FieldRules) (s : DState),
      DInv s → EOk (POut s) (diffCore ctx fuel old new path rules s)) ∧
    (∀ (ctx : DCtx) (old new : List Value) (path : String) (rules : FieldRules) (s : DState),
      DInv s → EOk (POut s) (diffStrictArrays ctx fuel old new path rules s)) ∧
    (∀ (ctx : DCtx) (old new : List Value) (path : String) (rules : FieldRules) (s : DState),
      DInv s → EOk (POut s) (diffUnorderedArrays ctx fuel old new path rules s)) ∧
    (∀ (ctx : DCtx) (old new : List Value) (path : String) (rules : FieldRules) (s : DState),
      DInv s → EOk (POut s) (diffKeyedArrays ctx fuel old new path rules s)) ∧
    (∀ (ctx : DCtx) (keys : List String) (oldE newE : List (String × Value)) (path : String)
       (rules : FieldRules) (am : Bool) (s : DState),
      DInv s → EOk (POutA am s) (diffObjects ctx fuel keys oldE newE path rules am s)) ∧
    (∀ (ctx : DCtx) (old new : List Value) (i : Nat) (path : String) (rules : FieldRules)
       (am : Bool) (s : DState),
      DInv s → EOkSC am s (diffStrictCommon ctx fuel old new i path rules am s)) ∧
    (∀ (ctx : DCtx) (old : List Value) (i : Nat) (new : List Value) (nm : List Bool)
       (path : String) (rules : FieldRules) (s : DState),
      EOkUM s (diffUnorderedMatch ctx fuel old i new nm path rules s)) ∧
    (∀ (ctx : DCtx) (keys : List KKey) (om nm : KeyMap) (ks : Value) (path : String)
       (rules : FieldRules) (am : Bool) (s : DState),
      DInv s → EOk (POutA am s) (diffKeyedGo ctx fuel keys om nm ks path rules am s)) := by
  intro fuel
  induction fuel with
  | zero =>
    exact ⟨fun _ _ _ _ _ _ _ => trivial, fun _ _ _ _ _ _ _ => trivial,
      fun _ _ _ _ _ _ _ => trivial, fun _ _ _ _ _ _ _ => trivial,
      fun _ _ _ _ _ _ _ => trivial, fun _ _ _ _ _ _ _ _ _ => trivial,
      fun _ _ _ _ _ _ _ _ _ => trivial, fun _ _ _ _ _ _ _ _ => trivial,
      fun _ _ _ _ _ _ _ _ _ _ => trivial⟩
  | succ n ih =>
    obtain ⟨ihD, ihCore, ihStrict, ihUnord, ihKeyed, ihObj, ihSC, ihUM, ihKG⟩ := ih
    refine ⟨?_, ?_, ?_, ?_, ?_, ?_, ?_, ?_, ?_⟩
    -- diffD
    · intro ctx old new path pr s hs
      rw [diffD.eq_2]
      split
      · next habort => exact ⟨hs, dext_refl s, fun _ => hs habort⟩
      · split
        · trivial
        · split
          · split
            · trivial
            · split
              · exact pout_ok_true hs (by simp [addTrace_diffs]) (by simp [addTrace_aborted])
              · exact ihCore ctx old new path _ s hs
          · exact ihCore ctx old new path _ s hs
    -- diffCore
    · intro ctx old new path rules s hs
      rw [diffCore_succ_eq]
      split
      · exact pout_ok_true hs (by simp [addTrace_diffs]) (by simp [addTrace_aborted])
      · split
        · dsimp only
          split
          · exact pout_addDiff (dext_of_eq (addTrace_diffs ..))
          · exact pout_ok_true hs (by simp [addTrace_diffs]) (by simp [addTrace_aborted])
        · split
          · exact pout_ok_true hs rfl rfl
          · exact pout_addDiff (dext_refl s)
          · exact pout_addDiff (dext_refl s)
          · cases hc : rules.cast with
            | some c =>
              dsimp only
              split
              · exact pout_addDiff (dext_of_eq (addTrace_diffs ..))
              · have hs2 : DInv (addTrace ctx s path "x-migration-cast" "applied"
                    (some (.obj [("cast_type", .str c.toStr)]))) :=
                  inv_same (addTrace_diffs ..) (addTrace_aborted ..) hs
                have hpre : DExt s (addTrace ctx s path "x-migration-cast" "applied"
                    (some (.obj [("cast_type", .str c.toStr)]))) :=
                  dext_of_eq (addTrace_diffs ..)
                split
                · exact eok_mono (fun r hr => pout_pre hpre (pout_of_pouta_true hr)) _
                    (ihObj ctx _ _ _ path rules true _ hs2)
                · split
                  · exact eok_mono (fun r hr => pout_pre hpre hr) _
                      (ihKeyed ctx _ _ path rules _ hs2)
                  · exact eok_mono (fun r hr => pout_pre hpre hr) _
                      (ihUnord ctx _ _ path rules _ hs2)
                  · exact eok_mono (fun r hr => pout_pre hpre hr) _
                      (ihStrict ctx _ _ path rules _ hs2)
                · exact eok_mono (fun r hr => pout_pre hpre hr) _
                    (diffScalars_pout ctx _ _ path rules _ hs2)
            | none =>
              dsimp only
              split
              · exact pout_addDiff (dext_refl s)
              · split
                · exact eok_mono (fun r hr => pout_of_pouta_true hr) _
                    (ihObj ctx _ _ _ path rules true s hs)
                · split
                  · exact ihKeyed ctx _ _ path rules s hs
                  · exact ihUnord ctx _ _ path rules s hs
                  · exact ihStrict ctx _ _ path rules s hs
                · exact diffScalars_pout ctx _ _ path rules s hs
    -- diffStrictArrays
    · intro ctx old new path rules s hs
      rw [diffStrictArrays.eq_2]
      split
      next am0 s0 hslc =>
        have h0 := strictLengthCheck_pout ctx old new path rules s hs
        rw [hslc] at h0
        split
        · trivial
        · next early am1 s1 heq =>
          obtain ⟨i1, d1, e1, f1⟩ :=
            eoksc_of_eq (ihSC ctx old new 0 path rules am0 s0 h0.1) heq
          split
          · next hearly => exact ⟨i1, dext_trans h0.2.1 d1, fun _ => e1 hearly⟩
          · obtain ⟨i2, d2, f2⟩ := strictTail_pouta ctx old new path rules am1 s1 i1
            refine ⟨i2, dext_trans h0.2.1 (dext_trans d1 d2), ?_⟩
            intro hb
            rcases f2 hb with h' | h'
            · rcases f1 h' with h'' | h''
              · exact dext_ne d2 (dext_ne d1 (h0.2.2 h''))
              · exact dext_ne d2 h''
            · exact h'
    -- diffUnorderedArrays
    · intro ctx old new path rules s hs
      rw [diffUnorderedArrays.eq_2]
      split
      · trivial
      · next om nm2 s1 heq =>
        obtain ⟨hd, ha⟩ := eokum_of_eq
          (ihUM ctx old 0 new (List.replicate new.length false) path rules s) heq
        exact pout_pre (dext_of_eq hd)
          (unorderedReport_pout ctx old new om nm2 path rules s1 (inv_same hd ha hs))
    -- diffKeyedArrays
    · intro ctx old new path rules s hs
      rw [diffKeyedArrays.eq_2]
      split
      · trivial
      · next oldMap newMap duplicates heq =>
        split
        next am0 s0 hfold =>
          have hf := foldl_flag_inv
            (fun (acc : Bool × DState) d =>
              (false, addDiff ctx acc.2 path .DUPLICATE_KEY .null .null
                ("Duplicate key " ++ format_key_value d.1 ++
                  " at indices " ++ pyStr d.2)
                (some ("x-migration-array-key: " ++ pyStr rules.arrayKey))))
            (fun acc x hin => ⟨addDiff_inv, addDiff_dext, fun _ => Or.inr addDiff_ne⟩)
            duplicates (true, s) hs
          rw [hfold] at hf
          dsimp only
          refine eok_mono (fun r hr => ?_) _
            (ihKG ctx _ oldMap newMap _ path rules am0 s0 hf.1)
          obtain ⟨i2, d2, f2⟩ := hr
          refine ⟨i2, dext_trans hf.2.1 d2, ?_⟩
          intro hb
          rcases f2 hb with h' | h'
          · rcases hf.2.2 h' with h'' | h''
            · exact absurd h'' (by simp)
            · exact dext_ne d2 h''
          · exact h'
    -- diffObjects
    · intro ctx keys oldE newE path rules am s hs
      rw [diffObjects_succ_eq]
      split
      · exact pouta_id hs
      · split
        · next habort => exact ⟨hs, dext_refl s, fun _ => Or.inr (hs habort)⟩
        · dsimp only
          split
          · split
            · trivial
            · split
              · exact eok_mono (fun r hr => pouta_after_diff addDiff_ne addDiff_dext hr) _
                  (ihObj ctx _ oldE newE path rules false _ addDiff_inv)
              · exact ihObj ctx _ oldE newE path rules am s hs
          · split
            · split
              · trivial
              · split
                · split
                  · split
                    · trivial
                    · next b s2 heq =>
                      have hd := eok_of_eq (ihD ctx _ _ _ (some rules) s hs) heq
                      exact eok_mono (fun r hr => pouta_step hd hr) _
                        (ihObj ctx _ oldE newE path rules (am && b) s2 hd.1)
                  · exact eok_mono (fun r hr => pouta_after_diff addDiff_ne addDiff_dext hr) _
                      (ihObj ctx _ oldE newE path rules false _ addDiff_inv)
                · exact ihObj ctx _ oldE newE path rules am s hs
            · split
              · trivial
              · next b s2 heq =>
                have hd := eok_of_eq (ihD ctx _ _ _ (some rules) s hs) heq
                exact eok_mono (fun r hr => pouta_step hd hr) _
                  (ihObj ctx _ oldE newE path rules (am && b) s2 hd.1)
    -- diffStrictCommon
    · intro ctx old new i path rules am s hs
      rw [diffStrictCommon_succ_eq]
      split
      · exact ⟨hs, dext_refl s, fun h => Bool.noConfusion h, fun hb => Or.inl hb⟩
      · exact ⟨hs, dext_refl s, fun h => Bool.noConfusion h, fun hb => Or.inl hb⟩
      · split
        · next habort => exact ⟨hs, dext_refl s, fun _ => hs habort, fun hb => Or.inl hb⟩
        · split
          · trivial
          · next b s2 heq =>
            have hd := eok_of_eq (ihD ctx _ _ _ (some rules) s hs) heq
            exact eoksc_weaken hd (ihSC ctx _ _ (i + 1) path rules (am && b) s2 hd.1)
    -- diffUnorderedMatch
    · intro ctx old i new nm path rules s
      rw [diffUnorderedMatch_succ_eq]
      split
      · exact ⟨rfl, rfl⟩
      · split
        · trivial
        · split
          · trivial
          · next tail nm2 s2 heq =>
            obtain ⟨hd, ha⟩ := eokum_of_eq
              (ihUM ctx _ (i + 1) new _ path rules
                { s with fieldsChecked := s.fieldsChecked + 1 }) heq
            exact ⟨hd, ha⟩
        · split
          · trivial
          · next tail nm2 s2 heq =>
            obtain ⟨hd, ha⟩ := eokum_of_eq (ihUM ctx _ (i + 1) new nm path rules s) heq
            exact ⟨hd, ha⟩
    -- diffKeyedGo
    · intro ctx keys om nm ks path rules am s hs
      rw [diffKeyedGo_succ_eq]
      split
      · exact pouta_id hs
      · split
        · next habort => exact ⟨hs, dext_refl s, fun _ => Or.inr (hs habort)⟩
        · split
          · trivial
          · dsimp only
            split
            · split
              · exact eok_mono (fun r hr => pouta_pre (addWarning_diffs ..) hr) _
                  (ihKG ctx _ om nm ks path rules am _
                    (inv_same (addWarning_diffs ..) (addWarning_aborted ..) hs))
              · exact eok_mono (fun r hr => pouta_after_diff addDiff_ne addDiff_dext hr) _
                  (ihKG ctx _ om nm ks path rules false _ addDiff_inv)
            · split
              · split
                · exact eok_mono (fun r hr => pouta_pre (addWarning_diffs ..) hr) _
                    (ihKG ctx _ om nm ks path rules am _
                      (inv_same (addWarning_diffs ..) (addWarning_aborted ..) hs))
                · exact eok_mono (fun r hr => pouta_after_diff addDiff_ne addDiff_dext hr) _
                    (ihKG ctx _ om nm ks path rules false _ addDiff_inv)
              · split
                · trivial
                · next b s2 heq =>
                  have hd := eok_of_eq (ihD ctx _ _ _ (some rules) s hs) heq
                  exact eok_mono (fun r hr => pouta_step hd hr) _
                    (ihKG ctx _ om nm ks path rules (am && b) s2 hd.1)

end ShadowDiff
namespace ShadowDiff

/-- Inversion of a successful `Except` bind. -/
theorem except_bind_ok {α β : Type} {x : Except PyErr α} {f : α → Except PyErr β} {v : β}
    (h : x >>= f = .ok v) : ∃ a, x = .ok a ∧ f a = .ok v := by
  cases x with
  | ok a => exact ⟨a, rfl, h⟩
  | error e => exact absurd h (by simp [Bind.bind, Except.bind])

set_option maxHeartbeats 1000000 in
/-- C1: `compare` is total by construction (it returns a `DiffReport`
or a structured `ErrorResponse`, never raising), and in every report it
returns, `is_match` is true exactly when the diffs list is empty —
warnings never invalidate a match. -/
theorem c1_match_iff_empty_diffs (cfg : EngineConfig) (clk : Clock) (B C S : Value)
    (rep : DiffReport) (h : compare cfg clk B C S = Sum.inl rep) :
    rep.isMatch = true ↔ rep.diffs = [] := by
  unfold compare at h
  cases hp : comparePipeline cfg clk B C S with
  | error e => rw [hp] at h; exact Sum.noConfusion h
  | ok rep' =>
    rw [hp] at h
    have hrep : rep' = rep := Sum.inl.inj h
    subst hrep
    unfold comparePipeline at hp
    obtain ⟨u, h1, hp⟩ := except_bind_ok hp
    obtain ⟨rs, h2, hp⟩ := except_bind_ok hp
    obtain ⟨gr, h3, hp⟩ := except_bind_ok hp
    obtain ⟨pN, h4, hp⟩ := except_bind_ok hp
    obtain ⟨oN, nN⟩ := pN
    dsimp only at hp
    obtain ⟨tM, h5, hp⟩ := except_bind_ok hp
    obtain ⟨oM, nM, ic⟩ := tM
    dsimp only at hp
    obtain ⟨rD, h6, hp⟩ := except_bind_ok hp
    obtain ⟨im, ds⟩ := rD
    dsimp only at hp
    have hinv0 : DInv ({} : DState) := fun hab => Bool.noConfusion hab
    have hd := eok_of_eq ((differ_inv pyFuel).1 _ _ _ _ _ _ hinv0) h6
    obtain ⟨-, -, hflag⟩ := hd
    cases hcs : cfg.collectStatistics with
    | true =>
      rw [hcs] at hp
      rw [if_pos (rfl : true = true)] at hp
      obtain ⟨cov, h7, hp⟩ := except_bind_ok hp
      have hre : _ = rep' := Except.ok.inj hp
      subst hre
      dsimp only
      constructor
      · intro hm
        rw [Bool.and_eq_true] at hm
        exact List.isEmpty_iff.mp hm.2
      · intro hd0
        have he : ds.diffs.isEmpty = true := by rw [hd0]; rfl
        have him : im = true := by
          cases him0 : im
          · exact absurd hd0 (hflag him0)
          · rfl
        rw [him, he]
        rfl
    | false =>
      rw [hcs] at hp
      rw [if_neg (by decide : ¬(false = true))] at hp
      obtain ⟨cov, h7, hp⟩ := except_bind_ok hp
      have hre : _ = rep' := Except.ok.inj hp
      subst hre
      dsimp only
      constructor
      · intro hm
        rw [Bool.and_eq_true] at hm
        exact List.isEmpty_iff.mp hm.2
      · intro hd0
        have he : ds.diffs.isEmpty = true := by rw [hd0]; rfl
        have him : im = true := by
          cases him0 : im
          · exact absurd hd0 (hflag him0)
          · rfl
        rw [him, he]
        rfl

set_option maxHeartbeats 4000000 in
/-- C1 witness: a concrete matching run, with the equivalence
instantiated on its report. -/
theorem c1_match_iff_empty_diffs_witness :
    ∃ rep, compare {} clk0 s5B s5B s5Schema = Sum.inl rep ∧
      (rep.isMatch = true ↔ rep.diffs = []) := by
  cases h : compare {} clk0 s5B s5B s5Schema with
  | inl rep => exact ⟨rep, rfl, c1_match_iff_empty_diffs {} clk0 s5B s5B s5Schema rep h⟩
  | inr e =>
    have hl : (compare {} clk0 s5B s5B s5Schema).isLeft = true := by decide
    rw [h] at hl
    exact Bool.noConfusion hl

end ShadowDiff
